import Mathlib

/-!
# Teleoperation video gateway: verification development

A shallow embedding of the control-channel client (teleop/src/connection.cpp),
the signaling router (streamer/src/signaler.cpp), the per-viewer session
(streamer/src/session.cpp) and the capture pipeline
(streamer/src/video_capturer.cpp).

Conventions.
* Member functions become functions on an explicit state record; every call
  made on a collaborator (a registered handler, the Signaler, a Session, the
  websocket, a zmq socket, the media engine) is appended to a trace of events,
  in program order.  Log statements are not modelled.
* glog CHECK failures and LOG(FATAL) abort the process; an aborting function
  returns none.
* The functions run one call after the other.  The scope of the lock_guards of
  Session is visible in the traces of ConnectGuarded and NextFrameGuarded only.
* Proto messages whose declarations are not among the sources are records with
  the fields the code reads and writes.
-/

/-! ## Proto messages -/

namespace streamer

/-- Message streamer::Stream (stream.proto): where frames come from and the desired output size. -/
structure Stream where
  address : String
  topic : String
  output_width : Int
  output_height : Int
deriving DecidableEq, Repr

/-- A STUN server entry of SignalerOptions. -/
structure StunServer where
  address : String
deriving DecidableEq, Repr

/-- A TURN server entry of SignalerOptions. -/
structure TurnServer where
  address : String
  username : String
  password : String
deriving DecidableEq, Repr

/-- Message streamer::SignalerOptions (signaler_options.proto). -/
structure SignalerOptions where
  stun_servers : List StunServer
  turn_servers : List TurnServer
  min_udp_port : Int
  max_udp_port : Int
deriving DecidableEq, Repr

end streamer

namespace teleop

/-- Enum teleop::CameraRole; the code names FrontFisheye and RearFisheye only. -/
inductive CameraRole where
  | FrontFisheye
  | RearFisheye
  | OtherRole (tag : Nat)
deriving DecidableEq, Repr

/-- Message hal::Device, of which the code reads the name. -/
structure Device where
  name : String
deriving DecidableEq, Repr

/-- Message calibration::CameraIntrinsicCalibration, of which the code reads the
device under calibration; the parameters are kept as their serialized bytes. -/
structure CameraIntrinsicCalibration where
  cameraundercalibration : Device
  bytes : String
deriving DecidableEq, Repr

/-- Message calibration::CoordinateFrame, of which the code reads the device. -/
structure CoordinateFrame where
  device : Device
deriving DecidableEq, Repr

/-- Message calibration::CoordinateTransformation, of which the code reads the
target coordinate frame; the transformation is kept as its serialized bytes. -/
structure CoordinateTransformation where
  targetcoordinateframe : CoordinateFrame
  bytes : String
deriving DecidableEq, Repr

/-- Message calibration::SystemCalibration, of which the code reads the two
repeated fields. -/
structure SystemCalibration where
  cameraintrinsiccalibration : List CameraIntrinsicCalibration
  devicetodevicecoordinatetransformation : List CoordinateTransformation
deriving DecidableEq, Repr

/-- Message panorama::PanoramaCalibration: the intrinsics, kept as their
serialized bytes, and one transformation. -/
structure PanoramaCalibration where
  intrinsics : String
  devicetodevicecoordinatetransformation : CoordinateTransformation
deriving DecidableEq, Repr

/-- Camera identity: device and role, and the calibration fields that
populateCalibrationParameters writes (unset until then). -/
structure Camera where
  device : Device
  role : CameraRole
  camera_intrinsics : Option CameraIntrinsicCalibration := none
  panorama_intrinsics : Option String := none
  extrinsics : Option CoordinateTransformation := none
deriving DecidableEq, Repr

/-- Message teleop::VideoSource: a camera and the stream it is published on. -/
structure VideoSource where
  camera : Camera
  source : streamer.Stream
deriving DecidableEq, Repr

/-- Message teleop::ConnectionOptions (connection_options.proto). -/
structure ConnectionOptions where
  backend_address : String
  vehicle_id : String
  auth_token : String
  jpeg_quality : Int
  webrtc : streamer.SignalerOptions
  video_sources : List VideoSource
deriving DecidableEq, Repr

/-- Body of a command message (JoystickCommand, PointAndGoCommand, DockCommand,
StopCommand, TurnInPlaceCommand, ErrorStateResetCommand, ExposureCommand,
ResetExposureCommand).  HandleMessage only passes it on, so it is kept as its
serialized bytes. -/
structure Command where
  bytes : String
deriving DecidableEq, Repr

/-- Message teleop::VideoRequest. -/
structure VideoRequest where
  connection_id : String
  camera : String
  width : Int
  height : Int
deriving DecidableEq, Repr

/-- Enum teleop::SDPStatus; the code names Offered only. -/
inductive SDPStatus where
  | Offered
  | Answered
deriving DecidableEq, Repr

/-- Message teleop::SDPRequest. -/
structure SDPRequest where
  connection_id : String
  sdp : String
  status : SDPStatus
deriving DecidableEq, Repr

/-- Message teleop::ICECandidate. -/
structure ICECandidate where
  connection_id : String
  sdp_mid : String
  sdp_mline_index : Int
  candidate : String
deriving DecidableEq, Repr

/-- Modelled from the spec: the declaration of teleop::BackendMessage
(backend_message.proto) is not among the sources.  The inbound envelope is an
optional message id and one optional field per command kind of section 3 of
the specification (has_x() is isSome).  Every field but exposure is also read
by Connection::HandleMessage; the exposure field is the command kind exposure,
whose payload type ExposureCommand connection.h names. -/
structure BackendMessage where
  id : String
  joystick : Option Command
  pointandgo : Option Command
  dock_command : Option Command
  stop_command : Option Command
  errorstateresetcommand : Option Command
  turninplace : Option Command
  exposure : Option Command
  reset_exposure : Option Command
  videorequest : Option VideoRequest
  sdprequest : Option SDPRequest
  icecandidate : Option ICECandidate
deriving DecidableEq, Repr

/-- Enum teleop::Confirmation::Status. -/
inductive ConfirmationStatus where
  | SUCCESS
  | FAILURE
deriving DecidableEq, Repr

/-- Message teleop::Confirmation. -/
structure Confirmation where
  message_id : String
  status : ConfirmationStatus
deriving DecidableEq, Repr

/-- Message teleop::Manifest: the cameras offered. -/
structure Manifest where
  cameras : List Camera
deriving DecidableEq, Repr

/-- Message teleop::VehicleMessage, the outbound envelope, with the fields
written by connection.cpp and signaler.cpp. -/
structure VehicleMessage where
  confirmation : Option Confirmation
  manifest : Option Manifest
  sdprequest : Option SDPRequest
  icecandidate : Option ICECandidate
deriving DecidableEq, Repr

/-- A default-constructed VehicleMessage. -/
def VehicleMessage.empty : VehicleMessage :=
  { confirmation := none, manifest := none, sdprequest := none, icecandidate := none }

/-- A default-constructed BackendMessage. -/
def BackendMessage.empty : BackendMessage :=
  { id := "", joystick := none, pointandgo := none, dock_command := none,
    stop_command := none, errorstateresetcommand := none, turninplace := none,
    exposure := none, reset_exposure := none, videorequest := none,
    sdprequest := none, icecandidate := none }

end teleop

/-! ## Session (streamer/src/session.cpp) -/

namespace streamer

/-- A zmq subscribe socket as Session::Connect builds it.  The field id is the
identity of the socket object: the number of sockets the context had created
before it. -/
structure Socket where
  id : Nat
  rcvhwm : Int
  address : String
  topic : String
deriving DecidableEq, Repr

/-- The zmq context shared by the sessions of one Signaler. -/
structure ZmqContext where
  created : Nat
deriving DecidableEq, Repr

/-- A std::function stored in a handler slot.  The three lambdas that
Signaler::Impl::CreateSession installs capture the connection id; any other
callable is identified by a number. -/
inductive Callback where
  | Foreign (tag : Nat)
  | SDPCreatedLambda (conn_id : String)
  | IceCandidateLambda (conn_id : String)
  | SignalingChangeLambda (conn_id : String)
deriving DecidableEq, Repr

/-- webrtc::FakeConstraints as CreateSession configures it. -/
structure Constraints where
  receive_audio : Option Bool
  receive_video : Option Bool
  allow_dtls_sctp : Bool
deriving DecidableEq, Repr

/-- The sample type tag of hal::Image. -/
inductive PixelType where
  | PB_UNSIGNED_BYTE
  | PB_OTHER_TYPE (tag : Nat)
deriving DecidableEq, Repr

/-- The pixel format tag of hal::Image. -/
inductive Format where
  | PB_LUMINANCE
  | PB_RGB
  | PB_RGBA
  | PB_OTHER_FORMAT (tag : Nat)
deriving DecidableEq, Repr

/-- Message hal::Image.  Fields cols, rows and stride are uint32 (values below
2^32); data is the byte string, one number below 256 per byte. -/
structure Image where
  cols : Nat
  rows : Nat
  stride : Nat
  type : PixelType
  format : Format
  data : List Nat
deriving DecidableEq, Repr

/-- Message hal::CameraSample, of which the pipeline reads the image. -/
structure CameraSample where
  image : Image
deriving DecidableEq, Repr

/-- Filter modes of libyuv. -/
inductive FilterMode where
  | kFilterNone
  | kFilterLinear
  | kFilterBilinear
  | kFilterBox
deriving DecidableEq, Repr

/-- Four-character codes passed to libyuv::ConvertToI420. -/
inductive FourCC where
  | FOURCC_RGBA
  | FOURCC_RAW
deriving DecidableEq, Repr

/-- A webrtc::I420Buffer: dimensions, strides and the three planes. -/
structure I420Buffer where
  width : Int
  height : Int
  stride_y : Int
  stride_u : Int
  stride_v : Int
  data_y : List Nat
  data_u : List Nat
  data_v : List Nat
deriving DecidableEq, Repr

/-- Which member of VideoCapturer a frame pointer aliases. -/
inductive BufferSlot where
  | unscaled
  | scaled
deriving DecidableEq, Repr

/-- A webrtc::SessionDescriptionInterface as the code uses it: ToString yields
the serialized SDP, or fails (none). -/
structure SessionDescription where
  ToString : Option String
deriving DecidableEq, Repr

/-- A webrtc::IceCandidateInterface as the code uses it: the mid, the m-line
index, and ToString, which yields the serialized candidate or fails (none). -/
structure IceCandidate where
  sdp_mid : String
  sdp_mline_index : Int
  ToString : Option String
deriving DecidableEq, Repr

/-- The argument a handler of Session is called with: nothing (renegotiation
needed, closed), a state of the engine (signaling, ICE connection, ICE
gathering), a media stream or data channel, an ICE candidate, a session
description, or an error string. -/
inductive HandlerArg where
  | void
  | state (value : Nat)
  | stream (id : Nat)
  | channel (id : Nat)
  | candidate (c : IceCandidate)
  | description (d : SessionDescription)
  | error (text : String)
deriving DecidableEq, Repr

/-- The states of cricket::CaptureState. -/
inductive CaptureState where
  | CS_STOPPED
  | CS_STARTING
  | CS_RUNNING
  | CS_FAILED
deriving DecidableEq, Repr

/-- A cricket::VideoFormat. -/
structure VideoFormat where
  width : Int
  height : Int
  interval : Int
  fourcc : Nat
deriving DecidableEq, Repr

/-- Calls made on collaborators, in program order. -/
inductive Event where
  /- zmq -/
  | SocketCreate (id : Nat)
  | SocketSetRcvHwm (id : Nat) (value : Int)
  | SocketConnect (id : Nat) (address : String)
  | SocketSubscribe (id : Nat) (topic : String)
  | SocketDestroy (id : Nat)
  | Receive (id : Nat) (timeout_ms : Nat)
  /- member functions of Session called by the Signaler -/
  | SessionConstruct (label : String)
  | SessionConnect (label : String) (source : Stream)
  | SessionOnSDPCreated (label : String) (h : Callback)
  | SessionOnIceCandidate (label : String) (h : Callback)
  | SessionOnSignalingChange (label : String) (h : Callback)
  | SessionSetConnection (label : String) (pc : Nat)
  | SessionCreateOffer (label : String)
  | SessionSetRemoteDescription (label : String) (type : String) (sdp : String)
  | SessionAddIceCandidate (label : String) (mid : String) (mlineindex : Int) (sdp : String)
  /- media engine -/
  | CapturerConstruct (session_label : String)
  | CreateVideoTrack (label : String)
  | CreateLocalMediaStream (label : String)
  | SetPortRange (min_port : Int) (max_port : Int)
  | AddTurnServer (address : String) (username : String) (password : String)
  | CreatePeerConnection (pc : Nat) (observer_of : String)
  | PcAddStream (pc : Nat) (label : String)
  | PcCreateOffer (pc : Nat)
  | PcCreateAnswer (pc : Nat)
  | PcSetLocalDescription (pc : Nat) (sdp : String)
  | PcSetRemoteDescription (pc : Nat) (type : String) (sdp : String)
  | PcAddIceCandidate (pc : Nat) (mid : String) (mlineindex : Int) (sdp : String)
  | PcClose (pc : Nat)
  /- handlers -/
  | Invoke (h : Callback) (arg : HandlerArg)
  | Emit (msg : teleop.VehicleMessage)
  | EmitDropped (msg : teleop.VehicleMessage)
  /- libyuv and the video pipeline -/
  | I420BufferCreate (slot : BufferSlot) (width : Int) (height : Int) (stride_y : Int) (stride_u : Int) (stride_v : Int)
  | I400ToI420 (cols : Nat) (rows : Nat)
  | ConvertToI420 (fourcc : FourCC) (cols : Nat) (rows : Nat)
  | I420Scale (src_width : Int) (src_height : Int) (dst_width : Int) (dst_height : Int) (filter : FilterMode)
  | OnFrame (slot : BufferSlot) (frame : I420Buffer) (width : Int) (height : Int) (rotation : Nat)
  /- the capture thread -/
  | ThreadSpawn
  | ThreadJoin
  | MutexLock
  | MutexUnlock
deriving DecidableEq, Repr

/-- The state of a Session object (session.h).  A null pointer is none. -/
structure Session where
  m_label : String
  m_connection : Option Nat
  m_constraints : Constraints
  m_add_stream_handler : Option Callback
  m_remove_stream_handler : Option Callback
  m_data_channel_handler : Option Callback
  m_ice_candidate_handler : Option Callback
  m_signaling_change_handler : Option Callback
  m_ice_connection_change_handler : Option Callback
  m_ice_gathering_change_handler : Option Callback
  m_renegotiation_needed_handler : Option Callback
  m_closed_handler : Option Callback
  m_sdp_created_handler : Option Callback
  m_sdp_failure_handler : Option Callback
  m_frame_socket : Option Socket
  m_next_frame_socket : Option Socket
  m_output_width : Int
  m_output_height : Int
deriving DecidableEq, Repr

namespace Session

/-- Session::Session(label, ctx): no connection, no handlers, no sockets.  The
constructor leaves m_output_width and m_output_height uninitialised; 0 stands
for that indeterminate value, which Connect overwrites before NextFrame can
read it. -/
def new (label : String) : Session :=
  { m_label := label, m_connection := none,
    m_constraints := { receive_audio := none, receive_video := none, allow_dtls_sctp := false },
    m_add_stream_handler := none, m_remove_stream_handler := none,
    m_data_channel_handler := none, m_ice_candidate_handler := none,
    m_signaling_change_handler := none, m_ice_connection_change_handler := none,
    m_ice_gathering_change_handler := none, m_renegotiation_needed_handler := none,
    m_closed_handler := none, m_sdp_created_handler := none, m_sdp_failure_handler := none,
    m_frame_socket := none, m_next_frame_socket := none,
    m_output_width := 0, m_output_height := 0 }

/-- Destruction of the socket a unique_ptr owned, when it owned one. -/
def dropSocket : Option Socket → List Event
  | none => []
  | some s => [Event.SocketDestroy s.id]

/-- Session::Connect (session.cpp:162-177).  A new subscriber is created, given
receive high-water mark 1, connected and subscribed; then, under the lock, it
is move-assigned to m_next_frame_socket (which destroys the socket that was
pending) and the output size is recorded. -/
def Connect (s : Session) (ctx : ZmqContext) (source : Stream) : Session × ZmqContext × List Event :=
  let subscriber : Socket :=
    { id := ctx.created, rcvhwm := 1, address := source.address, topic := source.topic }
  ({ s with m_next_frame_socket := some subscriber,
            m_output_width := source.output_width,
            m_output_height := source.output_height },
   { created := ctx.created + 1 },
   [Event.SocketCreate subscriber.id,
    Event.SocketSetRcvHwm subscriber.id 1,
    Event.SocketConnect subscriber.id source.address,
    Event.SocketSubscribe subscriber.id source.topic]
    ++ dropSocket s.m_next_frame_socket)

/-- The locked block of Session::NextFrame (session.cpp:185-190): a pending
socket, if any, is moved into m_frame_socket, destroying the socket it
replaces and leaving m_next_frame_socket null. -/
def promote (s : Session) : Session × List Event :=
  match s.m_next_frame_socket with
  | some next =>
    ({ s with m_frame_socket := some next, m_next_frame_socket := none },
     dropSocket s.m_frame_socket)
  | none => (s, [])

/-- Session::NextFrame (session.cpp:179-201).  The argument recv is the outcome
of net::receive with a 100 ms timeout on a given socket at this call (none on
timeout).  The result is none when m_frame_socket is null at the dereference.
Otherwise it is the new state, the trace, and on success the sample with the
output width and height. -/
def NextFrame (s : Session) (recv : Socket → Option CameraSample) :
    Option (Session × List Event × Option (CameraSample × Int × Int)) :=
  let (s1, ev) := promote s
  match s1.m_frame_socket with
  | none => none
  | some sock =>
    match recv sock with
    | none => some (s1, ev ++ [Event.Receive sock.id 100], none)
    | some sample =>
      some (s1, ev ++ [Event.Receive sock.id 100],
            some (sample, s1.m_output_width, s1.m_output_height))

/-- Session::Connect (session.cpp:162-177) with the scope of the lock_guard on
m_socket_guard in the trace: the state and the calls are those of Connect, and
the mutex is acquired at the declaration of the guard (session.cpp:171) and
released where the function ends. -/
def ConnectGuarded (s : Session) (ctx : ZmqContext) (source : Stream) :
    Session × ZmqContext × List Event :=
  let subscriber : Socket :=
    { id := ctx.created, rcvhwm := 1, address := source.address, topic := source.topic }
  ({ s with m_next_frame_socket := some subscriber,
            m_output_width := source.output_width,
            m_output_height := source.output_height },
   { created := ctx.created + 1 },
   [Event.SocketCreate subscriber.id,
    Event.SocketSetRcvHwm subscriber.id 1,
    Event.SocketConnect subscriber.id source.address,
    Event.SocketSubscribe subscriber.id source.topic]
    ++ [Event.MutexLock] ++ dropSocket s.m_next_frame_socket ++ [Event.MutexUnlock])

/-- Session::NextFrame (session.cpp:179-201) with the scope of the lock_guard on
m_socket_guard in the trace: the mutex is acquired where the block opens
(session.cpp:186) and released where the block closes (session.cpp:190), before
the receive. -/
def NextFrameGuarded (s : Session) (recv : Socket → Option CameraSample) :
    Option (Session × List Event × Option (CameraSample × Int × Int)) :=
  let (s1, ev) := promote s
  let evBlock := [Event.MutexLock] ++ ev ++ [Event.MutexUnlock]
  match s1.m_frame_socket with
  | none => none
  | some sock =>
    match recv sock with
    | none => some (s1, evBlock ++ [Event.Receive sock.id 100], none)
    | some sample =>
      some (s1, evBlock ++ [Event.Receive sock.id 100],
            some (sample, s1.m_output_width, s1.m_output_height))

/-- A run of Connect calls on one session, one per stream, in order; the traces
are concatenated. -/
def connects (s : Session) (ctx : ZmqContext) : List Stream → Session × ZmqContext × List Event
  | [] => (s, ctx, [])
  | source :: rest =>
    let r1 := s.Connect ctx source
    let r2 := connects r1.1 r1.2.1 rest
    (r2.1, r2.2.1, r1.2.2 ++ r2.2.2)

/-- Session::CreateOffer (session.cpp:131-134): CHECK_NOTNULL(m_connection), then
the offer is requested from the peer connection. -/
def CreateOffer (s : Session) : Option (List Event) :=
  match s.m_connection with
  | none => none
  | some pc => some [Event.PcCreateOffer pc]

/-- Session::SetConnection (session.h:77). -/
def SetConnection (s : Session) (conn : Nat) : Session :=
  { s with m_connection := some conn }

/-- Session::SetRemoteDescription (session.cpp:136-148).  The argument parses
is the outcome of webrtc::CreateSessionDescription on (type, sdp).  The result
is none when the description parsed and m_connection is null at the
dereference. -/
def SetRemoteDescription (s : Session) (parses : String → String → Bool)
    (type : String) (sdp : String) : Option (List Event) :=
  if parses type sdp = false then some []
  else
    match s.m_connection with
    | none => none
    | some pc =>
      some ([Event.PcSetRemoteDescription pc type sdp]
        ++ (if type = "offer" then [Event.PcCreateAnswer pc] else []))

/-- Session::AddIceCandidate (session.cpp:150-158).  The argument parses is the
outcome of webrtc::CreateIceCandidate.  The result is none when the candidate
parsed and m_connection is null at the dereference. -/
def AddIceCandidate (s : Session) (parses : String → Int → String → Bool)
    (mid : String) (mlineindex : Int) (sdp : String) : Option (List Event) :=
  if parses mid mlineindex sdp = false then some []
  else
    match s.m_connection with
    | none => none
    | some pc => some [Event.PcAddIceCandidate pc mid mlineindex sdp]

/-- What a stored callable does when it is called with an argument: the calls
it makes in turn.  The Session only calls it; the Signaler supplies the bodies
of its own lambdas. -/
abbrev Callables := Callback → HandlerArg → List Event

/-- A guarded handler call, as every member of Session::Observer makes it: an
empty slot is skipped, a callable is called with the argument. -/
def invoke (run : Callables) (slot : Option Callback) (arg : HandlerArg) : List Event :=
  match slot with
  | none => []
  | some h => Event.Invoke h arg :: run h arg

/-- Session::OnAddStream (session.h:35). -/
def OnAddStream (s : Session) (h : Callback) : Session :=
  { s with m_add_stream_handler := some h }

/-- Session::OnRemoveStream (session.h:36). -/
def OnRemoveStream (s : Session) (h : Callback) : Session :=
  { s with m_remove_stream_handler := some h }

/-- Session::OnDataChannel (session.h:37). -/
def OnDataChannel (s : Session) (h : Callback) : Session :=
  { s with m_data_channel_handler := some h }

/-- Session::OnIceCandidate (session.h:38). -/
def OnIceCandidate (s : Session) (h : Callback) : Session :=
  { s with m_ice_candidate_handler := some h }

/-- Session::OnSignalingChange (session.h:39). -/
def OnSignalingChange (s : Session) (h : Callback) : Session :=
  { s with m_signaling_change_handler := some h }

/-- Session::OnIceConnectionChange (session.h:40). -/
def OnIceConnectionChange (s : Session) (h : Callback) : Session :=
  { s with m_ice_connection_change_handler := some h }

/-- Session::OnIceGatheringChange (session.h:41). -/
def OnIceGatheringChange (s : Session) (h : Callback) : Session :=
  { s with m_ice_gathering_change_handler := some h }

/-- Session::OnRenegotiationNeeded (session.h:42). -/
def OnRenegotiationNeeded (s : Session) (h : Callback) : Session :=
  { s with m_renegotiation_needed_handler := some h }

/-- Session::OnSDPCreated (session.h:43). -/
def OnSDPCreated (s : Session) (h : Callback) : Session :=
  { s with m_sdp_created_handler := some h }

/-- Session::OnSDPFailure (session.h:44). -/
def OnSDPFailure (s : Session) (h : Callback) : Session :=
  { s with m_sdp_failure_handler := some h }

/-- Session::OnClosed (session.h:45). -/
def OnClosed (s : Session) (h : Callback) : Session :=
  { s with m_closed_handler := some h }

/-- Session::CloseConnection (session.cpp:120-129): when a connection is held it
is closed and then the closed handler, if any, is called; no member is
written. -/
def CloseConnection (s : Session) (run : Callables) : Session × List Event :=
  match s.m_connection with
  | some pc => (s, Event.PcClose pc :: invoke run s.m_closed_handler HandlerArg.void)
  | none => (s, [])

/-- The member functions that store a handler in a session (session.h:35-65). -/
inductive Setter where
  | OnAddStream
  | OnRemoveStream
  | OnDataChannel
  | OnIceCandidate
  | OnSignalingChange
  | OnIceConnectionChange
  | OnIceGatheringChange
  | OnRenegotiationNeeded
  | OnSDPCreated
  | OnSDPFailure
  | OnClosed
deriving DecidableEq, Repr

/-- The call of a setter on a session. -/
def register (s : Session) (h : Callback) : Setter → Session
  | Setter.OnAddStream => s.OnAddStream h
  | Setter.OnRemoveStream => s.OnRemoveStream h
  | Setter.OnDataChannel => s.OnDataChannel h
  | Setter.OnIceCandidate => s.OnIceCandidate h
  | Setter.OnSignalingChange => s.OnSignalingChange h
  | Setter.OnIceConnectionChange => s.OnIceConnectionChange h
  | Setter.OnIceGatheringChange => s.OnIceGatheringChange h
  | Setter.OnRenegotiationNeeded => s.OnRenegotiationNeeded h
  | Setter.OnSDPCreated => s.OnSDPCreated h
  | Setter.OnSDPFailure => s.OnSDPFailure h
  | Setter.OnClosed => s.OnClosed h

/-- A call on a session of a member function that writes a member, or of
NextFrame or CloseConnection.  (CreateOffer, SetRemoteDescription and
AddIceCandidate write no member.) -/
inductive Call where
  | Connect (source : Stream)
  | NextFrame (recv : Socket → Option CameraSample)
  | SetConnection (conn : Nat)
  | CloseConnection
  | Register (setter : Setter) (h : Callback)

/-- A sequence of calls on one session, one after the other; the traces are
concatenated.  The result is none when a NextFrame dereferences a null
m_frame_socket. -/
def calls (run : Callables) :
    Session → ZmqContext → List Call → Option (Session × ZmqContext × List Event)
  | s, ctx, [] => some (s, ctx, [])
  | s, ctx, Call.Connect source :: rest =>
    let r := s.Connect ctx source
    match calls run r.1 r.2.1 rest with
    | none => none
    | some (s1, ctx1, tr) => some (s1, ctx1, r.2.2 ++ tr)
  | s, ctx, Call.NextFrame recv :: rest =>
    match s.NextFrame recv with
    | none => none
    | some (s0, ev, _) =>
      match calls run s0 ctx rest with
      | none => none
      | some (s1, ctx1, tr) => some (s1, ctx1, ev ++ tr)
  | s, ctx, Call.SetConnection conn :: rest => calls run (s.SetConnection conn) ctx rest
  | s, ctx, Call.CloseConnection :: rest =>
    let r := s.CloseConnection run
    match calls run r.1 ctx rest with
    | none => none
    | some (s1, ctx1, tr) => some (s1, ctx1, r.2 ++ tr)
  | s, ctx, Call.Register setter h :: rest => calls run (s.register h setter) ctx rest

/-- The session has a socket to read from at the next NextFrame: a current one,
or a pending one that the call will promote. -/
def hasSource (s : Session) : Bool :=
  s.m_frame_socket.isSome || s.m_next_frame_socket.isSome

/-- The session and the trace after Session::SetRemoteDescription: the function
writes no member, so the session is the one it was called on. -/
def afterSetRemoteDescription (s : Session) (parses : String → String → Bool)
    (type : String) (sdp : String) : Option (Session × List Event) :=
  match s.SetRemoteDescription parses type sdp with
  | none => none
  | some ev => some (s, ev)

namespace Observer

/-- Session::Observer::OnSignalingChange (session.cpp:31-35). -/
def OnSignalingChange (s : Session) (run : Callables) (new_state : Nat) : Option (List Event) :=
  some (invoke run s.m_signaling_change_handler (HandlerArg.state new_state))

/-- Session::Observer::OnIceConnectionChange (session.cpp:37-41). -/
def OnIceConnectionChange (s : Session) (run : Callables) (new_state : Nat) :
    Option (List Event) :=
  some (invoke run s.m_ice_connection_change_handler (HandlerArg.state new_state))

/-- Session::Observer::OnIceGatheringChange (session.cpp:43-47). -/
def OnIceGatheringChange (s : Session) (run : Callables) (new_state : Nat) :
    Option (List Event) :=
  some (invoke run s.m_ice_gathering_change_handler (HandlerArg.state new_state))

/-- Session::Observer::OnRenegotiationNeeded (session.cpp:49-53). -/
def OnRenegotiationNeeded (s : Session) (run : Callables) : Option (List Event) :=
  some (invoke run s.m_renegotiation_needed_handler HandlerArg.void)

/-- Session::Observer::OnAddStream on a scoped_refptr (session.cpp:55-59). -/
def OnAddStream (s : Session) (run : Callables) (stream : Nat) : Option (List Event) :=
  some (invoke run s.m_add_stream_handler (HandlerArg.stream stream))

/-- Session::Observer::OnRemoveStream on a scoped_refptr (session.cpp:61-65). -/
def OnRemoveStream (s : Session) (run : Callables) (stream : Nat) : Option (List Event) :=
  some (invoke run s.m_remove_stream_handler (HandlerArg.stream stream))

/-- Session::Observer::OnDataChannel (session.cpp:67-71). -/
def OnDataChannel (s : Session) (run : Callables) (channel : Nat) : Option (List Event) :=
  some (invoke run s.m_data_channel_handler (HandlerArg.channel channel))

/-- Session::Observer::OnIceCandidate (session.cpp:77-81). -/
def OnIceCandidate (s : Session) (run : Callables) (candidate : IceCandidate) :
    Option (List Event) :=
  some (invoke run s.m_ice_candidate_handler (HandlerArg.candidate candidate))

/-- Session::Observer::OnSuccess (session.cpp:83-90): the description is set as
the local description of the connection, then the SDP-created handler, if any,
is called.  The result is none when m_connection is null at the dereference.
The SDP recorded with the engine call is the serialized description, empty
when it does not serialize. -/
def OnSuccess (s : Session) (run : Callables) (desc : SessionDescription) :
    Option (List Event) :=
  match s.m_connection with
  | none => none
  | some pc =>
    some (Event.PcSetLocalDescription pc (desc.ToString.getD "")
      :: invoke run s.m_sdp_created_handler (HandlerArg.description desc))

/-- Session::Observer::OnFailure (session.cpp:92-98). -/
def OnFailure (s : Session) (run : Callables) (error : String) : Option (List Event) :=
  some (invoke run s.m_sdp_failure_handler (HandlerArg.error error))

end Observer

/-- The ten kinds of event the media engine delivers to the observer of a
session, with their arguments. -/
inductive Notification where
  | StreamAdded (stream : Nat)
  | StreamRemoved (stream : Nat)
  | DataChannel (channel : Nat)
  | IceCandidate (candidate : streamer.IceCandidate)
  | SignalingChange (new_state : Nat)
  | IceConnectionChange (new_state : Nat)
  | IceGatheringChange (new_state : Nat)
  | RenegotiationNeeded
  | SDPCreated (desc : SessionDescription)
  | SDPFailure (error : String)
deriving DecidableEq, Repr

/-- The handler slot of the session that serves a kind of event. -/
def handlerFor (s : Session) : Notification → Option Callback
  | Notification.StreamAdded _ => s.m_add_stream_handler
  | Notification.StreamRemoved _ => s.m_remove_stream_handler
  | Notification.DataChannel _ => s.m_data_channel_handler
  | Notification.IceCandidate _ => s.m_ice_candidate_handler
  | Notification.SignalingChange _ => s.m_signaling_change_handler
  | Notification.IceConnectionChange _ => s.m_ice_connection_change_handler
  | Notification.IceGatheringChange _ => s.m_ice_gathering_change_handler
  | Notification.RenegotiationNeeded => s.m_renegotiation_needed_handler
  | Notification.SDPCreated _ => s.m_sdp_created_handler
  | Notification.SDPFailure _ => s.m_sdp_failure_handler

/-- Delivery of an event by the media engine: the member of Session::Observer
for its kind is called. -/
def deliver (s : Session) (run : Callables) : Notification → Option (List Event)
  | Notification.StreamAdded stream => Observer.OnAddStream s run stream
  | Notification.StreamRemoved stream => Observer.OnRemoveStream s run stream
  | Notification.DataChannel channel => Observer.OnDataChannel s run channel
  | Notification.IceCandidate candidate => Observer.OnIceCandidate s run candidate
  | Notification.SignalingChange new_state => Observer.OnSignalingChange s run new_state
  | Notification.IceConnectionChange new_state => Observer.OnIceConnectionChange s run new_state
  | Notification.IceGatheringChange new_state => Observer.OnIceGatheringChange s run new_state
  | Notification.RenegotiationNeeded => Observer.OnRenegotiationNeeded s run
  | Notification.SDPCreated desc => Observer.OnSuccess s run desc
  | Notification.SDPFailure error => Observer.OnFailure s run error

end Session

end streamer

/-! ## Signaler (streamer/src/signaler.cpp) -/

namespace streamer

/-- Parsers of the media engine, whose outcome the code branches on. -/
structure Engine where
  /-- Success of rtc::SocketAddress::FromString. -/
  SocketAddressFromString : String → Bool
  /-- Success of webrtc::CreateSessionDescription (type, sdp). -/
  CreateSessionDescription : String → String → Bool
  /-- Success of webrtc::CreateIceCandidate (mid, mlineindex, sdp). -/
  CreateIceCandidate : String → Int → String → Bool

/-- The state of a Signaler with its Impl: the emit handler of the facade, the
zmq context, the options, the map from connection id to session (std::map as
an association list with one entry per key) and the number of peer
connections the factory has created, which names the next one. -/
structure Signaler where
  m_emit_handler : Option Callback
  m_ctx : ZmqContext
  m_opts : SignalerOptions
  m_sessions : List (String × Session)
  pc_created : Nat
deriving DecidableEq, Repr

/-- Lookup in the registry: m_sessions.find(key), none for end(). -/
def mapFind : List (String × Session) → String → Option Session
  | [], _ => none
  | (k, v) :: rest, key => if k = key then some v else mapFind rest key

/-- Assignment in the registry: m_sessions[key] = value, also the write-back of a
session mutated through its shared pointer. -/
def mapAssign : List (String × Session) → String → Session → List (String × Session)
  | [], key, value => [(key, value)]
  | (k, v) :: rest, key, value =>
    if k = key then (key, value) :: rest else (k, v) :: mapAssign rest key value

namespace Signaler

/-- Signaler::Signaler (signaler.cpp:322-327) after Impl::Impl: the engine
threads and factory are taken to start; both UDP ports are checked non-zero. -/
def new (opts : SignalerOptions) : Option Signaler :=
  if opts.min_udp_port = 0 then none
  else if opts.max_udp_port = 0 then none
  else some { m_emit_handler := none, m_ctx := { created := 0 }, m_opts := opts,
              m_sessions := [], pc_created := 0 }

/-- Signaler::OnEmit (signaler.h:24). -/
def OnEmit (sig : Signaler) (handler : Callback) : Signaler :=
  { sig with m_emit_handler := some handler }

/-- The STUN loop of CreateSession (signaler.cpp:198-203): every address must
parse, else the CHECK aborts. -/
def stunLoop (eng : Engine) : List StunServer → Option Unit
  | [] => some ()
  | item :: rest =>
    if eng.SocketAddressFromString item.address then stunLoop eng rest else none

/-- The TURN loop of CreateSession (signaler.cpp:211-217): every address must
parse, else the CHECK aborts; each server is added to the port allocator. -/
def turnLoop (eng : Engine) : List TurnServer → Option (List Event)
  | [] => some []
  | item :: rest =>
    if eng.SocketAddressFromString item.address then
      match turnLoop eng rest with
      | none => none
      | some ev => some (Event.AddTurnServer item.address item.username item.password :: ev)
    else none

/-- Signaler::Impl::CreateSession (signaler.cpp:113-242). -/
def CreateSession (eng : Engine) (sig : Signaler) (conn_id : String) (source : Stream) :
    Option (Signaler × List Event) :=
  let session0 := Session.new conn_id
  let (session1, ctx1, evConnect) := session0.Connect sig.m_ctx source
  let session2 : Session :=
    { session1 with
      m_sdp_created_handler := some (Callback.SDPCreatedLambda conn_id),
      m_ice_candidate_handler := some (Callback.IceCandidateLambda conn_id),
      m_signaling_change_handler := some (Callback.SignalingChangeLambda conn_id) }
  let session3 : Session :=
    { session2 with
      m_constraints := { receive_audio := some false, receive_video := some false,
                         allow_dtls_sctp := true } }
  let evSetup : List Event :=
    [Event.SessionConstruct conn_id, Event.SessionConnect conn_id source] ++ evConnect ++
    [Event.SessionOnSDPCreated conn_id (Callback.SDPCreatedLambda conn_id),
     Event.SessionOnIceCandidate conn_id (Callback.IceCandidateLambda conn_id),
     Event.SessionOnSignalingChange conn_id (Callback.SignalingChangeLambda conn_id),
     Event.CapturerConstruct conn_id,
     Event.CreateVideoTrack conn_id,
     Event.CreateLocalMediaStream conn_id]
  match stunLoop eng sig.m_opts.stun_servers with
  | none => none
  | some _ =>
    match turnLoop eng sig.m_opts.turn_servers with
    | none => none
    | some evTurn =>
      let connection := sig.pc_created
      let session4 := session3.SetConnection connection
      match session4.CreateOffer with
      | none => none
      | some evOffer =>
        some ({ sig with m_ctx := ctx1,
                         m_sessions := mapAssign sig.m_sessions conn_id session4,
                         pc_created := sig.pc_created + 1 },
              evSetup
              ++ [Event.SetPortRange sig.m_opts.min_udp_port sig.m_opts.max_udp_port]
              ++ evTurn
              ++ [Event.CreatePeerConnection connection conn_id,
                  Event.PcAddStream connection conn_id,
                  Event.SessionSetConnection conn_id connection,
                  Event.SessionCreateOffer conn_id]
              ++ evOffer)

/-- Signaler::Impl::HandleVideoRequest (signaler.cpp:100-111). -/
def HandleVideoRequest (eng : Engine) (sig : Signaler) (conn_id : String) (source : Stream) :
    Option (Signaler × List Event) :=
  match mapFind sig.m_sessions conn_id with
  | none => CreateSession eng sig conn_id source
  | some session =>
    let (session1, ctx1, ev) := session.Connect sig.m_ctx source
    some ({ sig with m_ctx := ctx1,
                     m_sessions := mapAssign sig.m_sessions conn_id session1 },
          Event.SessionConnect session.m_label source :: ev)

/-- Signaler::Impl::HandleSDPRequest (signaler.cpp:244-258). -/
def HandleSDPRequest (eng : Engine) (sig : Signaler) (msg : teleop.SDPRequest) :
    Option (Signaler × List Event) :=
  match mapFind sig.m_sessions msg.connection_id with
  | none => some (sig, [])
  | some session =>
    if msg.sdp = "" then some (sig, [])
    else
      match session.SetRemoteDescription eng.CreateSessionDescription "answer" msg.sdp with
      | none => none
      | some ev =>
        some (sig, Event.SessionSetRemoteDescription session.m_label "answer" msg.sdp :: ev)

/-- Signaler::Impl::HandleICECandidate (signaler.cpp:260-284). -/
def HandleICECandidate (eng : Engine) (sig : Signaler) (msg : teleop.ICECandidate) :
    Option (Signaler × List Event) :=
  match mapFind sig.m_sessions msg.connection_id with
  | none => some (sig, [])
  | some session =>
    if msg.sdp_mline_index = -1 then some (sig, [])
    else if msg.sdp_mid = "" then some (sig, [])
    else if msg.candidate = "" then some (sig, [])
    else
      match session.AddIceCandidate eng.CreateIceCandidate msg.sdp_mid msg.sdp_mline_index
          msg.candidate with
      | none => none
      | some ev =>
        some (sig, Event.SessionAddIceCandidate session.m_label msg.sdp_mid
                     msg.sdp_mline_index msg.candidate :: ev)

/-- A run of HandleVideoRequest calls, one per (connection id, stream) pair, in
order; the traces are concatenated.  It aborts when a call aborts. -/
def videoRequests (eng : Engine) (sig : Signaler) :
    List (String × Stream) → Option (Signaler × List Event)
  | [] => some (sig, [])
  | (conn_id, source) :: rest =>
    match HandleVideoRequest eng sig conn_id source with
    | none => none
    | some (sig1, ev1) =>
      match videoRequests eng sig1 rest with
      | none => none
      | some (sig2, ev2) => some (sig2, ev1 ++ ev2)

/-- Signaler::Impl::EmitMessage (signaler.cpp:77-84): the message goes to the
emit handler when one is set and is dropped otherwise; no member is written. -/
def EmitMessage (sig : Signaler) (msg : teleop.VehicleMessage) : Signaler × List Event :=
  match sig.m_emit_handler with
  | some _ => (sig, [Event.Emit msg])
  | none => (sig, [Event.EmitDropped msg])

/-- Signaler::Impl::EmitSDPOffer (signaler.cpp:86-91). -/
def EmitSDPOffer (sig : Signaler) (offer : teleop.SDPRequest) : Signaler × List Event :=
  sig.EmitMessage { teleop.VehicleMessage.empty with sdprequest := some offer }

/-- Signaler::Impl::EmitICECandidate (signaler.cpp:93-98). -/
def EmitICECandidate (sig : Signaler) (cand : teleop.ICECandidate) : Signaler × List Event :=
  sig.EmitMessage { teleop.VehicleMessage.empty with icecandidate := some cand }

/-- The lambda CreateSession passes to OnSDPCreated (signaler.cpp:118-133). -/
def sdpCreatedLambda (sig : Signaler) (conn_id : String) (desc : SessionDescription) :
    Signaler × List Event :=
  match desc.ToString with
  | none => (sig, [])
  | some sdp =>
    sig.EmitSDPOffer { connection_id := conn_id, sdp := sdp, status := teleop.SDPStatus.Offered }

/-- The lambda CreateSession passes to OnIceCandidate (signaler.cpp:135-151). -/
def iceCandidateLambda (sig : Signaler) (conn_id : String) (candidate : IceCandidate) :
    Signaler × List Event :=
  match candidate.ToString with
  | none => (sig, [])
  | some str =>
    sig.EmitICECandidate { connection_id := conn_id, sdp_mid := candidate.sdp_mid,
                           sdp_mline_index := candidate.sdp_mline_index, candidate := str }

/-- What the callables stored in the sessions of this Signaler do when called,
given the state of the Signaler at that time: the lambdas of CreateSession run
their bodies on the argument of their kind (the signaling-change lambda only
logs); of a callable from elsewhere nothing is known beyond the call. -/
def runCallback (sig : Signaler) : Session.Callables
  | Callback.SDPCreatedLambda conn_id, HandlerArg.description desc =>
    (sig.sdpCreatedLambda conn_id desc).2
  | Callback.IceCandidateLambda conn_id, HandlerArg.candidate candidate =>
    (sig.iceCandidateLambda conn_id candidate).2
  | _, _ => []

/-- Every registered session has a peer connection attached. -/
def Attached (sig : Signaler) : Prop :=
  ∀ p ∈ sig.m_sessions, p.2.m_connection.isSome = true

end Signaler

/-- The event is a Close call on a peer connection. -/
def Event.isPcClose : Event → Bool
  | Event.PcClose _ => true
  | _ => false

/-- The event is a call on a peer connection. -/
def Event.isPcCall : Event → Bool
  | Event.PcAddStream _ _ => true
  | Event.PcCreateOffer _ => true
  | Event.PcCreateAnswer _ => true
  | Event.PcSetLocalDescription _ _ => true
  | Event.PcSetRemoteDescription _ _ _ => true
  | Event.PcAddIceCandidate _ _ _ _ => true
  | Event.PcClose _ => true
  | _ => false

/-- The event is a call of a handler stored in a session. -/
def Event.isInvoke : Event → Bool
  | Event.Invoke _ _ => true
  | _ => false

/-- The messages passed to Signaler::Impl::EmitMessage in a trace, in order,
whether delivered to the emit handler or dropped. -/
def emitted : List Event → List teleop.VehicleMessage
  | [] => []
  | Event.Emit msg :: rest => msg :: emitted rest
  | Event.EmitDropped msg :: rest => msg :: emitted rest
  | _ :: rest => emitted rest

/-- The messages delivered to the emit handler in a trace, in order. -/
def delivered : List Event → List teleop.VehicleMessage
  | [] => []
  | Event.Emit msg :: rest => msg :: delivered rest
  | _ :: rest => delivered rest

/-- The event is the construction of a Session. -/
def Event.isSessionConstruct : Event → Bool
  | Event.SessionConstruct _ => true
  | _ => false

/-- The event is the creation of a peer connection. -/
def Event.isCreatePeerConnection : Event → Bool
  | Event.CreatePeerConnection _ _ => true
  | _ => false

/-- The event is a request for an offer (Session::CreateOffer or the engine call under it). -/
def Event.isCreateOffer : Event → Bool
  | Event.SessionCreateOffer _ => true
  | Event.PcCreateOffer _ => true
  | _ => false

/-- The event is a call of Session::Connect. -/
def Event.isSessionConnect : Event → Bool
  | Event.SessionConnect _ _ => true
  | _ => false

/-- The event is a call of a member function of Session made by the Signaler. -/
def Event.isSessionCall : Event → Bool
  | Event.SessionConstruct _ => true
  | Event.SessionConnect _ _ => true
  | Event.SessionOnSDPCreated _ _ => true
  | Event.SessionOnIceCandidate _ _ => true
  | Event.SessionOnSignalingChange _ _ => true
  | Event.SessionSetConnection _ _ => true
  | Event.SessionCreateOffer _ => true
  | Event.SessionSetRemoteDescription _ _ _ => true
  | Event.SessionAddIceCandidate _ _ _ _ => true
  | _ => false

/-- The event is a call of Session::Connect or the construction of a capturer. -/
def Event.isConnectOrCapturer : Event → Bool
  | Event.SessionConnect _ _ => true
  | Event.CapturerConstruct _ => true
  | _ => false

/-- The event belongs to the life of a session in CreateSession: a call of a
member function of Session, the creation of the peer connection, or the
request for an offer on it. -/
def Event.isSessionLifecycle : Event → Bool
  | Event.CreatePeerConnection _ _ => true
  | Event.PcCreateOffer _ => true
  | e => e.isSessionCall

/-- The event is a call that can block: the set-up of a subscriber (creation,
socket options, connect, subscribe), which session.cpp:163-164 says can block on
a TCP roundtrip, or a receive with a timeout. -/
def Event.isBlocking : Event → Bool
  | Event.SocketCreate _ => true
  | Event.SocketSetRcvHwm _ _ => true
  | Event.SocketConnect _ _ => true
  | Event.SocketSubscribe _ _ => true
  | Event.Receive _ _ => true
  | _ => false

/-- The lock discipline of a trace, read from left to right with the flag held:
the mutex is acquired only when free and released only when held, no blocking
call is made while it is held, and it is free at the end. -/
def neverHeldAcross : Bool → List Event → Bool
  | held, [] => !held
  | held, Event.MutexLock :: rest => !held && neverHeldAcross true rest
  | held, Event.MutexUnlock :: rest => held && neverHeldAcross false rest
  | held, e :: rest => !(held && e.isBlocking) && neverHeldAcross held rest

/-- The event is the acquisition or the release of the mutex. -/
def Event.isMutex : Event → Bool
  | Event.MutexLock => true
  | Event.MutexUnlock => true
  | _ => false

/-- The event is a call of Session::SetRemoteDescription. -/
def Event.isSessionSetRemoteDescription : Event → Bool
  | Event.SessionSetRemoteDescription _ _ _ => true
  | _ => false

/-- The event is a call of Session::AddIceCandidate. -/
def Event.isSessionAddIceCandidate : Event → Bool
  | Event.SessionAddIceCandidate _ _ _ _ => true
  | _ => false

end streamer

/-! ## VideoCapturer (streamer/src/video_capturer.cpp) -/

namespace streamer

/-- Conversion of a uint32 value to int (two-complement wrap). -/
def toInt32 (n : Nat) : Int :=
  if n % 2 ^ 32 < 2 ^ 31 then ((n % 2 ^ 32 : Nat) : Int) else ((n % 2 ^ 32 : Nat) : Int) - 2 ^ 32

/-- An int result reduced to 32 bits (two-complement wrap). -/
def wrapInt32 (x : Int) : Int :=
  (x + 2 ^ 31) % 2 ^ 32 - 2 ^ 31

/-- The planes of a YUV buffer: Y, U, V. -/
abbrev Planes := List Nat × List Nat × List Nat

/-- The libyuv routines the capturer calls.  Each writes through the plane
pointers of the destination and returns 0 on success: the model returns the
planes written, or none for a non-zero return. -/
structure Libyuv where
  /-- Call libyuv::I400ToI420 (source bytes, source stride, destination, width, height). -/
  I400ToI420 : List Nat → Nat → I420Buffer → Nat → Nat → Option Planes
  /-- Call libyuv::ConvertToI420 (source bytes, destination, width, height, fourcc), no crop, no rotation. -/
  ConvertToI420 : List Nat → I420Buffer → Nat → Nat → FourCC → Option Planes
  /-- Call libyuv::I420Scale (source, destination, filter). -/
  I420Scale : I420Buffer → I420Buffer → FilterMode → Option Planes

/-- Call webrtc::I420Buffer::Create: a buffer of the given size and strides.  Its
memory is not initialised; zeros stand for the indeterminate bytes. -/
def I420Buffer.Create (width height stride_y stride_u stride_v : Int) : I420Buffer :=
  { width := width, height := height,
    stride_y := stride_y, stride_u := stride_u, stride_v := stride_v,
    data_y := List.replicate (stride_y * height).toNat 0,
    data_u := List.replicate (stride_u * Int.tdiv (height + 1) 2).toNat 0,
    data_v := List.replicate (stride_v * Int.tdiv (height + 1) 2).toNat 0 }

/-- The buffer after a libyuv routine wrote its planes. -/
def I420Buffer.withPlanes (b : I420Buffer) (p : Planes) : I420Buffer :=
  { b with data_y := p.1, data_u := p.2.1, data_v := p.2.2 }

/-- A plane after rows were written into it: the byte at offset i lies in row
i / stride, column i % stride, and is written when the row is below height and
the column below width. -/
def writeRows (dst : List Nat) (dst_stride width height : Nat) (pixel : Nat → Nat → Nat) :
    List Nat :=
  (List.range dst.length).map (fun i =>
    if i / dst_stride < height ∧ i % dst_stride < width
    then pixel (i / dst_stride) (i % dst_stride)
    else dst.getD i 0)

namespace LibyuvSpec

/-- Modelled from the spec: libyuv::CopyPlane belongs to the third-party libyuv
library and is not among the sources.  It copies width bytes of each of height
rows from the source plane to the destination plane, each with its stride (the
luma-only expansion of section 4.3, step 5). -/
def CopyPlane (src : List Nat) (src_stride : Nat) (dst : List Nat) (dst_stride : Nat)
    (width height : Nat) : List Nat :=
  writeRows dst dst_stride width height (fun row col => src.getD (row * src_stride + col) 0)

/-- Modelled from the spec: libyuv::SetPlane belongs to the third-party libyuv
library and is not among the sources.  It sets width bytes of each of height
rows of the destination plane to a value. -/
def SetPlane (dst : List Nat) (dst_stride : Nat) (width height : Nat) (value : Nat) : List Nat :=
  writeRows dst dst_stride width height (fun _ _ => value)

/-- Modelled from the spec: libyuv::I400ToI420 belongs to the third-party libyuv
library and is not among the sources.  By sections 4.3 and 8 of the
specification a grayscale image is expanded luma-only into full YUV: the luma
plane is copied and both chroma planes, of half the width and height rounded
up, get the neutral value 128.  It fails for a width or height of zero. -/
def I400ToI420 (src_y : List Nat) (src_stride_y : Nat) (dst : I420Buffer)
    (width height : Nat) : Option Planes :=
  if width = 0 ∨ height = 0 then none
  else
    let halfwidth := (width + 1) / 2
    let halfheight := (height + 1) / 2
    some (CopyPlane src_y src_stride_y dst.data_y dst.stride_y.toNat width height,
          SetPlane dst.data_u dst.stride_u.toNat halfwidth halfheight 128,
          SetPlane dst.data_v dst.stride_v.toNat halfwidth halfheight 128)

end LibyuvSpec

/-- The buffer is laid out as NextFrame allocates it: strides width and
(width + 1) / 2, and planes of the sizes I420Buffer::Create gives them. -/
def I420Buffer.Allocated (b : I420Buffer) : Prop :=
  b.stride_y = b.width ∧
  b.stride_u = Int.tdiv (wrapInt32 (b.width + 1)) 2 ∧
  b.stride_v = Int.tdiv (wrapInt32 (b.width + 1)) 2 ∧
  b.data_y.length = (b.stride_y * b.height).toNat ∧
  b.data_u.length = (b.stride_u * Int.tdiv (b.height + 1) 2).toNat ∧
  b.data_v.length = (b.stride_v * Int.tdiv (b.height + 1) 2).toNat

instance (b : I420Buffer) : Decidable b.Allocated := by
  unfold I420Buffer.Allocated
  infer_instance

/-- The members of VideoCapturer, and of its base class cricket::VideoCapturer,
that the code reads and writes. -/
structure VideoCapturer where
  sample_ : CameraSample
  unscaled_ : Option I420Buffer
  scaled_ : Option I420Buffer
  /-- Member format_. -/
  format_ : VideoFormat
  /-- Whether thread_ is joinable: a thread was launched and has not been joined. -/
  thread_ : Bool
  /-- Member should_continue_, the signal the loop polls. -/
  should_continue_ : Bool
  /-- The capture state kept by the base class cricket::VideoCapturer, read by
  capture_state() and written by SetCaptureState. -/
  capture_state_ : CaptureState
  /-- The capture format kept by the base class, written by SetCaptureFormat
  (none for a null format). -/
  capture_format_ : Option VideoFormat
deriving DecidableEq, Repr

/-- ConvertGrayToYUV (video_capturer.cpp:48-76).  The outer none is a failed
CHECK; the inner none is the return value false.  The size CHECK is computed in
32 bits, as in the code.  The columns and rows reach libyuv as they are: the
code converts them to int, which leaves values below 2^31 unchanged, and the
data is as long as libyuv reads when cols x rows does not wrap.  Beyond that
range the model does not describe the call; the theorems about the result of a
conversion keep the sample within it. -/
def ConvertGrayToYUV (yuv : Libyuv) (img : Image) (out : I420Buffer) :
    Option (Option I420Buffer) :=
  if ¬ (img.cols > 0) then none
  else if ¬ (img.rows > 0) then none
  else if ¬ (img.data.length = (img.cols * img.rows) % 2 ^ 32) then none
  else
    match yuv.I400ToI420 img.data img.cols out img.cols img.rows with
    | none => some none
    | some p => some (some (out.withPlanes p))

/-- ConvertToYUV (video_capturer.cpp:13-46).  The outer none is a failed CHECK;
the inner none is the return value false.  The size CHECK is computed in 32
bits, as in the code.  The columns and rows reach libyuv as they are: the code
converts them to int, which leaves values below 2^31 unchanged, and the data is
as long as libyuv reads when cols x rows x depth does not wrap.  Beyond that
range the model does not describe the call; the theorems about the result of a
conversion keep the sample within it. -/
def ConvertToYUV (yuv : Libyuv) (img : Image) (fourcc : FourCC) (depth : Nat)
    (out : I420Buffer) : Option (Option I420Buffer) :=
  if ¬ (img.cols > 0) then none
  else if ¬ (img.rows > 0) then none
  else if ¬ (img.data.length = ((img.cols * img.rows) % 2 ^ 32 * depth) % 2 ^ 32) then none
  else
    match yuv.ConvertToI420 img.data out img.cols img.rows fourcc with
    | none => some none
    | some p => some (some (out.withPlanes p))

namespace VideoCapturer

/-- VideoCapturer::VideoCapturer: both buffers null, an empty sample, a default
format, no thread; the base class starts in state CS_STOPPED without a capture
format.  The constructor leaves should_continue_ uninitialised; false stands
for that indeterminate value, which Start overwrites before the loop reads
it. -/
def new : VideoCapturer :=
  { sample_ := { image := { cols := 0, rows := 0, stride := 0,
                            type := PixelType.PB_UNSIGNED_BYTE,
                            format := Format.PB_LUMINANCE, data := [] } },
    unscaled_ := none, scaled_ := none,
    format_ := { width := 0, height := 0, interval := 0, fourcc := 0 },
    thread_ := false, should_continue_ := false,
    capture_state_ := CaptureState.CS_STOPPED, capture_format_ := none }

/-- The setter cricket::VideoCapturer::SetCaptureState of the base class, which
Stop calls and which the media engine calls with the state Start returned. -/
def SetCaptureState (cap : VideoCapturer) (state : CaptureState) : VideoCapturer :=
  { cap with capture_state_ := state }

/-- The setter cricket::VideoCapturer::SetCaptureFormat of the base class. -/
def SetCaptureFormat (cap : VideoCapturer) (format : Option VideoFormat) : VideoCapturer :=
  { cap with capture_format_ := format }

/-- VideoCapturer::Start (video_capturer.cpp:84-104): the returned state is the
third component.  The result is none when LOG(FATAL) fires because thread_ is
joinable. -/
def Start (cap : VideoCapturer) (format : VideoFormat) :
    Option (VideoCapturer × List Event × CaptureState) :=
  if cap.capture_state_ = CaptureState.CS_RUNNING then some (cap, [], cap.capture_state_)
  else
    let cap1 := ({ cap with format_ := format } : VideoCapturer).SetCaptureFormat (some format)
    if cap1.thread_ = true then none
    else
      some ({ cap1 with should_continue_ := true, thread_ := true },
            [Event.ThreadSpawn], CaptureState.CS_RUNNING)

/-- VideoCapturer::Stop (video_capturer.cpp:106-121).  The result is none when
thread_ is not joinable at the join, which throws. -/
def Stop (cap : VideoCapturer) : Option (VideoCapturer × List Event) :=
  if cap.capture_state_ = CaptureState.CS_STOPPED then some (cap, [])
  else
    let cap1 : VideoCapturer := { cap with should_continue_ := false }
    if cap1.thread_ = false then none
    else
      let cap2 : VideoCapturer := { cap1 with thread_ := false }
      some ((cap2.SetCaptureFormat none).SetCaptureState CaptureState.CS_STOPPED,
            [Event.ThreadJoin])

/-- VideoCapturer::IsRunning (video_capturer.cpp:221). -/
def IsRunning (cap : VideoCapturer) : Bool :=
  decide (cap.capture_state_ = CaptureState.CS_RUNNING)

/-- The allocation blocks of NextFrame (video_capturer.cpp:146-151 and 154-159):
the buffer is kept when it exists with the wanted size, else a new one is
created with strides width and (width + 1) / 2. -/
def ensureBuffer (slot : BufferSlot) (buf : Option I420Buffer) (width height : Int) :
    I420Buffer × List Event :=
  let stride_y := width
  let stride_uv := Int.tdiv (wrapInt32 (width + 1)) 2
  let fresh := (I420Buffer.Create width height stride_y stride_uv stride_uv,
                [Event.I420BufferCreate slot width height stride_y stride_uv stride_uv])
  match buf with
  | none => fresh
  | some b => if width ≠ b.width ∨ height ≠ b.height then fresh else (b, [])

/-- The switch of NextFrame on the pixel format (video_capturer.cpp:161-183).
The outer none is a failed CHECK; the inner none is an early return.  The
event of a conversion call carries the columns and rows of the image, which
are the int values passed when they are below 2^31. -/
def convert (yuv : Libyuv) (img : Image) (unscaled : I420Buffer) :
    Option (Option I420Buffer × List Event) :=
  match img.format with
  | Format.PB_LUMINANCE =>
    match ConvertGrayToYUV yuv img unscaled with
    | none => none
    | some r => some (r, [Event.I400ToI420 img.cols img.rows])
  | Format.PB_RGBA =>
    match ConvertToYUV yuv img FourCC.FOURCC_RGBA 4 unscaled with
    | none => none
    | some r => some (r, [Event.ConvertToI420 FourCC.FOURCC_RGBA img.cols img.rows])
  | Format.PB_RGB =>
    match ConvertToYUV yuv img FourCC.FOURCC_RAW 3 unscaled with
    | none => none
    | some r => some (r, [Event.ConvertToI420 FourCC.FOURCC_RAW img.cols img.rows])
  | Format.PB_OTHER_FORMAT _ => some (none, [])

/-- The part of VideoCapturer::NextFrame after a sample was received
(video_capturer.cpp:137-218), with the sample in sample_ and the output size
the session reported.  The result is none when a CHECK fails. -/
def processSample (yuv : Libyuv) (cap : VideoCapturer) (output_width output_height : Int) :
    Option (VideoCapturer × List Event) :=
  let img := cap.sample_.image
  if img.type ≠ PixelType.PB_UNSIGNED_BYTE then some (cap, [])
  else
    let src_width := toInt32 img.cols
    let src_height := toInt32 img.rows
    let (unscaled0, ev1) := ensureBuffer BufferSlot.unscaled cap.unscaled_ src_width src_height
    let (scaled0, ev2) := ensureBuffer BufferSlot.scaled cap.scaled_ output_width output_height
    match convert yuv img unscaled0 with
    | none => none
    | some (none, ev3) =>
      some ({ cap with unscaled_ := some unscaled0, scaled_ := some scaled0 }, ev1 ++ ev2 ++ ev3)
    | some (some unscaled1, ev3) =>
      if src_width ≠ output_width ∨ src_height ≠ output_height then
        let evScale := Event.I420Scale unscaled1.width unscaled1.height
                         scaled0.width scaled0.height FilterMode.kFilterBox
        match yuv.I420Scale unscaled1 scaled0 FilterMode.kFilterBox with
        | none =>
          some ({ cap with unscaled_ := some unscaled1, scaled_ := some scaled0 },
                ev1 ++ ev2 ++ ev3 ++ [evScale])
        | some p =>
          let scaled1 := scaled0.withPlanes p
          some ({ cap with unscaled_ := some unscaled1, scaled_ := some scaled1 },
                ev1 ++ ev2 ++ ev3 ++
                [evScale, Event.OnFrame BufferSlot.scaled scaled1 scaled1.width scaled1.height 0])
      else
        some ({ cap with unscaled_ := some unscaled1, scaled_ := some scaled0 },
              ev1 ++ ev2 ++ ev3 ++
              [Event.OnFrame BufferSlot.unscaled unscaled1 unscaled1.width unscaled1.height 0])

/-- VideoCapturer::NextFrame (video_capturer.cpp:129-219) on the session it
draws frames from.  The result is none when the process does not survive the
call: a failed CHECK, or the null socket dereference in Session::NextFrame. -/
def NextFrame (yuv : Libyuv) (cap : VideoCapturer) (session : Session)
    (recv : Socket → Option CameraSample) :
    Option (VideoCapturer × Session × List Event) :=
  match session.NextFrame recv with
  | none => none
  | some (session1, ev0, none) => some (cap, session1, ev0)
  | some (session1, ev0, some (sample, output_width, output_height)) =>
    match processSample yuv { cap with sample_ := sample } output_width output_height with
    | none => none
    | some (cap1, ev) => some (cap1, session1, ev0 ++ ev)

end VideoCapturer

/-- Bytes per pixel that NextFrame takes a format to have: 1 for luminance
(ConvertGrayToYUV), 3 for RGB and 4 for RGBA (the depth passed to
ConvertToYUV); none for a format the switch rejects. -/
def bytesPerPixel : Format → Option Nat
  | Format.PB_LUMINANCE => some 1
  | Format.PB_RGB => some 3
  | Format.PB_RGBA => some 4
  | Format.PB_OTHER_FORMAT _ => none

/-- The event is a conversion call on libyuv. -/
def Event.isConversion : Event → Bool
  | Event.I400ToI420 _ _ => true
  | Event.ConvertToI420 _ _ _ => true
  | _ => false

/-- The conversion of a format at its bytes per pixel: I400ToI420 reads one byte
per pixel, ConvertToI420 reads three for FOURCC_RAW and four for FOURCC_RGBA. -/
def conversionAt (cols rows : Nat) : Nat → List Event
  | 1 => [Event.I400ToI420 cols rows]
  | 3 => [Event.ConvertToI420 FourCC.FOURCC_RAW cols rows]
  | 4 => [Event.ConvertToI420 FourCC.FOURCC_RGBA cols rows]
  | _ => []

/-- The planes libyuv returns for the conversion of an image at a number of
bytes per pixel, on the whole data of the image with its columns and rows:
I400ToI420 at one byte, ConvertToI420 with FOURCC_RAW at three and with
FOURCC_RGBA at four; none when the routine fails. -/
def convertAt (yuv : Libyuv) (img : Image) (out : I420Buffer) : Nat → Option Planes
  | 1 => yuv.I400ToI420 img.data img.cols out img.cols img.rows
  | 3 => yuv.ConvertToI420 img.data out img.cols img.rows FourCC.FOURCC_RAW
  | 4 => yuv.ConvertToI420 img.data out img.cols img.rows FourCC.FOURCC_RGBA
  | _ => none

/-- The event is a receive on a socket. -/
def Event.isReceive : Event → Bool
  | Event.Receive _ _ => true
  | _ => false

/-- The event is a call of OnFrame. -/
def Event.isOnFrame : Event → Bool
  | Event.OnFrame _ _ _ _ _ => true
  | _ => false

/-- The event is a call of libyuv::I420Scale. -/
def Event.isI420Scale : Event → Bool
  | Event.I420Scale _ _ _ _ _ => true
  | _ => false

end streamer

/-! ## Connection (teleop/src/connection.cpp) -/

namespace teleop

/-- The command kinds for which Connection keeps a handler slot (connection.h:174-196). -/
inductive CommandKind where
  | joystick
  | point_and_go
  | docking
  | stop
  | turn_in_place
  | error_reset
  | exposure
  | reset_exposure
deriving DecidableEq, Repr

/-- Calls Connection makes on its collaborators, in program order: a registered
handler (the slot, the callable stored in it, the argument), the Signaler and
the websocket client. -/
inductive Event where
  | HandlerCall (slot : CommandKind) (target : Nat) (arg : Command)
  | SignalerHandleVideoRequest (conn_id : String) (source : streamer.Stream)
  | SignalerHandleSDPRequest (msg : SDPRequest)
  | SignalerHandleICECandidate (msg : ICECandidate)
  | Send (vmsg : VehicleMessage)
  | GetConnection (wsurl : String)
  | SetHandlers
  | AppendHeader (key val : String)
  | ClientConnect (wsurl : String)
deriving DecidableEq, Repr

/-- The protobuf codec and the websocket, whose outcomes the code branches on. -/
structure Wire where
  /-- Outcome of BackendMessage::ParseFromString on a payload. -/
  ParseFromString : String → Option BackendMessage
  /-- Whether client_.send of the serialized message reports no error. -/
  send_ok : VehicleMessage → Bool

/-- The state of a Connection (connection.h:156-196): the options and the eight
handler slots; an empty std::function is none, a callable is named by a number.
The Signaler member is a collaborator: calls on it are events, and its own
state is the subject of streamer.Signaler. -/
structure Connection where
  opts_ : ConnectionOptions
  joystick_handler_ : Option Nat
  point_and_go_handler_ : Option Nat
  docking_handler_ : Option Nat
  stop_handler_ : Option Nat
  turn_in_place_handler_ : Option Nat
  error_reset_handler_ : Option Nat
  exposure_handler_ : Option Nat
  reset_exposure_handler_ : Option Nat
deriving DecidableEq, Repr

namespace Connection

/-- The first inner loop of populateCalibrationParameters (connection.cpp:66-71):
every entry for the device is copied into the camera, so the last one stays. -/
def populateIntrinsics (name : String) :
    List CameraIntrinsicCalibration → Camera × Bool → Camera × Bool
  | [], r => r
  | intrinsics :: rest, (cam, foundIntrinsics) =>
    if intrinsics.cameraundercalibration.name = name then
      populateIntrinsics name rest ({ cam with camera_intrinsics := some intrinsics }, true)
    else populateIntrinsics name rest (cam, foundIntrinsics)

/-- The second inner loop of populateCalibrationParameters (connection.cpp:73-78). -/
def populateExtrinsics (name : String) :
    List CoordinateTransformation → Camera × Bool → Camera × Bool
  | [], r => r
  | extrinsics :: rest, (cam, foundExtrinsics) =>
    if extrinsics.targetcoordinateframe.device.name = name then
      populateExtrinsics name rest ({ cam with extrinsics := some extrinsics }, true)
    else populateExtrinsics name rest (cam, foundExtrinsics)

/-- The body of the loop over the sources (connection.cpp:47-90): the source
with its camera populated, and whether both intrinsics and extrinsics were
found.  The name that mercury::topic_Name gives the panorama topic is the
parameter panoramaName. -/
def populateSource (panoramaName : String) (calib : SystemCalibration)
    (panoCalib : PanoramaCalibration) (videoSource : VideoSource) : VideoSource × Bool :=
  let name := videoSource.camera.device.name
  if panoramaName = name then
    let cam1 : Camera :=
      { videoSource.camera with panorama_intrinsics := some panoCalib.intrinsics }
    if panoCalib.devicetodevicecoordinatetransformation.targetcoordinateframe.device.name = name then
      ({ videoSource with
           camera := { cam1 with extrinsics := some panoCalib.devicetodevicecoordinatetransformation } },
       true)
    else ({ videoSource with camera := cam1 }, false)
  else
    let r1 := populateIntrinsics name calib.cameraintrinsiccalibration (videoSource.camera, false)
    let r2 := populateExtrinsics name calib.devicetodevicecoordinatetransformation (r1.1, false)
    ({ videoSource with camera := r2.1 }, r1.2 && r2.2)

/-- The loop of populateCalibrationParameters over the sources, in order, with
the flag allFound. -/
def populateSources (panoramaName : String) (calib : SystemCalibration)
    (panoCalib : PanoramaCalibration) : List VideoSource → Bool → List VideoSource × Bool
  | [], allFound => ([], allFound)
  | videoSource :: rest, allFound =>
    let r := populateSource panoramaName calib panoCalib videoSource
    let rs := populateSources panoramaName calib panoCalib rest (allFound && r.2)
    (r.1 :: rs.1, rs.2)

/-- Function populateCalibrationParameters (connection.cpp:42-92): the options
with the cameras populated, and the flag returned. -/
def populateCalibrationParameters (panoramaName : String) (opts : ConnectionOptions)
    (calib : SystemCalibration) (panoCalib : PanoramaCalibration) : ConnectionOptions × Bool :=
  let r := populateSources panoramaName calib panoCalib opts.video_sources true
  ({ opts with video_sources := r.1 }, r.2)

/-- Connection::Connection (connection.cpp:94-117).  The members are initialised
first, so the Signaler constructor runs (and may abort) before the CHECKs of
the body. -/
def new (opts : ConnectionOptions) : Option Connection :=
  match streamer.Signaler.new opts.webrtc with
  | none => none
  | some _ =>
    if opts.backend_address = "" then none
    else if opts.vehicle_id = "" then none
    else if opts.video_sources = [] then none
    else if opts.jpeg_quality = 0 then none
    else some { opts_ := opts,
                joystick_handler_ := none, point_and_go_handler_ := none,
                docking_handler_ := none, stop_handler_ := none,
                turn_in_place_handler_ := none, error_reset_handler_ := none,
                exposure_handler_ := none, reset_exposure_handler_ := none }

/-- Connection::OnJoystick (connection.h:72). -/
def OnJoystick (c : Connection) (handler : Nat) : Connection :=
  { c with joystick_handler_ := some handler }

/-- Connection::OnPointAndGo (connection.h:75). -/
def OnPointAndGo (c : Connection) (handler : Nat) : Connection :=
  { c with point_and_go_handler_ := some handler }

/-- Connection::OnDockingRequested (connection.h:78). -/
def OnDockingRequested (c : Connection) (handler : Nat) : Connection :=
  { c with docking_handler_ := some handler }

/-- Connection::OnStopRequested (connection.h:81). -/
def OnStopRequested (c : Connection) (handler : Nat) : Connection :=
  { c with stop_handler_ := some handler }

/-- Connection::OnTurnInPlaceRequested (connection.h:84). -/
def OnTurnInPlaceRequested (c : Connection) (handler : Nat) : Connection :=
  { c with turn_in_place_handler_ := some handler }

/-- Connection::OnErrorStateReset (connection.h:87). -/
def OnErrorStateReset (c : Connection) (handler : Nat) : Connection :=
  { c with error_reset_handler_ := some handler }

/-- Connection::OnExposure (connection.h:90): set the handler to be called when
an exposure command arrives. -/
def OnExposure (c : Connection) (handler : Nat) : Connection :=
  { c with exposure_handler_ := some handler }

/-- Connection::OnResetExposure (connection.h:93). -/
def OnResetExposure (c : Connection) (handler : Nat) : Connection :=
  { c with reset_exposure_handler_ := some handler }

/-- The loop of FindVideoSource (connection.cpp:120-125): the first item whose
camera device name is the requested name. -/
def findByName (name : String) : List VideoSource → Option VideoSource
  | [] => none
  | item :: rest => if item.camera.device.name = name then some item else findByName name rest

/-- Connection::FindVideoSourceByRole (connection.cpp:138-147); none is the
return value false. -/
def FindVideoSourceByRole (c : Connection) (role : CameraRole) : Option VideoSource :=
  let rec loop : List VideoSource → Option VideoSource
    | [] => none
    | item :: rest => if item.camera.role = role then some item else loop rest
  loop c.opts_.video_sources

/-- Connection::FindVideoSource (connection.cpp:119-136); none is the return
value false. -/
def FindVideoSource (c : Connection) (name : String) : Option VideoSource :=
  match findByName name c.opts_.video_sources with
  | some item => some item
  | none =>
    if name = "front" then c.FindVideoSourceByRole CameraRole.FrontFisheye
    else if name = "rear" then c.FindVideoSourceByRole CameraRole.RearFisheye
    else none

/-- The camera lookup of HandleVideoRequest (connection.cpp:213-224): none when
no camera is configured, else the source found or the first one. -/
def selectVideoSource (c : Connection) (camera : String) : Option VideoSource :=
  match c.opts_.video_sources with
  | [] => none
  | first :: _ =>
    match c.FindVideoSource camera with
    | some video => some video
    | none => some first

/-- Connection::HandleVideoRequest (connection.cpp:210-230).  The output size of
the request is written into a local copy of the source, which goes to the
Signaler.  The call on the Signaler is recorded and taken to return;
WithSignaler.HandleVideoRequest runs it. -/
def HandleVideoRequest (c : Connection) (msg : VideoRequest) : Connection × List Event :=
  match c.selectVideoSource msg.camera with
  | none => (c, [])
  | some video =>
    let video1 : VideoSource :=
      { video with source := { video.source with output_width := msg.width,
                                                 output_height := msg.height } }
    (c, [Event.SignalerHandleVideoRequest msg.connection_id video1.source])

/-- Connection::SendMessage (connection.cpp:267-281). -/
def SendMessage (w : Wire) (c : Connection) (vmsg : VehicleMessage) :
    Connection × List Event × Bool :=
  (c, [Event.Send vmsg], w.send_ok vmsg)

/-- Connection::SendConfirmation (connection.cpp:283-289). -/
def SendConfirmation (w : Wire) (c : Connection) (msg_id : String)
    (status : ConfirmationStatus) : Connection × List Event × Bool :=
  let vmsg : VehicleMessage :=
    { VehicleMessage.empty with confirmation := some { message_id := msg_id, status := status } }
  c.SendMessage w vmsg

/-- One guarded handler call of HandleMessage: the field is populated and the
slot holds a callable. -/
def dispatch (slot : CommandKind) (field : Option Command) (handler : Option Nat) : List Event :=
  match field, handler with
  | some arg, some target => [Event.HandlerCall slot target arg]
  | _, _ => []

/-- The dispatch of a parsed envelope (connection.cpp:172-207), in source order:
the calls made when every call on the Signaler returns.  WithSignaler.handleParsed
runs those calls. -/
def handleParsed (w : Wire) (c : Connection) (msg : BackendMessage) : Connection × List Event :=
  let ev1 := dispatch CommandKind.joystick msg.joystick c.joystick_handler_
  let ev2 := dispatch CommandKind.point_and_go msg.pointandgo c.point_and_go_handler_
  let ev3 := dispatch CommandKind.docking msg.dock_command c.docking_handler_
  let ev4 := dispatch CommandKind.stop msg.stop_command c.stop_handler_
  let ev5 := dispatch CommandKind.error_reset msg.errorstateresetcommand c.error_reset_handler_
  let ev6 := dispatch CommandKind.turn_in_place msg.turninplace c.turn_in_place_handler_
  let ev7 := dispatch CommandKind.reset_exposure msg.reset_exposure c.reset_exposure_handler_
  let (c8, ev8) :=
    match msg.videorequest with
    | some req => c.HandleVideoRequest req
    | none => (c, [])
  let ev9 :=
    match msg.sdprequest with
    | some req => [Event.SignalerHandleSDPRequest req]
    | none => []
  let ev10 :=
    match msg.icecandidate with
    | some cand => [Event.SignalerHandleICECandidate cand]
    | none => []
  let (c11, ev11) :=
    if msg.id ≠ "" then
      let r := c8.SendConfirmation w msg.id ConfirmationStatus.SUCCESS
      (r.1, r.2.1)
    else (c8, [])
  (c11, ev1 ++ ev2 ++ ev3 ++ ev4 ++ ev5 ++ ev6 ++ ev7 ++ ev8 ++ ev9 ++ ev10 ++ ev11)

/-- Connection::HandleMessage (connection.cpp:165-208): a payload that does not
parse is dropped. -/
def HandleMessage (w : Wire) (c : Connection) (payload : String) : Connection × List Event :=
  match w.ParseFromString payload with
  | none => (c, [])
  | some msg => c.handleParsed w msg

/-! The functions above record a call on the Signaler member as an event and
go on.  In namespace WithSignaler the same functions run the member: the call
is made on the state of the Signaler, and when it does not return (a CHECK of
CreateSession fails, or a Session without peer connection is dereferenced)
nothing after it happens, so the result is none.  The calls the Signaler makes
are kept in a trace of their own. -/

namespace WithSignaler

/-- Connection::HandleVideoRequest (connection.cpp:210-230) with the call
signaler_.HandleVideoRequest run on the Signaler. -/
def HandleVideoRequest (eng : streamer.Engine) (c : Connection) (sig : streamer.Signaler)
    (msg : VideoRequest) :
    Option (Connection × streamer.Signaler × List Event × List streamer.Event) :=
  match c.selectVideoSource msg.camera with
  | none => some (c, sig, [], [])
  | some video =>
    let video1 : VideoSource :=
      { video with source := { video.source with output_width := msg.width,
                                                 output_height := msg.height } }
    match streamer.Signaler.HandleVideoRequest eng sig msg.connection_id video1.source with
    | none => none
    | some (sig1, str) =>
      some (c, sig1, [Event.SignalerHandleVideoRequest msg.connection_id video1.source], str)

/-- The dispatch of a parsed envelope (connection.cpp:172-207), in source order,
with the three calls on the Signaler run: the handlers, then the video request,
the SDP request and the ICE candidate, and last the confirmation, which is
reached only when every call before it returned. -/
def handleParsed (w : Wire) (eng : streamer.Engine) (c : Connection) (sig : streamer.Signaler)
    (msg : BackendMessage) :
    Option (Connection × streamer.Signaler × List Event × List streamer.Event) :=
  let ev1 := dispatch CommandKind.joystick msg.joystick c.joystick_handler_
  let ev2 := dispatch CommandKind.point_and_go msg.pointandgo c.point_and_go_handler_
  let ev3 := dispatch CommandKind.docking msg.dock_command c.docking_handler_
  let ev4 := dispatch CommandKind.stop msg.stop_command c.stop_handler_
  let ev5 := dispatch CommandKind.error_reset msg.errorstateresetcommand c.error_reset_handler_
  let ev6 := dispatch CommandKind.turn_in_place msg.turninplace c.turn_in_place_handler_
  let ev7 := dispatch CommandKind.reset_exposure msg.reset_exposure c.reset_exposure_handler_
  let r8 : Option (Connection × streamer.Signaler × List Event × List streamer.Event) :=
    match msg.videorequest with
    | some req => HandleVideoRequest eng c sig req
    | none => some (c, sig, [], [])
  match r8 with
  | none => none
  | some (c8, sig8, ev8, str8) =>
    let r9 : Option (streamer.Signaler × List Event × List streamer.Event) :=
      match msg.sdprequest with
      | some req =>
        match streamer.Signaler.HandleSDPRequest eng sig8 req with
        | none => none
        | some (sig9, str) => some (sig9, [Event.SignalerHandleSDPRequest req], str)
      | none => some (sig8, [], [])
    match r9 with
    | none => none
    | some (sig9, ev9, str9) =>
      let r10 : Option (streamer.Signaler × List Event × List streamer.Event) :=
        match msg.icecandidate with
        | some cand =>
          match streamer.Signaler.HandleICECandidate eng sig9 cand with
          | none => none
          | some (sig10, str) => some (sig10, [Event.SignalerHandleICECandidate cand], str)
        | none => some (sig9, [], [])
      match r10 with
      | none => none
      | some (sig10, ev10, str10) =>
        let (c11, ev11) :=
          if msg.id ≠ "" then
            let r := c8.SendConfirmation w msg.id ConfirmationStatus.SUCCESS
            (r.1, r.2.1)
          else (c8, [])
        some (c11, sig10,
              ev1 ++ ev2 ++ ev3 ++ ev4 ++ ev5 ++ ev6 ++ ev7 ++ ev8 ++ ev9 ++ ev10 ++ ev11,
              str8 ++ str9 ++ str10)

/-- Connection::HandleMessage (connection.cpp:165-208) with the Signaler run: a
payload that does not parse is dropped. -/
def HandleMessage (w : Wire) (eng : streamer.Engine) (c : Connection) (sig : streamer.Signaler)
    (payload : String) :
    Option (Connection × streamer.Signaler × List Event × List streamer.Event) :=
  match w.ParseFromString payload with
  | none => some (c, sig, [], [])
  | some msg => handleParsed w eng c sig msg

end WithSignaler

/-- Connection::SendManifest (connection.cpp:300-304). -/
def SendManifest (w : Wire) (c : Connection) (manifest : Manifest) :
    Connection × List Event × Bool :=
  let vmsg : VehicleMessage := { VehicleMessage.empty with manifest := some manifest }
  c.SendMessage w vmsg

/-- The loop of HandleOpen (connection.cpp:152-154): one add_cameras per source,
in order. -/
def addCameras : List VideoSource → Manifest → Manifest
  | [], manifest => manifest
  | item :: rest, manifest =>
    addCameras rest { manifest with cameras := manifest.cameras ++ [item.camera] }

/-- Connection::HandleOpen (connection.cpp:149-156). -/
def HandleOpen (w : Wire) (c : Connection) : Connection × List Event :=
  let manifest := addCameras c.opts_.video_sources { cameras := [] }
  let r := c.SendManifest w manifest
  (r.1, r.2.1)

/-- Connection::Dial (connection.cpp:232-265).  Whether client_.get_connection
accepts the URL is the parameter uriValid; when it reports an error LOG(FATAL)
ends the process, which is the result none.  The calls on the websocket client
and on the connection it returns are events; the member handle_, which only
names the connection to send on, is not kept. -/
def Dial (uriValid : String → Bool) (c : Connection) : Option (Connection × List Event) :=
  let wsurl := c.opts_.backend_address ++ "/api/v1/ws/vehicle/" ++ c.opts_.vehicle_id ++ "/register"
  if uriValid wsurl = false then none
  else
    let auth : List Event :=
      if c.opts_.auth_token = "" then []
      else [Event.AppendHeader "Cookie" ("auth=" ++ c.opts_.auth_token)]
    some (c, [Event.GetConnection wsurl, Event.SetHandlers] ++ auth ++ [Event.ClientConnect wsurl])

/-- Connection::HandleClose (connection.cpp:160-163). -/
def HandleClose (uriValid : String → Bool) (c : Connection) : Option (Connection × List Event) :=
  c.Dial uriValid

/-- The open and close events that the websocket client delivers to the
handlers bound in Dial. -/
inductive SocketEvent where
  | opened
  | closed
deriving DecidableEq, Repr

/-- The handlers run on a sequence of open and close events, one after the
other; none when one of them ends the process. -/
def handleEvents (uriValid : String → Bool) (w : Wire) :
    Connection → List SocketEvent → Option (Connection × List Event)
  | c, [] => some (c, [])
  | c, SocketEvent.opened :: rest =>
    let r := c.HandleOpen w
    match handleEvents uriValid w r.1 rest with
    | none => none
    | some (c1, tr) => some (c1, r.2 ++ tr)
  | c, SocketEvent.closed :: rest =>
    match c.HandleClose uriValid with
    | none => none
    | some (c1, tr1) =>
      match handleEvents uriValid w c1 rest with
      | none => none
      | some (c2, tr2) => some (c2, tr1 ++ tr2)

end Connection

/-- The messages sent in a trace, in order. -/
def messagesSent : List Event → List VehicleMessage
  | [] => []
  | Event.Send vmsg :: rest => vmsg :: messagesSent rest
  | _ :: rest => messagesSent rest

/-- The URLs of the calls of client_.connect in a trace, in order. -/
def clientConnects : List Event → List String
  | [] => []
  | Event.ClientConnect wsurl :: rest => wsurl :: clientConnects rest
  | _ :: rest => clientConnects rest

/-- The URLs of the calls of client_.get_connection in a trace, in order: one
per run of Dial. -/
def dials : List Event → List String
  | [] => []
  | Event.GetConnection wsurl :: rest => wsurl :: dials rest
  | _ :: rest => dials rest

/-- The manifests among the messages sent in a trace, in order. -/
def manifestsSent : List Event → List Manifest
  | [] => []
  | Event.Send vmsg :: rest =>
    match vmsg.manifest with
    | some manifest => manifest :: manifestsSent rest
    | none => manifestsSent rest
  | _ :: rest => manifestsSent rest

/-- The URL that Dial builds from the options. -/
def Connection.wsurl (c : Connection) : String :=
  c.opts_.backend_address ++ "/api/v1/ws/vehicle/" ++ c.opts_.vehicle_id ++ "/register"

/-- A device is present in the SystemCalibration, in the words of the header
(connection.h:27-31): the calibration has an intrinsic calibration and an
extrinsic transformation for the device name. -/
def SystemCalibration.present (calib : SystemCalibration) (name : String) : Bool :=
  calib.cameraintrinsiccalibration.any (fun i => i.cameraundercalibration.name == name) &&
  calib.devicetodevicecoordinatetransformation.any
    (fun e => e.targetcoordinateframe.device.name == name)

/-- The headers appended in a trace, in order. -/
def headersAppended : List Event → List (String × String)
  | [] => []
  | Event.AppendHeader key val :: rest => (key, val) :: headersAppended rest
  | _ :: rest => headersAppended rest

/-- The confirmations among the messages sent in a trace, in order. -/
def confirmationsSent : List Event → List Confirmation
  | [] => []
  | Event.Send vmsg :: rest =>
    match vmsg.confirmation with
    | some conf => conf :: confirmationsSent rest
    | none => confirmationsSent rest
  | _ :: rest => confirmationsSent rest

/-- The arguments of the handler calls made on a slot in a trace, with the
callable called, in order. -/
def handlerCalls (slot : CommandKind) : List Event → List (Nat × Command)
  | [] => []
  | Event.HandlerCall s target arg :: rest =>
    if s = slot then (target, arg) :: handlerCalls slot rest else handlerCalls slot rest
  | _ :: rest => handlerCalls slot rest

/-- The field of the envelope that carries commands of a kind. -/
def BackendMessage.field (msg : BackendMessage) : CommandKind → Option Command
  | CommandKind.joystick => msg.joystick
  | CommandKind.point_and_go => msg.pointandgo
  | CommandKind.docking => msg.dock_command
  | CommandKind.stop => msg.stop_command
  | CommandKind.turn_in_place => msg.turninplace
  | CommandKind.error_reset => msg.errorstateresetcommand
  | CommandKind.exposure => msg.exposure
  | CommandKind.reset_exposure => msg.reset_exposure

/-- The handler slot of the connection for commands of a kind. -/
def Connection.handler (c : Connection) : CommandKind → Option Nat
  | CommandKind.joystick => c.joystick_handler_
  | CommandKind.point_and_go => c.point_and_go_handler_
  | CommandKind.docking => c.docking_handler_
  | CommandKind.stop => c.stop_handler_
  | CommandKind.turn_in_place => c.turn_in_place_handler_
  | CommandKind.error_reset => c.error_reset_handler_
  | CommandKind.exposure => c.exposure_handler_
  | CommandKind.reset_exposure => c.reset_exposure_handler_

/-- The camera choice in the words of the specification: the first source with
the requested device name; else, for the names front and rear, the first source
with role FrontFisheye and RearFisheye respectively; else the first source. -/
def selectCameraSpec (sources : List VideoSource) (n : String) : Option VideoSource :=
  match sources.find? (fun s => s.camera.device.name == n) with
  | some v => some v
  | none =>
    let byRole : Option VideoSource :=
      if n = "front" then sources.find? (fun s => s.camera.role == CameraRole.FrontFisheye)
      else if n = "rear" then sources.find? (fun s => s.camera.role == CameraRole.RearFisheye)
      else none
    match byRole with
    | some v => some v
    | none => sources.head?

/-- The calls of Signaler::HandleVideoRequest in a trace, in order. -/
def videoRequestCalls : List Event → List (String × streamer.Stream)
  | [] => []
  | Event.SignalerHandleVideoRequest conn_id source :: rest =>
    (conn_id, source) :: videoRequestCalls rest
  | _ :: rest => videoRequestCalls rest

end teleop

/-! ## Concrete inputs -/

namespace teleop.Examples

/-- A camera named cam0 with an unnamed role, published on tcp://h:1. -/
def plainCam : VideoSource :=
  { camera := { device := { name := "cam0" }, role := CameraRole.OtherRole 5 },
    source := { address := "tcp://h:1", topic := "camera",
                output_width := 640, output_height := 360 } }

/-- A front fisheye camera named cam1, published on tcp://h:2. -/
def frontCam : VideoSource :=
  { camera := { device := { name := "cam1" }, role := CameraRole.FrontFisheye },
    source := { address := "tcp://h:2", topic := "front_topic",
                output_width := 640, output_height := 360 } }

/-- A rear fisheye camera named cam2, published on tcp://h:3. -/
def rearCam : VideoSource :=
  { camera := { device := { name := "cam2" }, role := CameraRole.RearFisheye },
    source := { address := "tcp://h:3", topic := "rear_topic",
                output_width := 1280, output_height := 720 } }

/-- Signaler options with one STUN and one TURN server. -/
def webrtcOpts : streamer.SignalerOptions :=
  { stun_servers := [{ address := "stun.example:3478" }],
    turn_servers := [{ address := "turn.example:3478", username := "u", password := "p" }],
    min_udp_port := 52000, max_udp_port := 53000 }

/-- Options with three cameras, as the mock streamer sets them up. -/
def opts : ConnectionOptions :=
  { backend_address := "ws://test.com", vehicle_id := "r01", auth_token := "",
    jpeg_quality := 80, webrtc := webrtcOpts,
    video_sources := [plainCam, frontCam, rearCam] }

/-- The connection constructed from the options, no handler registered. -/
def conn : Connection :=
  { opts_ := opts,
    joystick_handler_ := none, point_and_go_handler_ := none,
    docking_handler_ := none, stop_handler_ := none,
    turn_in_place_handler_ := none, error_reset_handler_ := none,
    exposure_handler_ := none, reset_exposure_handler_ := none }

/-- An envelope without id whose only populated field is the exposure command. -/
def exposureMsg : BackendMessage :=
  { BackendMessage.empty with exposure := some { bytes := "exposure-1" } }

/-- An envelope with id m1 carrying a joystick command and a video request. -/
def joystickMsg : BackendMessage :=
  { BackendMessage.empty with
    id := "m1",
    joystick := some { bytes := "joy" },
    videorequest := some { connection_id := "abc", camera := "rear", width := 0, height := 480 } }

/-- A codec that parses every payload as the exposure envelope. -/
def exposureWire : Wire :=
  { ParseFromString := fun _ => some exposureMsg, send_ok := fun _ => true }

/-- A codec that parses every payload as the joystick envelope. -/
def joystickWire : Wire :=
  { ParseFromString := fun _ => some joystickMsg, send_ok := fun _ => true }

/-- A video request for the legacy camera name rear, with width 0. -/
def rearRequest : VideoRequest :=
  { connection_id := "abc", camera := "rear", width := 0, height := 480 }

/-- An envelope with id m2 and four populated fields: joystick, point-and-go,
exposure and an SDP request. -/
def mixedMsg : BackendMessage :=
  { BackendMessage.empty with
    id := "m2",
    joystick := some { bytes := "joy" },
    pointandgo := some { bytes := "go" },
    exposure := some { bytes := "exposure-2" },
    sdprequest := some { connection_id := "abc", sdp := "v=0", status := SDPStatus.Answered } }

/-- A codec that parses every payload as the mixed envelope. -/
def mixedWire : Wire :=
  { ParseFromString := fun _ => some mixedMsg, send_ok := fun _ => true }

/-- A codec that parses no payload. -/
def brokenWire : Wire :=
  { ParseFromString := fun _ => none, send_ok := fun _ => true }

/-- The connection with a point-and-go handler (callable 4) and an exposure
handler (callable 7), and no joystick handler. -/
def partlyRegistered : Connection := (conn.OnPointAndGo 4).OnExposure 7

/-- A websocket client that accepts every URL. -/
def acceptAll : String → Bool := fun _ => true

/-- A websocket client that accepts no URL. -/
def acceptNone : String → Bool := fun _ => false

/-- The connection with the auth token secret configured. -/
def authConn : Connection :=
  { conn with opts_ := { opts with auth_token := "secret" } }

/-- Options with no auth token, no STUN or TURN server, and a camera whose
default output size is zero by zero; the other settings are usable. -/
def sparseOpts : ConnectionOptions :=
  { backend_address := "ws://test.com", vehicle_id := "r01", auth_token := "",
    jpeg_quality := 80,
    webrtc := { stun_servers := [], turn_servers := [],
                min_udp_port := 52000, max_udp_port := 53000 },
    video_sources := [{ plainCam with source := { plainCam.source with output_width := 0,
                                                                        output_height := 0 } }] }

/-- A camera whose device carries the name of the panorama topic. -/
def panoCam : VideoSource :=
  { camera := { device := { name := "panorama" }, role := CameraRole.OtherRole 6 },
    source := { address := "tcp://h:4", topic := "panorama",
                output_width := 640, output_height := 360 } }

/-- Options whose only video source is the panorama camera. -/
def panoOpts : ConnectionOptions := { opts with video_sources := [panoCam] }

/-- A SystemCalibration without any entry. -/
def emptyCalib : SystemCalibration :=
  { cameraintrinsiccalibration := [], devicetodevicecoordinatetransformation := [] }

/-- A PanoramaCalibration whose transformation targets the device panorama. -/
def panoCalib : PanoramaCalibration :=
  { intrinsics := "pano-intrinsics",
    devicetodevicecoordinatetransformation :=
      { targetcoordinateframe := { device := { name := "panorama" } }, bytes := "pano-pose" } }

/-- A SystemCalibration with intrinsics and extrinsics for cam0 only. -/
def cam0Calib : SystemCalibration :=
  { cameraintrinsiccalibration :=
      [{ cameraundercalibration := { name := "cam0" }, bytes := "k0" }],
    devicetodevicecoordinatetransformation :=
      [{ targetcoordinateframe := { device := { name := "cam0" } }, bytes := "t0" }] }

/-- Three socket events: the channel opens, closes and opens again. -/
def reconnect : List Connection.SocketEvent :=
  [Connection.SocketEvent.opened, Connection.SocketEvent.closed, Connection.SocketEvent.opened]

end teleop.Examples

namespace streamer.Examples

/-- An engine whose parsers accept every input. -/
def engine : Engine :=
  { SocketAddressFromString := fun _ => true,
    CreateSessionDescription := fun _ _ => true,
    CreateIceCandidate := fun _ _ _ => true }

/-- The stream of the end-to-end scenario of the specification. -/
def stream1 : Stream :=
  { address := "tcp://h:1", topic := "camera", output_width := 640, output_height := 360 }

/-- A second stream, another camera at another size. -/
def stream2 : Stream :=
  { address := "tcp://h:2", topic := "rear", output_width := 320, output_height := 240 }

/-- A fresh signaler for the example options. -/
def signaler0 : Signaler :=
  { m_emit_handler := none, m_ctx := { created := 0 }, m_opts := teleop.Examples.webrtcOpts,
    m_sessions := [], pc_created := 0 }

/-- Three video requests: two for connection abc, one for connection xyz. -/
def calls : List (String × Stream) :=
  [("abc", stream1), ("abc", stream2), ("xyz", stream1)]

/-- The signaler after the first video request for connection abc. -/
def signaler1 : Signaler :=
  match Signaler.HandleVideoRequest engine signaler0 "abc" stream1 with
  | some r => r.1
  | none => signaler0

/-- An SDP answer for connection abc. -/
def answer : teleop.SDPRequest :=
  { connection_id := "abc", sdp := "v=0", status := teleop.SDPStatus.Answered }

/-- An ICE candidate for connection abc. -/
def candidate : teleop.ICECandidate :=
  { connection_id := "abc", sdp_mid := "video", sdp_mline_index := 0,
    candidate := "candidate:1 1 UDP 1 10.0.0.1 52000 typ host" }

end streamer.Examples

namespace streamer.Examples

/-- A libyuv stand-in: the gray conversion copies the luma bytes and fills the
chroma planes with 128; the other routines succeed and leave the destination
planes as they are. -/
def libyuv : Libyuv :=
  { I400ToI420 := fun data _ dst _ _ =>
      some (data, List.replicate dst.data_u.length 128, List.replicate dst.data_v.length 128),
    ConvertToI420 := fun _ dst _ _ _ => some (dst.data_y, dst.data_u, dst.data_v),
    I420Scale := fun _ dst _ => some (dst.data_y, dst.data_u, dst.data_v) }

/-- A 2 x 2 luminance sample of unsigned bytes. -/
def graySample : CameraSample :=
  { image := { cols := 2, rows := 2, stride := 2, type := PixelType.PB_UNSIGNED_BYTE,
               format := Format.PB_LUMINANCE, data := [10, 20, 30, 40] } }

/-- A luminance sample of unsigned bytes with zero columns and no data. -/
def emptySample : CameraSample :=
  { image := { cols := 0, rows := 2, stride := 0, type := PixelType.PB_UNSIGNED_BYTE,
               format := Format.PB_LUMINANCE, data := [] } }

/-- A stream whose output size is 2 x 2. -/
def smallStream : Stream :=
  { address := "tcp://h:1", topic := "camera", output_width := 2, output_height := 2 }

/-- A session connected once, to the small stream. -/
def connected : Session :=
  ((Session.new "abc").Connect { created := 0 } smallStream).1

/-- A receive that delivers the gray sample. -/
def recvGray : Socket → Option CameraSample := fun _ => some graySample

/-- A receive that delivers the sample with zero columns. -/
def recvEmpty : Socket → Option CameraSample := fun _ => some emptySample

/-- The session after its first NextFrame: the socket of the Connect is current. -/
def promoted : Session := connected.promote.1

/-- The gray sample converted: luma copied, chroma 128. -/
def grayFrame : I420Buffer :=
  { width := 2, height := 2, stride_y := 2, stride_u := 1, stride_v := 1,
    data_y := [10, 20, 30, 40], data_u := [128], data_v := [128] }

/-- The capturer after the gray sample went through NextFrame. -/
def grayCapturer : VideoCapturer :=
  { VideoCapturer.new with
    sample_ := graySample, unscaled_ := some grayFrame,
    scaled_ := some (I420Buffer.Create 2 2 2 1 1) }

/-- The trace of NextFrame on the gray sample. -/
def grayTrace : List Event :=
  [Event.Receive 0 100,
   Event.I420BufferCreate BufferSlot.unscaled 2 2 2 1 1,
   Event.I420BufferCreate BufferSlot.scaled 2 2 2 1 1,
   Event.I400ToI420 2 2,
   Event.OnFrame BufferSlot.unscaled grayFrame 2 2 0]

/-- Callables that do nothing when called. -/
def silent : Session.Callables := fun _ _ => []

/-- A session without peer connection on which a closed handler is registered. -/
def unattached : Session := (Session.new "abc").OnClosed (Callback.Foreign 9)

/-- A session with peer connection 0 on which a closed handler is registered. -/
def closable : Session := ((Session.new "abc").SetConnection 0).OnClosed (Callback.Foreign 9)

/-- A session with peer connection 0 and no handler at all. -/
def bare : Session := (Session.new "abc").SetConnection 0

/-- A local description that serializes. -/
def offerDesc : SessionDescription := { ToString := some "v=0 offer" }

/-- A local ICE candidate that serializes. -/
def localCandidate : IceCandidate :=
  { sdp_mid := "video", sdp_mline_index := 0, ToString := some "candidate:7" }

/-- A signaler without emit handler and without sessions. -/
def mute : Signaler := signaler0

/-- A message carrying an SDP offer. -/
def offerMessage : teleop.VehicleMessage :=
  { teleop.VehicleMessage.empty with
    sdprequest := some { connection_id := "abc", sdp := "v=0 offer",
                         status := teleop.SDPStatus.Offered } }

/-- A capture format of 640 x 360. -/
def format640 : VideoFormat := { width := 640, height := 360, interval := 33333333, fourcc := 0 }

/-- A capturer whose thread runs and whose capture state is running. -/
def runningCapturer : VideoCapturer :=
  { VideoCapturer.new with
    format_ := format640, capture_format_ := some format640,
    thread_ := true, should_continue_ := true,
    capture_state_ := CaptureState.CS_RUNNING }

/-- The capturer right after Start returned on a new capturer: the thread runs,
the capture state has not been recorded. -/
def startedCapturer : VideoCapturer :=
  { VideoCapturer.new with
    format_ := format640, capture_format_ := some format640,
    thread_ := true, should_continue_ := true }

/-- The libyuv stand-in with the gray conversion of the specification. -/
def libyuvGray : Libyuv := { libyuv with I400ToI420 := LibyuvSpec.I400ToI420 }

/-- A 3 x 2 luminance sample of unsigned bytes, every pixel 7. -/
def solidSample : CameraSample :=
  { image := { cols := 3, rows := 2, stride := 3, type := PixelType.PB_UNSIGNED_BYTE,
               format := Format.PB_LUMINANCE, data := [7, 7, 7, 7, 7, 7] } }

/-- A receive that delivers the solid sample. -/
def recvSolid : Socket → Option CameraSample := fun _ => some solidSample

/-- Calls on a connected session: two reads, a reconnect to the second stream,
and a read. -/
def readTwiceReconnect : List Session.Call :=
  [Session.Call.NextFrame recvGray, Session.Call.NextFrame (fun _ => none),
   Session.Call.Connect stream2, Session.Call.NextFrame recvGray]

/-- The solid sample converted by the stand-in: luma copied, chroma 128. -/
def solidFrame : I420Buffer :=
  { width := 3, height := 2, stride_y := 3, stride_u := 2, stride_v := 2,
    data_y := [7, 7, 7, 7, 7, 7], data_u := [128, 128], data_v := [128, 128] }

/-- The capturer after the solid sample went through NextFrame on a session
whose output size is 2 x 2: the stand-in leaves the scaled buffer as created. -/
def solidCapturer : VideoCapturer :=
  { VideoCapturer.new with
    sample_ := solidSample, unscaled_ := some solidFrame,
    scaled_ := some (I420Buffer.Create 2 2 2 1 1) }

/-- The trace of NextFrame on the solid sample with output size 2 x 2. -/
def solidTrace : List Event :=
  [Event.Receive 0 100,
   Event.I420BufferCreate BufferSlot.unscaled 3 2 3 2 2,
   Event.I420BufferCreate BufferSlot.scaled 2 2 2 1 1,
   Event.I400ToI420 3 2,
   Event.I420Scale 3 2 2 2 FilterMode.kFilterBox,
   Event.OnFrame BufferSlot.scaled (I420Buffer.Create 2 2 2 1 1) 2 2 0]

/-- A 2 x 1 RGB sample of unsigned bytes: six bytes. -/
def rgbSample : CameraSample :=
  { image := { cols := 2, rows := 1, stride := 6, type := PixelType.PB_UNSIGNED_BYTE,
               format := Format.PB_RGB, data := [1, 2, 3, 4, 5, 6] } }

/-- A receive that delivers the RGB sample. -/
def recvRgb : Socket → Option CameraSample := fun _ => some rgbSample

/-- A 2 x 1 RGB sample of unsigned bytes that carries five bytes instead of six. -/
def shortRgbSample : CameraSample :=
  { image := { cols := 2, rows := 1, stride := 6, type := PixelType.PB_UNSIGNED_BYTE,
               format := Format.PB_RGB, data := [1, 2, 3, 4, 5] } }

/-- A receive that delivers the short RGB sample. -/
def recvShortRgb : Socket → Option CameraSample := fun _ => some shortRgbSample

/-- The scaled buffer after the solid sample was rescaled by the stand-in, which
leaves the planes of the new buffer as they are. -/
def scaledFrame : I420Buffer := I420Buffer.Create 2 2 2 1 1

end streamer.Examples

/-! ## Theorems: Connection -/

namespace teleop

theorem confirmationsSent_append (a b : List Event) :
    confirmationsSent (a ++ b) = confirmationsSent a ++ confirmationsSent b := by
  induction a with
  | nil => rfl
  | cons e rest ih =>
    cases e with
    | Send vmsg =>
      cases hc : vmsg.confirmation <;> simp [confirmationsSent, hc, ih]
    | _ => simp [confirmationsSent, ih]

theorem confirmationsSent_dispatch (slot : CommandKind) (field : Option Command)
    (handler : Option Nat) : confirmationsSent (Connection.dispatch slot field handler) = [] := by
  cases field <;> cases handler <;> rfl

theorem confirmationsSent_HandleVideoRequest (c : Connection) (req : VideoRequest) :
    confirmationsSent (c.HandleVideoRequest req).2 = [] := by
  unfold Connection.HandleVideoRequest
  cases c.selectVideoSource req.camera <;> rfl

theorem handlerCalls_append (slot : CommandKind) (a b : List Event) :
    handlerCalls slot (a ++ b) = handlerCalls slot a ++ handlerCalls slot b := by
  induction a with
  | nil => rfl
  | cons e rest ih =>
    cases e with
    | HandlerCall s target arg =>
      by_cases hs : s = slot <;> simp [handlerCalls, hs, ih]
    | _ => simp [handlerCalls, ih]

theorem handlerCalls_dispatch (slot s : CommandKind) (field : Option Command)
    (handler : Option Nat) :
    handlerCalls slot (Connection.dispatch s field handler) =
      if s = slot then
        (match field, handler with
         | some arg, some target => [(target, arg)]
         | _, _ => [])
      else [] := by
  cases field <;> cases handler <;> by_cases hs : s = slot <;>
    simp [Connection.dispatch, handlerCalls, hs]

theorem handlerCalls_HandleVideoRequest (slot : CommandKind) (c : Connection)
    (req : VideoRequest) : handlerCalls slot (c.HandleVideoRequest req).2 = [] := by
  unfold Connection.HandleVideoRequest
  cases c.selectVideoSource req.camera <;> rfl

theorem findByName_eq_find (name : String) (l : List VideoSource) :
    Connection.findByName name l = l.find? (fun s => s.camera.device.name == name) := by
  induction l with
  | nil => rfl
  | cons item rest ih =>
    by_cases h : item.camera.device.name = name
    · simp [Connection.findByName, List.find?, h]
    · have hb : (item.camera.device.name == name) = false := by simpa using h
      simp [Connection.findByName, List.find?, h, hb, ih]

theorem FindVideoSourceByRole_loop_eq_find (role : CameraRole) (l : List VideoSource) :
    Connection.FindVideoSourceByRole.loop role l = l.find? (fun s => s.camera.role == role) := by
  induction l with
  | nil => rfl
  | cons item rest ih =>
    by_cases h : item.camera.role = role
    · simp [Connection.FindVideoSourceByRole.loop, List.find?, h]
    · have hb : (item.camera.role == role) = false := by simpa using h
      simp [Connection.FindVideoSourceByRole.loop, List.find?, h, hb, ih]

theorem selectVideoSource_isSome (c : Connection) (n : String)
    (hne : c.opts_.video_sources ≠ []) : (c.selectVideoSource n).isSome = true := by
  unfold Connection.selectVideoSource
  cases hs : c.opts_.video_sources with
  | nil => exact absurd hs hne
  | cons first rest => cases Connection.FindVideoSource c n <;> rfl

/-- The handler slots other than the exposure slot are dispatched: on a parsed
envelope the calls made on such a slot are exactly one call with the payload of
its field when the field is populated and the slot holds a callable, and none
otherwise. -/
theorem handleParsed_handlerCalls (w : Wire) (c : Connection) (msg : BackendMessage)
    (slot : CommandKind) (hslot : slot ≠ CommandKind.exposure) :
    handlerCalls slot (c.handleParsed w msg).2 =
      match msg.field slot, c.handler slot with
      | some arg, some target => [(target, arg)]
      | _, _ => [] := by
  have hv : handlerCalls slot
      (match msg.videorequest with
        | some req => c.HandleVideoRequest req
        | none => (c, [])).2 = [] := by
    cases msg.videorequest with
    | none => rfl
    | some req => exact handlerCalls_HandleVideoRequest slot c req
  have hs : handlerCalls slot
      (match msg.sdprequest with
        | some req => [Event.SignalerHandleSDPRequest req]
        | none => []) = [] := by
    cases msg.sdprequest <;> rfl
  have hi : handlerCalls slot
      (match msg.icecandidate with
        | some cand => [Event.SignalerHandleICECandidate cand]
        | none => []) = [] := by
    cases msg.icecandidate <;> rfl
  have hc : handlerCalls slot
      (if msg.id ≠ "" then
        ((Connection.SendConfirmation w
            (match msg.videorequest with
              | some req => c.HandleVideoRequest req
              | none => (c, [])).1 msg.id ConfirmationStatus.SUCCESS).1,
         (Connection.SendConfirmation w
            (match msg.videorequest with
              | some req => c.HandleVideoRequest req
              | none => (c, [])).1 msg.id ConfirmationStatus.SUCCESS).2.1)
       else ((match msg.videorequest with
              | some req => c.HandleVideoRequest req
              | none => (c, [])).1, [])).2 = [] := by
    by_cases hid : msg.id = "" <;>
      simp [hid, Connection.SendConfirmation, Connection.SendMessage, handlerCalls]
  unfold Connection.handleParsed
  simp only [handlerCalls_append, handlerCalls_dispatch, hv, hs, hi, hc]
  cases slot <;> simp_all [BackendMessage.field, Connection.handler]

/-- The confirmations among the calls HandleMessage makes when every call on
the Signaler returns: one, carrying the id of the envelope and status SUCCESS,
when the id is non-empty, and none when the id is empty. -/
theorem HandleMessage_confirmations (w : Wire) (c : Connection) (payload : String)
    (msg : BackendMessage) (hparse : w.ParseFromString payload = some msg) :
    confirmationsSent (c.HandleMessage w payload).2 =
      if msg.id = "" then []
      else [{ message_id := msg.id, status := ConfirmationStatus.SUCCESS }] := by
  have hv : confirmationsSent
      (match msg.videorequest with
        | some req => c.HandleVideoRequest req
        | none => (c, [])).2 = [] := by
    cases msg.videorequest with
    | none => rfl
    | some req => exact confirmationsSent_HandleVideoRequest c req
  have hs : confirmationsSent
      (match msg.sdprequest with
        | some req => [Event.SignalerHandleSDPRequest req]
        | none => []) = [] := by
    cases msg.sdprequest <;> rfl
  have hi : confirmationsSent
      (match msg.icecandidate with
        | some cand => [Event.SignalerHandleICECandidate cand]
        | none => []) = [] := by
    cases msg.icecandidate <;> rfl
  unfold Connection.HandleMessage
  rw [hparse]
  unfold Connection.handleParsed
  simp only [confirmationsSent_append, confirmationsSent_dispatch, hv, hs, hi, List.nil_append]
  by_cases hid : msg.id = "" <;>
    simp [hid, Connection.SendConfirmation, Connection.SendMessage, confirmationsSent,
      VehicleMessage.empty]

end teleop

namespace teleop

/-- Claim C2, at the failing input.  The exposure field of the envelope is
populated and a handler is registered through OnExposure, yet HandleMessage
makes no call at all: the exposure handler is not invoked. -/
theorem C2_exposure_handler_not_invoked :
    Examples.exposureWire.ParseFromString "payload" = some Examples.exposureMsg ∧
    Examples.exposureMsg.exposure = some { bytes := "exposure-1" } ∧
    (Examples.conn.OnExposure 7).exposure_handler_ = some 7 ∧
    ((Examples.conn.OnExposure 7).HandleMessage Examples.exposureWire "payload").2 = [] := by
  refine ⟨rfl, rfl, rfl, ?_⟩
  decide

/-- Claim C3.  With at least one configured source, the camera that
HandleVideoRequest selects for the requested name is the one the specification
describes: first match by device name, else for front and rear the first
source with role FrontFisheye and RearFisheye, else the first source. -/
theorem C3_camera_selection (c : Connection) (n : String)
    (hne : c.opts_.video_sources ≠ []) :
    c.selectVideoSource n = selectCameraSpec c.opts_.video_sources n ∧
    (c.selectVideoSource n).isSome = true := by
  unfold Connection.selectVideoSource selectCameraSpec Connection.FindVideoSource
    Connection.FindVideoSourceByRole
  rw [findByName_eq_find]
  simp only [FindVideoSourceByRole_loop_eq_find]
  cases hs : c.opts_.video_sources with
  | nil => exact absurd hs hne
  | cons first rest =>
    simp only [← hs]
    cases hf : List.find? (fun s => s.camera.device.name == n) c.opts_.video_sources with
    | some v => simp
    | none =>
      by_cases h1 : n = "front"
      · cases hr : List.find? (fun s => s.camera.role == CameraRole.FrontFisheye)
            c.opts_.video_sources <;> simp [h1, hr, hs]
      · by_cases h2 : n = "rear"
        · cases hr : List.find? (fun s => s.camera.role == CameraRole.RearFisheye)
              c.opts_.video_sources <;> simp [h1, h2, hr, hs]
        · simp [h1, h2, hs]

/-- Witness of C3: the name rear matches no device name, so the rear fisheye
camera is selected. -/
theorem C3_camera_selection_witness :
    Examples.conn.opts_.video_sources ≠ [] ∧
    (Examples.conn.selectVideoSource "rear" =
        selectCameraSpec Examples.conn.opts_.video_sources "rear" ∧
      (Examples.conn.selectVideoSource "rear").isSome = true) ∧
    Examples.conn.selectVideoSource "rear" = some Examples.rearCam :=
  ⟨by decide, C3_camera_selection Examples.conn "rear" (by decide), by decide⟩

/-- Claim C4.  On a connection whose options passed the constructor, a video
request makes exactly one call of Signaler::HandleVideoRequest, with the
connection id of the request and a stream that has the address and topic of
the selected camera and the width and height of the request; the connection,
its options included, is unchanged. -/
theorem C4_video_request_forwarded (opts : ConnectionOptions) (c0 c : Connection)
    (msg : VideoRequest) (hnew : Connection.new opts = some c0)
    (hopts : c.opts_ = c0.opts_) :
    ∃ video, c.selectVideoSource msg.camera = some video ∧
      c.HandleVideoRequest msg =
        (c, [Event.SignalerHandleVideoRequest msg.connection_id
              { address := video.source.address, topic := video.source.topic,
                output_width := msg.width, output_height := msg.height }]) ∧
      videoRequestCalls (c.HandleVideoRequest msg).2 =
        [(msg.connection_id,
          { address := video.source.address, topic := video.source.topic,
            output_width := msg.width, output_height := msg.height })] ∧
      (c.HandleVideoRequest msg).1.opts_ = c.opts_ := by
  have hsrc : c.opts_.video_sources ≠ [] := by
    unfold Connection.new at hnew
    cases hsig : streamer.Signaler.new opts.webrtc with
    | none => simp [hsig] at hnew
    | some sig =>
      simp only [hsig] at hnew
      split at hnew
      · simp at hnew
      · split at hnew
        · simp at hnew
        · split at hnew
          · simp at hnew
          · split at hnew
            · simp at hnew
            · rename_i hv _
              have hc : c0.opts_ = opts := by
                injection hnew with hnew
                rw [← hnew]
              rw [hopts, hc]
              exact hv
  have hsel := selectVideoSource_isSome c msg.camera hsrc
  cases hv : c.selectVideoSource msg.camera with
  | none => simp [hv] at hsel
  | some video =>
    refine ⟨video, rfl, ?_⟩
    simp [Connection.HandleVideoRequest, hv, videoRequestCalls]

/-- Witness of C4: a request for camera rear with width 0 and height 480 is
forwarded with the address and topic of the rear camera and size 0 x 480, not
the configured 1280 x 720. -/
theorem C4_video_request_forwarded_witness :
    Connection.new Examples.opts = some Examples.conn ∧
    (Examples.conn.OnJoystick 3).opts_ = Examples.conn.opts_ ∧
    ∃ video, (Examples.conn.OnJoystick 3).selectVideoSource Examples.rearRequest.camera
        = some video ∧
      (Examples.conn.OnJoystick 3).HandleVideoRequest Examples.rearRequest =
        (Examples.conn.OnJoystick 3,
         [Event.SignalerHandleVideoRequest Examples.rearRequest.connection_id
              { address := video.source.address, topic := video.source.topic,
                output_width := Examples.rearRequest.width,
                output_height := Examples.rearRequest.height }]) ∧
      videoRequestCalls ((Examples.conn.OnJoystick 3).HandleVideoRequest Examples.rearRequest).2 =
        [(Examples.rearRequest.connection_id,
          { address := video.source.address, topic := video.source.topic,
            output_width := Examples.rearRequest.width,
            output_height := Examples.rearRequest.height })] ∧
      ((Examples.conn.OnJoystick 3).HandleVideoRequest Examples.rearRequest).1.opts_ =
        (Examples.conn.OnJoystick 3).opts_ :=
  ⟨by decide, rfl,
   C4_video_request_forwarded Examples.opts Examples.conn (Examples.conn.OnJoystick 3)
     Examples.rearRequest (by decide) rfl⟩

/-- The trace of the dispatch of a parsed envelope: the guarded handler calls of
the seven dispatched kinds in source order (an empty slot or an unpopulated
field contributes nothing), then the video request, the SDP request and the
ICE candidate handed to the Signaler, and last the confirmation when the id is
non-empty. -/
theorem handleParsed_trace (w : Wire) (c : Connection) (msg : BackendMessage) :
    (c.handleParsed w msg).2 =
      Connection.dispatch CommandKind.joystick msg.joystick c.joystick_handler_ ++
      Connection.dispatch CommandKind.point_and_go msg.pointandgo c.point_and_go_handler_ ++
      Connection.dispatch CommandKind.docking msg.dock_command c.docking_handler_ ++
      Connection.dispatch CommandKind.stop msg.stop_command c.stop_handler_ ++
      Connection.dispatch CommandKind.error_reset msg.errorstateresetcommand
        c.error_reset_handler_ ++
      Connection.dispatch CommandKind.turn_in_place msg.turninplace c.turn_in_place_handler_ ++
      Connection.dispatch CommandKind.reset_exposure msg.reset_exposure
        c.reset_exposure_handler_ ++
      (match msg.videorequest with
       | some req => (c.HandleVideoRequest req).2
       | none => []) ++
      (match msg.sdprequest with
       | some req => [Event.SignalerHandleSDPRequest req]
       | none => []) ++
      (match msg.icecandidate with
       | some cand => [Event.SignalerHandleICECandidate cand]
       | none => []) ++
      (if msg.id = "" then []
       else [Event.Send { VehicleMessage.empty with
               confirmation := some { message_id := msg.id,
                                      status := ConfirmationStatus.SUCCESS } }]) := by
  unfold Connection.handleParsed
  cases msg.videorequest <;> by_cases hid : msg.id = "" <;>
    simp [hid, Connection.SendConfirmation, Connection.SendMessage]

/-- Claim C17, at the failing input.  The envelope has id m2 and four populated
fields.  The joystick field has no handler: nothing is called for it.  The
point-and-go handler is called, the SDP request is handed to the Signaler and
the confirmation is sent last.  The exposure field is populated and its
handler is registered, yet it is not dispatched. -/
theorem C17_exposure_not_dispatched_among_others :
    Examples.mixedWire.ParseFromString "payload" = some Examples.mixedMsg ∧
    Examples.partlyRegistered.joystick_handler_ = none ∧
    Examples.partlyRegistered.exposure_handler_ = some 7 ∧
    Examples.mixedMsg.exposure = some { bytes := "exposure-2" } ∧
    (Examples.partlyRegistered.HandleMessage Examples.mixedWire "payload").2 =
      [Event.HandlerCall CommandKind.point_and_go 4 { bytes := "go" },
       Event.SignalerHandleSDPRequest
         { connection_id := "abc", sdp := "v=0", status := SDPStatus.Answered },
       Event.Send { VehicleMessage.empty with
         confirmation := some { message_id := "m2", status := ConfirmationStatus.SUCCESS } }] ∧
    handlerCalls CommandKind.exposure
      (Examples.partlyRegistered.HandleMessage Examples.mixedWire "payload").2 = [] := by
  decide

/-- Claim C18.  A payload that does not parse is dropped: HandleMessage makes no
call at all (no handler, nothing to the Signaler, no message sent, so no
confirmation) and leaves the connection as it was. -/
theorem C18_unparsable_payload_dropped (w : Wire) (c : Connection) (payload : String)
    (hparse : w.ParseFromString payload = none) :
    c.HandleMessage w payload = (c, []) := by
  unfold Connection.HandleMessage
  rw [hparse]

/-- Witness of C18: a payload on a codec that parses nothing. -/
theorem C18_unparsable_payload_dropped_witness :
    Examples.brokenWire.ParseFromString "garbage" = none ∧
    Examples.partlyRegistered.HandleMessage Examples.brokenWire "garbage"
      = (Examples.partlyRegistered, []) :=
  ⟨rfl, C18_unparsable_payload_dropped Examples.brokenWire Examples.partlyRegistered
          "garbage" rfl⟩

/-- The manifest built by the loop of HandleOpen: the cameras so far, then one
camera per source in order. -/
theorem addCameras_cameras (sources : List VideoSource) (manifest : Manifest) :
    Connection.addCameras sources manifest =
      { cameras := manifest.cameras ++ sources.map (fun item => item.camera) } := by
  induction sources generalizing manifest with
  | nil => simp [Connection.addCameras]
  | cons item rest ih => simp [Connection.addCameras, ih]

/-- Dial ends the process when the websocket client rejects the URL. -/
theorem Dial_rejected (uriValid : String → Bool) (c : Connection)
    (hvalid : uriValid (c.opts_.backend_address ++ "/api/v1/ws/vehicle/" ++
      c.opts_.vehicle_id ++ "/register") = false) :
    c.Dial uriValid = none := by
  simp [Connection.Dial, hvalid]

/-- The trace of Dial when the websocket client accepts the URL. -/
theorem Dial_accepted (uriValid : String → Bool) (c : Connection)
    (hvalid : uriValid c.wsurl = true) :
    c.Dial uriValid = some (c,
      [Event.GetConnection c.wsurl, Event.SetHandlers] ++
      (if c.opts_.auth_token = "" then []
       else [Event.AppendHeader "Cookie" ("auth=" ++ c.opts_.auth_token)]) ++
      [Event.ClientConnect c.wsurl]) := by
  unfold Connection.wsurl at hvalid
  simp [Connection.Dial, Connection.wsurl, hvalid]

theorem messagesSent_append (a b : List Event) :
    messagesSent (a ++ b) = messagesSent a ++ messagesSent b := by
  induction a with
  | nil => rfl
  | cons e rest ih => cases e <;> simp [messagesSent, ih]

theorem manifestsSent_append (a b : List Event) :
    manifestsSent (a ++ b) = manifestsSent a ++ manifestsSent b := by
  induction a with
  | nil => rfl
  | cons e rest ih =>
    cases e with
    | Send vmsg =>
      cases hm : vmsg.manifest <;> simp [manifestsSent, hm, ih]
    | _ => simp [manifestsSent, ih]

theorem dials_append (a b : List Event) : dials (a ++ b) = dials a ++ dials b := by
  induction a with
  | nil => rfl
  | cons e rest ih => cases e <;> simp [dials, ih]

theorem clientConnects_append (a b : List Event) :
    clientConnects (a ++ b) = clientConnects a ++ clientConnects b := by
  induction a with
  | nil => rfl
  | cons e rest ih => cases e <;> simp [clientConnects, ih]

/-- What HandleClose does when the websocket client accepts the URL: one run of
Dial, one connect, nothing sent. -/
theorem HandleClose_counts (uriValid : String → Bool) (c : Connection)
    (hvalid : uriValid c.wsurl = true) :
    ∃ tr, c.HandleClose uriValid = some (c, tr) ∧
      dials tr = [c.wsurl] ∧ clientConnects tr = [c.wsurl] ∧ messagesSent tr = [] ∧
      manifestsSent tr = [] := by
  refine ⟨_, Dial_accepted uriValid c hvalid, ?_, ?_, ?_, ?_⟩ <;>
    by_cases ht : c.opts_.auth_token = "" <;>
    simp [ht, dials, clientConnects, messagesSent, manifestsSent]

/-- What HandleOpen does: one message, a manifest; no run of Dial. -/
theorem HandleOpen_counts (w : Wire) (c : Connection) :
    (c.HandleOpen w).1 = c ∧
    (c.HandleOpen w).2 =
      [Event.Send { VehicleMessage.empty with
        manifest := some { cameras := c.opts_.video_sources.map (fun item => item.camera) } }] := by
  simp [Connection.HandleOpen, Connection.SendManifest, Connection.SendMessage,
    addCameras_cameras]

/-- On a client that accepts no URL, Dial ends the process. -/
theorem Dial_rejected_example : Examples.conn.Dial Examples.acceptNone = none :=
  Dial_rejected Examples.acceptNone Examples.conn rfl

/-- Claim C21.  When the websocket client accepts the URL, Dial returns, and it
connects exactly once, to the backend address followed by /api/v1/ws/vehicle/,
the vehicle id and /register; it appends the header Cookie with the value auth=
followed by the token exactly when the token is not empty, and appends no other
header. -/
theorem C21_dial_url_and_cookie (uriValid : String → Bool) (c : Connection)
    (hvalid : uriValid (c.opts_.backend_address ++ "/api/v1/ws/vehicle/" ++
      c.opts_.vehicle_id ++ "/register") = true) :
    ∃ tr, c.Dial uriValid = some (c, tr) ∧
      clientConnects tr =
        [c.opts_.backend_address ++ "/api/v1/ws/vehicle/" ++ c.opts_.vehicle_id ++ "/register"] ∧
      (("Cookie", "auth=" ++ c.opts_.auth_token) ∈ headersAppended tr ↔
        c.opts_.auth_token ≠ "") ∧
      (∀ kv ∈ headersAppended tr, kv = ("Cookie", "auth=" ++ c.opts_.auth_token)) := by
  refine ⟨_, Dial_accepted uriValid c hvalid, ?_, ?_, ?_⟩ <;>
    by_cases ht : c.opts_.auth_token = "" <;>
    simp [ht, clientConnects, headersAppended, Connection.wsurl]

/-- Witness of C21: the connection with the token secret, on a client that
accepts every URL. -/
theorem C21_dial_url_and_cookie_witness :
    Examples.acceptAll "ws://test.com/api/v1/ws/vehicle/r01/register" = true ∧
    ∃ tr, Examples.authConn.Dial Examples.acceptAll = some (Examples.authConn, tr) ∧
      clientConnects tr = ["ws://test.com/api/v1/ws/vehicle/r01/register"] ∧
      (("Cookie", "auth=secret") ∈ headersAppended tr ↔ "secret" ≠ "") ∧
      (∀ kv ∈ headersAppended tr, kv = ("Cookie", "auth=secret")) :=
  ⟨rfl, C21_dial_url_and_cookie Examples.acceptAll Examples.authConn rfl⟩

/-- Claim C22.  HandleOpen sends exactly one message and makes no other call:
the message is a manifest (no other field of the envelope is set) whose camera
list is the cameras of the configured video sources, one per source, in the
order of the configuration. -/
theorem C22_open_sends_one_manifest (w : Wire) (c : Connection) :
    (c.HandleOpen w).2 =
      [Event.Send { VehicleMessage.empty with
        manifest := some { cameras := c.opts_.video_sources.map (fun item => item.camera) } }] ∧
    messagesSent (c.HandleOpen w).2 =
      [{ VehicleMessage.empty with
        manifest := some { cameras := c.opts_.video_sources.map (fun item => item.camera) } }] ∧
    ((c.opts_.video_sources.map (fun item => item.camera)).length
      = c.opts_.video_sources.length) := by
  simp [Connection.HandleOpen, Connection.SendManifest, Connection.SendMessage,
    addCameras_cameras, messagesSent]

/-- Claim C23.  When the websocket client accepts the URL: HandleClose runs Dial
exactly once (one get_connection, one connect) and sends nothing, so no
manifest; and over any sequence of open and close events the handlers return,
the runs of Dial are as many as the close events, and the messages sent are
manifests, as many as the open events. -/
theorem C23_one_dial_per_close (uriValid : String → Bool) (w : Wire) (c : Connection)
    (hvalid : uriValid c.wsurl = true) :
    (∃ tr, c.HandleClose uriValid = some (c, tr) ∧
      dials tr = [c.wsurl] ∧ clientConnects tr = [c.wsurl] ∧ messagesSent tr = []) ∧
    (∀ evs : List Connection.SocketEvent,
      ∃ tr, Connection.handleEvents uriValid w c evs = some (c, tr) ∧
        (dials tr).length = evs.count Connection.SocketEvent.closed ∧
        (clientConnects tr).length = evs.count Connection.SocketEvent.closed ∧
        (manifestsSent tr).length = evs.count Connection.SocketEvent.opened ∧
        (messagesSent tr).length = evs.count Connection.SocketEvent.opened) := by
  constructor
  · obtain ⟨tr, h1, h2, h3, h4, _⟩ := HandleClose_counts uriValid c hvalid
    exact ⟨tr, h1, h2, h3, h4⟩
  · intro evs
    induction evs with
    | nil => exact ⟨[], rfl, rfl, rfl, rfl, rfl⟩
    | cons ev rest ih =>
      obtain ⟨tr, hrun, h1, h2, h3, h4⟩ := ih
      cases ev with
      | opened =>
        obtain ⟨ho1, ho2⟩ := HandleOpen_counts w c
        refine ⟨(c.HandleOpen w).2 ++ tr, ?_, ?_, ?_, ?_, ?_⟩
        · simp only [Connection.handleEvents, ho1, hrun]
        · rw [dials_append, ho2]; simp [dials, h1]
        · rw [clientConnects_append, ho2]; simp [clientConnects, h2]
        · rw [manifestsSent_append, ho2]; simp [manifestsSent, h3, VehicleMessage.empty]
        · rw [messagesSent_append, ho2]; simp [messagesSent, h4]
      | closed =>
        obtain ⟨tr1, hc, hc1, hc2, hc3, hc4⟩ := HandleClose_counts uriValid c hvalid
        refine ⟨tr1 ++ tr, ?_, ?_, ?_, ?_, ?_⟩
        · simp only [Connection.handleEvents, hc, hrun]
        · rw [dials_append, hc1]; simp [h1]
        · rw [clientConnects_append, hc2]; simp [h2]
        · rw [manifestsSent_append, hc4]; simp [h3]
        · rw [messagesSent_append, hc3]; simp [h4]

/-- Witness of C23: the channel opens, closes and opens again. -/
theorem C23_one_dial_per_close_witness :
    Examples.acceptAll Examples.conn.wsurl = true ∧
    ∃ tr, Connection.handleEvents Examples.acceptAll Examples.joystickWire Examples.conn
        Examples.reconnect = some (Examples.conn, tr) ∧
      (dials tr).length = 1 ∧ (manifestsSent tr).length = 2 := by
  refine ⟨rfl, ?_⟩
  obtain ⟨tr, h, h1, _, h3, _⟩ :=
    (C23_one_dial_per_close Examples.acceptAll Examples.joystickWire Examples.conn rfl).2
      Examples.reconnect
  exact ⟨tr, h, by rw [h1]; decide, by rw [h3]; decide⟩

/-- Claim C24, counterexample.  Options with an empty auth token, no STUN or
TURN server, and a video source whose default output width and height are zero
construct a Connection: the constructor does not abort. -/
theorem C24_unchecked_options_construct :
    Examples.sparseOpts.auth_token = "" ∧
    Examples.sparseOpts.webrtc.stun_servers = [] ∧
    Examples.sparseOpts.webrtc.turn_servers = [] ∧
    Examples.sparseOpts.video_sources.map (fun v => (v.source.output_width, v.source.output_height))
      = [(0, 0)] ∧
    (Connection.new Examples.sparseOpts).isSome = true := by
  decide

/-- Claim C24, amended.  Constructing a Connection aborts exactly when the
minimum or the maximum UDP port is zero, the backend address or the vehicle id
is empty, the list of video sources is empty, or the JPEG quality is zero; the
auth token, the STUN and TURN servers and the output sizes are not looked at. -/
theorem C24_abort_exactly_on_checked_options (opts : ConnectionOptions) :
    Connection.new opts = none ↔
      (opts.webrtc.min_udp_port = 0 ∨ opts.webrtc.max_udp_port = 0 ∨
       opts.backend_address = "" ∨ opts.vehicle_id = "" ∨
       opts.video_sources = [] ∨ opts.jpeg_quality = 0) := by
  unfold Connection.new streamer.Signaler.new
  by_cases h1 : opts.webrtc.min_udp_port = 0
  · simp [h1]
  by_cases h2 : opts.webrtc.max_udp_port = 0
  · simp [h1, h2]
  by_cases h3 : opts.backend_address = ""
  · simp [h1, h2, h3]
  by_cases h4 : opts.vehicle_id = ""
  · simp [h1, h2, h3, h4]
  by_cases h5 : opts.video_sources = []
  · simp [h1, h2, h3, h4, h5]
  by_cases h6 : opts.jpeg_quality = 0
  · simp [h1, h2, h3, h4, h5, h6]
  simp [h1, h2, h3, h4, h5, h6]

theorem populateIntrinsics_found (name : String) (l : List CameraIntrinsicCalibration)
    (cam : Camera) (found : Bool) :
    (Connection.populateIntrinsics name l (cam, found)).2 =
      (found || l.any (fun i => i.cameraundercalibration.name == name)) := by
  induction l generalizing cam found with
  | nil => simp [Connection.populateIntrinsics]
  | cons i rest ih =>
    by_cases h : i.cameraundercalibration.name = name
    · simp [Connection.populateIntrinsics, h, ih]
    · have hb : (i.cameraundercalibration.name == name) = false := by simpa using h
      simp [Connection.populateIntrinsics, h, ih, hb]

theorem populateExtrinsics_found (name : String) (l : List CoordinateTransformation)
    (cam : Camera) (found : Bool) :
    (Connection.populateExtrinsics name l (cam, found)).2 =
      (found || l.any (fun e => e.targetcoordinateframe.device.name == name)) := by
  induction l generalizing cam found with
  | nil => simp [Connection.populateExtrinsics]
  | cons e rest ih =>
    by_cases h : e.targetcoordinateframe.device.name = name
    · simp [Connection.populateExtrinsics, h, ih]
    · have hb : (e.targetcoordinateframe.device.name == name) = false := by simpa using h
      simp [Connection.populateExtrinsics, h, ih, hb]

/-- Whether the loop body finds both calibrations for a source. -/
theorem populateSource_found (panoramaName : String) (calib : SystemCalibration)
    (panoCalib : PanoramaCalibration) (videoSource : VideoSource) :
    (Connection.populateSource panoramaName calib panoCalib videoSource).2 =
      (if panoramaName = videoSource.camera.device.name then
        decide (panoCalib.devicetodevicecoordinatetransformation.targetcoordinateframe.device.name
          = videoSource.camera.device.name)
       else calib.present videoSource.camera.device.name) := by
  unfold Connection.populateSource
  by_cases hp : panoramaName = videoSource.camera.device.name
  · by_cases ht : panoCalib.devicetodevicecoordinatetransformation.targetcoordinateframe.device.name
        = videoSource.camera.device.name
    · simp [hp, ht]
    · simp [hp, ht]
  · simp [hp, populateIntrinsics_found, populateExtrinsics_found, SystemCalibration.present]

theorem populateSources_found (panoramaName : String) (calib : SystemCalibration)
    (panoCalib : PanoramaCalibration) (sources : List VideoSource) (allFound : Bool) :
    (Connection.populateSources panoramaName calib panoCalib sources allFound).2 =
      (allFound && sources.all
        (fun v => (Connection.populateSource panoramaName calib panoCalib v).2)) := by
  induction sources generalizing allFound with
  | nil => simp [Connection.populateSources]
  | cons v rest ih => simp [Connection.populateSources, ih, Bool.and_assoc]

/-- With a SystemCalibration that knows cam0 only, the options with cam0 alone
are complete, and the options with cam0, cam1 and cam2 are not. -/
theorem populateCalibrationParameters_example :
    (Connection.populateCalibrationParameters "panorama"
      { Examples.opts with video_sources := [Examples.plainCam] }
      Examples.cam0Calib Examples.panoCalib).2 = true ∧
    (Connection.populateCalibrationParameters "panorama" Examples.opts
      Examples.cam0Calib Examples.panoCalib).2 = false ∧
    ((Connection.populateCalibrationParameters "panorama" Examples.opts
      Examples.cam0Calib Examples.panoCalib).1.video_sources.map
        (fun v => v.camera.extrinsics.map (fun e => e.bytes))) = [some "t0", none, none] := by
  decide

/-- Claim C25, counterexample.  The only video source is named as the panorama
topic, and the SystemCalibration has no entry at all, so the source is not
present in it; the function returns true all the same, from the
PanoramaCalibration. -/
theorem C25_panorama_source_not_in_system_calibration :
    Examples.emptyCalib.present "panorama" = false ∧
    Examples.panoOpts.video_sources.map (fun v => v.camera.device.name) = ["panorama"] ∧
    (Connection.populateCalibrationParameters "panorama" Examples.panoOpts
      Examples.emptyCalib Examples.panoCalib).2 = true := by
  decide

/-- Claim C25, amended.  The function returns true exactly when every video
source is found: a source whose device name is the name of the panorama topic
is found when the transformation of the PanoramaCalibration targets that device
name; any other source is found when the SystemCalibration has both an
intrinsic calibration and an extrinsic transformation for its device name. -/
theorem C25_true_iff_every_source_found (panoramaName : String) (opts : ConnectionOptions)
    (calib : SystemCalibration) (panoCalib : PanoramaCalibration) :
    (Connection.populateCalibrationParameters panoramaName opts calib panoCalib).2 = true ↔
      ∀ v ∈ opts.video_sources,
        (panoramaName = v.camera.device.name →
          panoCalib.devicetodevicecoordinatetransformation.targetcoordinateframe.device.name
            = v.camera.device.name) ∧
        (panoramaName ≠ v.camera.device.name →
          (∃ i ∈ calib.cameraintrinsiccalibration,
            i.cameraundercalibration.name = v.camera.device.name) ∧
          (∃ e ∈ calib.devicetodevicecoordinatetransformation,
            e.targetcoordinateframe.device.name = v.camera.device.name)) := by
  unfold Connection.populateCalibrationParameters
  simp only [populateSources_found, Bool.true_and, List.all_eq_true]
  constructor
  · intro h v hv
    have hv2 := h v hv
    rw [populateSource_found] at hv2
    by_cases hp : panoramaName = v.camera.device.name
    · simp [hp] at hv2
      exact ⟨fun _ => hv2, fun hne => absurd hp hne⟩
    · simp [hp, SystemCalibration.present] at hv2
      exact ⟨fun he => absurd he hp, fun _ => hv2⟩
  · intro h v hv
    obtain ⟨h1, h2⟩ := h v hv
    rw [populateSource_found]
    by_cases hp : panoramaName = v.camera.device.name
    · simp [hp]
      exact h1 hp
    · simp [hp, SystemCalibration.present]
      exact h2 hp

end teleop

/-! ## Theorems: Signaler -/

namespace streamer

theorem mapFind_eq_none_iff (m : List (String × Session)) (key : String) :
    mapFind m key = none ↔ key ∉ m.map Prod.fst := by
  induction m with
  | nil => simp [mapFind]
  | cons p rest ih =>
    obtain ⟨k, v⟩ := p
    by_cases h : k = key
    · simp [mapFind, h]
    · have h2 : ¬ key = k := fun e => h e.symm
      simp [mapFind, h, h2, ih]

theorem mapFind_mem (m : List (String × Session)) (key : String) (v : Session)
    (h : mapFind m key = some v) : (key, v) ∈ m := by
  induction m with
  | nil => simp [mapFind] at h
  | cons p rest ih =>
    obtain ⟨k, w⟩ := p
    by_cases hk : k = key
    · simp [mapFind, hk] at h
      simp [hk, h]
    · simp [mapFind, hk] at h
      exact List.mem_cons_of_mem _ (ih h)

theorem keys_mapAssign_of_mem (m : List (String × Session)) (key : String) (v : Session)
    (h : key ∈ m.map Prod.fst) : (mapAssign m key v).map Prod.fst = m.map Prod.fst := by
  induction m with
  | nil => simp at h
  | cons p rest ih =>
    obtain ⟨k, w⟩ := p
    by_cases hk : k = key
    · simp [mapAssign, hk]
    · have h2 : key ∈ rest.map Prod.fst := by
        simp only [List.map_cons, List.mem_cons] at h
        rcases h with h | h
        · exact absurd h.symm hk
        · exact h
      simp [mapAssign, hk, ih h2]

theorem keys_mapAssign_of_not_mem (m : List (String × Session)) (key : String) (v : Session)
    (h : key ∉ m.map Prod.fst) :
    (mapAssign m key v).map Prod.fst = m.map Prod.fst ++ [key] := by
  induction m with
  | nil => simp [mapAssign]
  | cons p rest ih =>
    obtain ⟨k, w⟩ := p
    simp only [List.map_cons, List.mem_cons, not_or] at h
    have hk : ¬ k = key := fun e => h.1 e.symm
    simp [mapAssign, hk, ih h.2]

theorem mem_mapAssign (m : List (String × Session)) (key : String) (v : Session)
    (p : String × Session) (h : p ∈ mapAssign m key v) : p = (key, v) ∨ p ∈ m := by
  induction m with
  | nil => simp [mapAssign] at h; exact Or.inl h
  | cons q rest ih =>
    obtain ⟨k, w⟩ := q
    by_cases hk : k = key
    · simp only [mapAssign, hk, if_true, List.mem_cons] at h
      rcases h with h | h
      · exact Or.inl h
      · exact Or.inr (List.mem_cons_of_mem _ h)
    · simp only [mapAssign, hk, if_false, List.mem_cons] at h
      rcases h with h | h
      · exact Or.inr (by simp [h])
      · rcases ih h with h | h
        · exact Or.inl h
        · exact Or.inr (List.mem_cons_of_mem _ h)

theorem mapFind_mapAssign_self (m : List (String × Session)) (key : String) (v : Session) :
    mapFind (mapAssign m key v) key = some v := by
  induction m with
  | nil => simp [mapAssign, mapFind]
  | cons p rest ih =>
    obtain ⟨k, w⟩ := p
    by_cases hk : k = key
    · simp [mapAssign, mapFind, hk]
    · simp [mapAssign, mapFind, hk, ih]

theorem stunLoop_ok (eng : Engine) (l : List StunServer)
    (h : ∀ s ∈ l, eng.SocketAddressFromString s.address = true) :
    Signaler.stunLoop eng l = some () := by
  induction l with
  | nil => rfl
  | cons item rest ih =>
    have h1 := h item (List.mem_cons_self _ _)
    have h2 := ih (fun s hs => h s (List.mem_cons_of_mem _ hs))
    simp [Signaler.stunLoop, h1, h2]

theorem turnLoop_ok (eng : Engine) (l : List TurnServer)
    (h : ∀ s ∈ l, eng.SocketAddressFromString s.address = true) :
    Signaler.turnLoop eng l =
      some (l.map (fun item => Event.AddTurnServer item.address item.username item.password)) := by
  induction l with
  | nil => rfl
  | cons item rest ih =>
    have h1 := h item (List.mem_cons_self _ _)
    have h2 := ih (fun s hs => h s (List.mem_cons_of_mem _ hs))
    simp [Signaler.turnLoop, h1, h2]

theorem filter_turn_events (p : Event → Bool) (l : List TurnServer)
    (hp : ∀ a u w, p (Event.AddTurnServer a u w) = false) :
    (l.map (fun item => Event.AddTurnServer item.address item.username item.password)).filter p
      = [] := by
  induction l with
  | nil => rfl
  | cons item rest ih => simp [List.filter, hp, ih]

/-- The session that CreateSession registers for a connection id, and what the
call constructs. -/
theorem CreateSession_ok (eng : Engine) (sig : Signaler) (conn_id : String) (source : Stream)
    (hstun : ∀ s ∈ sig.m_opts.stun_servers, eng.SocketAddressFromString s.address = true)
    (hturn : ∀ s ∈ sig.m_opts.turn_servers, eng.SocketAddressFromString s.address = true) :
    ∃ sig1 tr,
      Signaler.CreateSession eng sig conn_id source = some (sig1, tr) ∧
      sig1.m_opts = sig.m_opts ∧
      (∃ session, sig1.m_sessions = mapAssign sig.m_sessions conn_id session ∧
        session.m_connection = some sig.pc_created ∧ session.m_label = conn_id) ∧
      tr.filter Event.isSessionConstruct = [Event.SessionConstruct conn_id] ∧
      tr.filter Event.isCreatePeerConnection =
        [Event.CreatePeerConnection sig.pc_created conn_id] := by
  simp only [Signaler.CreateSession, stunLoop_ok eng _ hstun, turnLoop_ok eng _ hturn,
    Session.Connect, Session.SetConnection, Session.CreateOffer]
  refine ⟨_, _, rfl, rfl, ⟨_, rfl, rfl, rfl⟩, ?_, ?_⟩
  · simp [List.filter_append, filter_turn_events, Event.isSessionConstruct, Session.dropSocket,
      Session.new, List.filter]
  · simp [List.filter_append, filter_turn_events, Event.isCreatePeerConnection,
      Session.dropSocket, Session.new, List.filter]

theorem Connect_trace_filter (p : Event → Bool) (s : Session) (ctx : ZmqContext)
    (source : Stream)
    (h1 : ∀ i, p (Event.SocketCreate i) = false)
    (h2 : ∀ i v, p (Event.SocketSetRcvHwm i v) = false)
    (h3 : ∀ i a, p (Event.SocketConnect i a) = false)
    (h4 : ∀ i t, p (Event.SocketSubscribe i t) = false)
    (h5 : ∀ i, p (Event.SocketDestroy i) = false) :
    (s.Connect ctx source).2.2.filter p = [] := by
  cases hn : s.m_next_frame_socket <;>
    simp [Session.Connect, Session.dropSocket, List.filter, h1, h2, h3, h4, h5, hn]

/-- A video request for a registered id: the session found is reconnected and
written back; nothing else happens. -/
theorem HandleVideoRequest_registered (eng : Engine) (sig : Signaler) (conn_id : String)
    (source : Stream) (session : Session)
    (h : mapFind sig.m_sessions conn_id = some session) :
    Signaler.HandleVideoRequest eng sig conn_id source =
      some ({ sig with m_ctx := (session.Connect sig.m_ctx source).2.1,
                       m_sessions := mapAssign sig.m_sessions conn_id
                                       (session.Connect sig.m_ctx source).1 },
            Event.SessionConnect session.m_label source
              :: (session.Connect sig.m_ctx source).2.2) := by
  simp [Signaler.HandleVideoRequest, h]

/-- One video request: it returns when the server addresses parse, keeps the
registry keys distinct, adds the id to the keys, and constructs a session and
a peer connection exactly when the registry grows. -/
theorem HandleVideoRequest_step (eng : Engine) (sig : Signaler) (conn_id : String)
    (source : Stream)
    (hstun : ∀ s ∈ sig.m_opts.stun_servers, eng.SocketAddressFromString s.address = true)
    (hturn : ∀ s ∈ sig.m_opts.turn_servers, eng.SocketAddressFromString s.address = true)
    (hnd : (sig.m_sessions.map Prod.fst).Nodup) :
    ∃ sig1 tr, Signaler.HandleVideoRequest eng sig conn_id source = some (sig1, tr) ∧
      sig1.m_opts = sig.m_opts ∧
      (sig1.m_sessions.map Prod.fst).Nodup ∧
      (∀ id, id ∈ sig1.m_sessions.map Prod.fst ↔
        id = conn_id ∨ id ∈ sig.m_sessions.map Prod.fst) ∧
      (tr.filter Event.isSessionConstruct).length + (sig.m_sessions.map Prod.fst).length =
        (sig1.m_sessions.map Prod.fst).length ∧
      (tr.filter Event.isCreatePeerConnection).length + (sig.m_sessions.map Prod.fst).length =
        (sig1.m_sessions.map Prod.fst).length ∧
      (sig.Attached → sig1.Attached) := by
  cases hf : mapFind sig.m_sessions conn_id with
  | some session =>
    have hmem : conn_id ∈ sig.m_sessions.map Prod.fst := by
      by_contra hc
      rw [← mapFind_eq_none_iff] at hc
      rw [hc] at hf
      exact Option.noConfusion hf
    have hkeys := keys_mapAssign_of_mem sig.m_sessions conn_id
      (session.Connect sig.m_ctx source).1 hmem
    refine ⟨_, _, HandleVideoRequest_registered eng sig conn_id source session hf, rfl, ?_, ?_,
      ?_, ?_, ?_⟩
    · simpa [hkeys] using hnd
    · intro id
      simp only [hkeys]
      constructor
      · exact Or.inr
      · rintro (h | h)
        · exact h ▸ hmem
        · exact h
    · simp only [hkeys, List.filter_cons, Event.isSessionConstruct]
      rw [Connect_trace_filter] <;> simp [Event.isSessionConstruct]
    · simp only [hkeys, List.filter_cons, Event.isCreatePeerConnection]
      rw [Connect_trace_filter] <;> simp [Event.isCreatePeerConnection]
    · intro hatt p hp
      rcases mem_mapAssign _ _ _ _ hp with h | h
      · have := hatt _ (mapFind_mem _ _ _ hf)
        rw [h]
        simpa [Session.Connect] using this
      · exact hatt p h
  | none =>
    have hnot : conn_id ∉ sig.m_sessions.map Prod.fst := (mapFind_eq_none_iff _ _).mp hf
    obtain ⟨sig1, tr, hcs, hopts, ⟨session, hsess, hconn, _⟩, hc1, hc2⟩ :=
      CreateSession_ok eng sig conn_id source hstun hturn
    have hkeys := keys_mapAssign_of_not_mem sig.m_sessions conn_id session hnot
    refine ⟨sig1, tr, ?_, hopts, ?_, ?_, ?_, ?_, ?_⟩
    · simp [Signaler.HandleVideoRequest, hf, hcs]
    · rw [hsess, hkeys]
      exact List.Nodup.append hnd (List.nodup_singleton _) (by simpa using hnot)
    · intro id
      rw [hsess, hkeys]
      simp only [List.mem_append, List.mem_singleton]
      exact Or.comm
    · rw [hsess, hkeys, hc1]
      simp
      omega
    · rw [hsess, hkeys, hc2]
      simp
      omega
    · intro hatt p hp
      rw [hsess] at hp
      rcases mem_mapAssign _ _ _ _ hp with h | h
      · rw [h]
        simp [hconn]
      · exact hatt p h

/-- A run of video requests: see HandleVideoRequest_step. -/
theorem videoRequests_spec (eng : Engine) (calls : List (String × Stream)) :
    ∀ (sig : Signaler),
      (∀ s ∈ sig.m_opts.stun_servers, eng.SocketAddressFromString s.address = true) →
      (∀ s ∈ sig.m_opts.turn_servers, eng.SocketAddressFromString s.address = true) →
      (sig.m_sessions.map Prod.fst).Nodup →
      ∃ sig1 tr, Signaler.videoRequests eng sig calls = some (sig1, tr) ∧
        sig1.m_opts = sig.m_opts ∧
        (sig1.m_sessions.map Prod.fst).Nodup ∧
        (∀ id, id ∈ sig1.m_sessions.map Prod.fst ↔
          id ∈ sig.m_sessions.map Prod.fst ∨ id ∈ calls.map Prod.fst) ∧
        (tr.filter Event.isSessionConstruct).length + (sig.m_sessions.map Prod.fst).length =
          (sig1.m_sessions.map Prod.fst).length ∧
        (tr.filter Event.isCreatePeerConnection).length + (sig.m_sessions.map Prod.fst).length =
          (sig1.m_sessions.map Prod.fst).length ∧
        (sig.Attached → sig1.Attached) := by
  induction calls with
  | nil =>
    intro sig _ _ hnd
    exact ⟨sig, [], rfl, rfl, hnd, by simp, by simp, by simp, id⟩
  | cons call rest ih =>
    intro sig hstun hturn hnd
    obtain ⟨conn_id, source⟩ := call
    obtain ⟨sig1, tr1, h1, ho1, hn1, hk1, hc1, hp1, ha1⟩ :=
      HandleVideoRequest_step eng sig conn_id source hstun hturn hnd
    obtain ⟨sig2, tr2, h2, ho2, hn2, hk2, hc2, hp2, ha2⟩ :=
      ih sig1 (by rw [ho1]; exact hstun) (by rw [ho1]; exact hturn) hn1
    refine ⟨sig2, tr1 ++ tr2, ?_, ho2.trans ho1, hn2, ?_, ?_, ?_, fun h => ha2 (ha1 h)⟩
    · simp [Signaler.videoRequests, h1, h2]
    · intro id
      rw [hk2, hk1]
      simp only [List.map_cons, List.mem_cons]
      tauto
    · rw [List.filter_append, List.length_append]
      omega
    · rw [List.filter_append, List.length_append]
      omega

theorem new_fields (opts : SignalerOptions) (sig : Signaler)
    (h : Signaler.new opts = some sig) :
    sig.m_opts = opts ∧ sig.m_sessions = [] := by
  unfold Signaler.new at h
  split at h
  · exact Option.noConfusion h
  · split at h
    · exact Option.noConfusion h
    · injection h with h
      rw [← h]
      exact ⟨rfl, rfl⟩

/-- Every state the Signaler reaches from construction by video requests has a
peer connection attached to each registered session (SDP requests and ICE
candidates leave the state as it is). -/
theorem Attached_of_videoRequests (eng : Engine) (opts : SignalerOptions)
    (sig0 sig : Signaler) (calls : List (String × Stream)) (tr : List Event)
    (hnew : Signaler.new opts = some sig0)
    (hrun : Signaler.videoRequests eng sig0 calls = some (sig, tr)) : sig.Attached := by
  obtain ⟨-, hempty⟩ := new_fields opts sig0 hnew
  have h0 : sig0.Attached := by
    intro p hp
    rw [hempty] at hp
    exact absurd hp (List.not_mem_nil _)
  clear hnew hempty
  revert h0
  induction calls generalizing sig0 tr with
  | nil =>
    simp only [Signaler.videoRequests, Option.some.injEq, Prod.mk.injEq] at hrun
    intro h0
    rw [← hrun.1]
    exact h0
  | cons call rest ih =>
    intro h0
    obtain ⟨conn_id, source⟩ := call
    simp only [Signaler.videoRequests] at hrun
    cases h1 : Signaler.HandleVideoRequest eng sig0 conn_id source with
    | none => simp [h1] at hrun
    | some r1 =>
      obtain ⟨sig1, ev1⟩ := r1
      simp only [h1] at hrun
      cases h2 : Signaler.videoRequests eng sig1 rest with
      | none => simp [h2] at hrun
      | some r2 =>
        obtain ⟨sig2, ev2⟩ := r2
        simp only [h2, Option.some.injEq, Prod.mk.injEq] at hrun
        rw [hrun.1] at h2
        apply ih sig1 ev2 h2
        intro p hp
        unfold Signaler.HandleVideoRequest at h1
        cases hf : mapFind sig0.m_sessions conn_id with
        | some session =>
          simp only [hf, Option.some.injEq, Prod.mk.injEq] at h1
          rw [← h1.1] at hp
          rcases mem_mapAssign _ _ _ _ hp with h | h
          · have := h0 _ (mapFind_mem _ _ _ hf)
            rw [h]
            simpa [Session.Connect] using this
          · exact h0 p h
        | none =>
          simp only [hf] at h1
          unfold Signaler.CreateSession at h1
          simp only [Session.Connect, Session.SetConnection, Session.CreateOffer] at h1
          cases hs : Signaler.stunLoop eng sig0.m_opts.stun_servers with
          | none => simp [hs] at h1
          | some u =>
            cases ht : Signaler.turnLoop eng sig0.m_opts.turn_servers with
            | none => simp [hs, ht] at h1
            | some evt =>
              simp only [hs, ht, Option.some.injEq, Prod.mk.injEq] at h1
              rw [← h1.1] at hp
              rcases mem_mapAssign _ _ _ _ hp with h | h
              · rw [h]
                rfl
              · exact h0 p h

/-- Claim C5.  From a fresh Signaler whose server addresses parse, every run of
HandleVideoRequest calls returns, and afterwards the registry has one entry per
distinct connection id requested: its keys are distinct, they are exactly the
ids requested, and as many sessions (and peer connections) were constructed as
there are distinct ids.  A call for an id that is already registered constructs
no session, creates no peer connection and requests no offer: the only member
function of Session it calls is Connect, once, with the given stream, on the
session registered under the id, which stays registered under it. -/
theorem C5_one_session_per_connection_id (eng : Engine) (opts : SignalerOptions)
    (sig0 : Signaler) (calls : List (String × Stream))
    (hnew : Signaler.new opts = some sig0)
    (hstun : ∀ s ∈ opts.stun_servers, eng.SocketAddressFromString s.address = true)
    (hturn : ∀ s ∈ opts.turn_servers, eng.SocketAddressFromString s.address = true) :
    (∃ sig tr, Signaler.videoRequests eng sig0 calls = some (sig, tr) ∧
      (sig.m_sessions.map Prod.fst).Nodup ∧
      (∀ id, id ∈ sig.m_sessions.map Prod.fst ↔ id ∈ calls.map Prod.fst) ∧
      sig.m_sessions.length = (calls.map Prod.fst).dedup.length ∧
      (tr.filter Event.isSessionConstruct).length = (calls.map Prod.fst).dedup.length ∧
      (tr.filter Event.isCreatePeerConnection).length = (calls.map Prod.fst).dedup.length) ∧
    (∀ (sig : Signaler) (conn_id : String) (source : Stream) (session : Session),
      mapFind sig.m_sessions conn_id = some session →
      ∃ sig1 tr, Signaler.HandleVideoRequest eng sig conn_id source = some (sig1, tr) ∧
        sig1.m_sessions =
          mapAssign sig.m_sessions conn_id (session.Connect sig.m_ctx source).1 ∧
        sig1.m_sessions.map Prod.fst = sig.m_sessions.map Prod.fst ∧
        mapFind sig1.m_sessions conn_id = some (session.Connect sig.m_ctx source).1 ∧
        tr.filter Event.isSessionCall = [Event.SessionConnect session.m_label source] ∧
        tr.filter Event.isSessionConstruct = [] ∧
        tr.filter Event.isCreatePeerConnection = [] ∧
        tr.filter Event.isCreateOffer = []) := by
  obtain ⟨hopts, hempty⟩ := new_fields opts sig0 hnew
  constructor
  · obtain ⟨sig, tr, hrun, _, hnd, hkeys, hc, hp, _⟩ :=
      videoRequests_spec eng calls sig0 (by rw [hopts]; exact hstun)
        (by rw [hopts]; exact hturn) (by simp [hempty])
    have hlen : (sig.m_sessions.map Prod.fst).length = (calls.map Prod.fst).dedup.length := by
      apply List.Perm.length_eq
      rw [List.perm_ext_iff_of_nodup hnd (List.nodup_dedup _)]
      intro id
      rw [hkeys, List.mem_dedup]
      simp [hempty]
    refine ⟨sig, tr, hrun, hnd, ?_, ?_, ?_, ?_⟩
    · intro id
      rw [hkeys]
      simp [hempty]
    · simpa using hlen
    · rw [← hlen, ← hc]
      simp [hempty]
    · rw [← hlen, ← hp]
      simp [hempty]
  · intro sig conn_id source session hf
    have hmem : conn_id ∈ sig.m_sessions.map Prod.fst := by
      by_contra hc
      rw [← mapFind_eq_none_iff] at hc
      rw [hc] at hf
      exact Option.noConfusion hf
    refine ⟨_, _, HandleVideoRequest_registered eng sig conn_id source session hf, rfl,
      keys_mapAssign_of_mem _ _ _ hmem, mapFind_mapAssign_self _ _ _, ?_, ?_, ?_, ?_⟩
    · simp only [List.filter_cons, Event.isSessionCall]
      rw [Connect_trace_filter] <;> simp [Event.isSessionCall]
    · simp only [List.filter_cons, Event.isSessionConstruct]
      rw [Connect_trace_filter] <;> simp [Event.isSessionConstruct]
    · simp only [List.filter_cons, Event.isCreatePeerConnection]
      rw [Connect_trace_filter] <;> simp [Event.isCreatePeerConnection]
    · simp only [List.filter_cons, Event.isCreateOffer]
      rw [Connect_trace_filter] <;> simp [Event.isCreateOffer]

/-- Witness of C5: two requests for connection abc and one for xyz leave two
sessions, and two sessions were constructed. -/
theorem C5_one_session_per_connection_id_witness :
    Signaler.new teleop.Examples.webrtcOpts = some Examples.signaler0 ∧
    ∃ sig tr, Signaler.videoRequests Examples.engine Examples.signaler0 Examples.calls
        = some (sig, tr) ∧
      sig.m_sessions.length = 2 ∧
      (tr.filter Event.isSessionConstruct).length = 2 := by
  obtain ⟨⟨sig, tr, hrun, _, _, hlen, hc, _⟩, _⟩ :=
    C5_one_session_per_connection_id Examples.engine teleop.Examples.webrtcOpts
      Examples.signaler0 Examples.calls (by decide) (fun _ _ => rfl) (fun _ _ => rfl)
  have hd : (Examples.calls.map Prod.fst).dedup.length = 2 := by decide
  exact ⟨by decide, sig, tr, hrun, hlen.trans hd, hc.trans hd⟩

theorem SetRemoteDescription_attached (s : Session) (parses : String → String → Bool)
    (type sdp : String) (h : s.m_connection.isSome = true) :
    ∃ ev, s.SetRemoteDescription parses type sdp = some ev ∧
      ev.filter Event.isSessionCall = [] := by
  cases hc : s.m_connection with
  | none => simp [hc] at h
  | some pc =>
    cases hp : parses type sdp with
    | false => exact ⟨[], by simp [Session.SetRemoteDescription, hp], rfl⟩
    | true =>
      refine ⟨[Event.PcSetRemoteDescription pc type sdp]
          ++ (if type = "offer" then [Event.PcCreateAnswer pc] else []), ?_, ?_⟩
      · simp [Session.SetRemoteDescription, hp, hc]
      · by_cases ht : type = "offer" <;> simp [List.filter, Event.isSessionCall, ht]

theorem AddIceCandidate_attached (s : Session) (parses : String → Int → String → Bool)
    (mid : String) (mlineindex : Int) (sdp : String) (h : s.m_connection.isSome = true) :
    ∃ ev, s.AddIceCandidate parses mid mlineindex sdp = some ev ∧
      ev.filter Event.isSessionCall = [] := by
  cases hc : s.m_connection with
  | none => simp [hc] at h
  | some pc =>
    cases hp : parses mid mlineindex sdp with
    | false => exact ⟨[], by simp [Session.AddIceCandidate, hp], rfl⟩
    | true =>
      refine ⟨[Event.PcAddIceCandidate pc mid mlineindex sdp], ?_, ?_⟩
      · simp [Session.AddIceCandidate, hp, hc]
      · simp [List.filter, Event.isSessionCall]

/-- Claim C6.  On a Signaler whose registered sessions have their peer
connection attached, HandleSDPRequest returns and leaves the Signaler, the
registry included, as it was.  It calls Session::SetRemoteDescription if and
only if the connection id is registered and the sdp is non-empty; then that
call is the only call it makes on a Session: once, on the session registered
under the id, with type answer and the sdp of the message. -/
theorem C6_sdp_request_routing (eng : Engine) (sig : Signaler) (msg : teleop.SDPRequest)
    (hatt : sig.Attached) :
    ∃ tr, Signaler.HandleSDPRequest eng sig msg = some (sig, tr) ∧
      ((∃ e ∈ tr, e.isSessionSetRemoteDescription = true) ↔
        ((mapFind sig.m_sessions msg.connection_id).isSome = true ∧ msg.sdp ≠ "")) ∧
      (∀ session, mapFind sig.m_sessions msg.connection_id = some session → msg.sdp ≠ "" →
        tr.filter Event.isSessionCall =
          [Event.SessionSetRemoteDescription session.m_label "answer" msg.sdp]) := by
  cases hf : mapFind sig.m_sessions msg.connection_id with
  | none =>
    refine ⟨[], by simp [Signaler.HandleSDPRequest, hf], ?_, ?_⟩
    · simp
    · intro session h
      exact Option.noConfusion h
  | some session =>
    by_cases hs : msg.sdp = ""
    · refine ⟨[], by simp [Signaler.HandleSDPRequest, hf, hs], ?_, ?_⟩
      · simp [hs]
      · intro _ _ h
        exact absurd hs h
    · have hconn := hatt _ (mapFind_mem _ _ _ hf)
      obtain ⟨ev, hev, hfil⟩ :=
        SetRemoteDescription_attached session eng.CreateSessionDescription "answer" msg.sdp hconn
      refine ⟨Event.SessionSetRemoteDescription session.m_label "answer" msg.sdp :: ev,
        by simp [Signaler.HandleSDPRequest, hf, hs, hev], ?_, ?_⟩
      · constructor
        · intro _
          exact ⟨rfl, hs⟩
        · intro _
          exact ⟨_, List.mem_cons_self _ _, rfl⟩
      · intro session1 h1 _
        injection h1 with h1
        subst h1
        simp [List.filter_cons, Event.isSessionCall, hfil]

/-- Witness of C6: the answer for the registered connection abc reaches its
session once. -/
theorem C6_sdp_request_routing_witness :
    Examples.signaler1.Attached ∧
    ∃ tr, Signaler.HandleSDPRequest Examples.engine Examples.signaler1 Examples.answer
        = some (Examples.signaler1, tr) ∧
      tr.filter Event.isSessionCall = [Event.SessionSetRemoteDescription "abc" "answer" "v=0"] := by
  have hatt : Examples.signaler1.Attached := by
    intro p hp
    have hp2 : p ∈ Examples.signaler1.m_sessions := hp
    have hs : Examples.signaler1.m_sessions.all (fun q => q.2.m_connection.isSome) = true := by
      decide
    exact (List.all_eq_true.mp hs) p hp2
  obtain ⟨tr, hrun, _, hcall⟩ :=
    C6_sdp_request_routing Examples.engine Examples.signaler1 Examples.answer hatt
  have hfind : (mapFind Examples.signaler1.m_sessions Examples.answer.connection_id).map
      (fun s => s.m_label) = some "abc" := by decide
  obtain ⟨session, hsess, hlabel⟩ :
      ∃ session, mapFind Examples.signaler1.m_sessions Examples.answer.connection_id
        = some session ∧ session.m_label = "abc" := by
    cases hm : mapFind Examples.signaler1.m_sessions Examples.answer.connection_id with
    | none => simp [hm] at hfind
    | some session => exact ⟨session, rfl, by simpa [hm] using hfind⟩
  have h := hcall session hsess (by decide)
  rw [hlabel] at h
  exact ⟨hatt, tr, hrun, h⟩

/-- Claim C7.  On a Signaler whose registered sessions have their peer
connection attached, HandleICECandidate returns and leaves the Signaler, the
registry included, as it was.  It calls Session::AddIceCandidate if and only if
the connection id is registered, the m-line index is not -1, the mid is
non-empty and the candidate string is non-empty; then that call is the only
call it makes on a Session: once, on the session registered under the id, with
the mid, m-line index and candidate string of the message. -/
theorem C7_ice_candidate_routing (eng : Engine) (sig : Signaler) (msg : teleop.ICECandidate)
    (hatt : sig.Attached) :
    ∃ tr, Signaler.HandleICECandidate eng sig msg = some (sig, tr) ∧
      ((∃ e ∈ tr, e.isSessionAddIceCandidate = true) ↔
        ((mapFind sig.m_sessions msg.connection_id).isSome = true ∧
          msg.sdp_mline_index ≠ -1 ∧ msg.sdp_mid ≠ "" ∧ msg.candidate ≠ "")) ∧
      (∀ session, mapFind sig.m_sessions msg.connection_id = some session →
        msg.sdp_mline_index ≠ -1 → msg.sdp_mid ≠ "" → msg.candidate ≠ "" →
        tr.filter Event.isSessionCall =
          [Event.SessionAddIceCandidate session.m_label msg.sdp_mid msg.sdp_mline_index
            msg.candidate]) := by
  cases hf : mapFind sig.m_sessions msg.connection_id with
  | none =>
    refine ⟨[], by simp [Signaler.HandleICECandidate, hf], ?_, ?_⟩
    · simp
    · intro session h
      exact Option.noConfusion h
  | some session =>
    by_cases h1 : msg.sdp_mline_index = -1
    · refine ⟨[], by simp [Signaler.HandleICECandidate, hf, h1], ?_, ?_⟩
      · simp [h1]
      · intro _ _ h
        exact absurd h1 h
    · by_cases h2 : msg.sdp_mid = ""
      · refine ⟨[], by simp [Signaler.HandleICECandidate, hf, h1, h2], ?_, ?_⟩
        · simp [h2]
        · intro _ _ _ h
          exact absurd h2 h
      · by_cases h3 : msg.candidate = ""
        · refine ⟨[], by simp [Signaler.HandleICECandidate, hf, h1, h2, h3], ?_, ?_⟩
          · simp [h3]
          · intro _ _ _ _ h
            exact absurd h3 h
        · have hconn := hatt _ (mapFind_mem _ _ _ hf)
          obtain ⟨ev, hev, hfil⟩ :=
            AddIceCandidate_attached session eng.CreateIceCandidate msg.sdp_mid
              msg.sdp_mline_index msg.candidate hconn
          refine ⟨Event.SessionAddIceCandidate session.m_label msg.sdp_mid
              msg.sdp_mline_index msg.candidate :: ev,
            by simp [Signaler.HandleICECandidate, hf, h1, h2, h3, hev], ?_, ?_⟩
          · constructor
            · intro _
              exact ⟨rfl, h1, h2, h3⟩
            · intro _
              exact ⟨_, List.mem_cons_self _ _, rfl⟩
          · intro session1 hs1 _ _ _
            injection hs1 with hs1
            subst hs1
            simp [List.filter_cons, Event.isSessionCall, hfil]

/-- Witness of C7: a candidate for the registered connection abc reaches its
session once. -/
theorem C7_ice_candidate_routing_witness :
    Examples.signaler1.Attached ∧
    ∃ tr, Signaler.HandleICECandidate Examples.engine Examples.signaler1 Examples.candidate
        = some (Examples.signaler1, tr) ∧
      tr.filter Event.isSessionCall =
        [Event.SessionAddIceCandidate "abc" "video" 0
          "candidate:1 1 UDP 1 10.0.0.1 52000 typ host"] := by
  have hatt : Examples.signaler1.Attached := by
    intro p hp
    have hp2 : p ∈ Examples.signaler1.m_sessions := hp
    have hs : Examples.signaler1.m_sessions.all (fun q => q.2.m_connection.isSome) = true := by
      decide
    exact (List.all_eq_true.mp hs) p hp2
  obtain ⟨tr, hrun, _, hcall⟩ :=
    C7_ice_candidate_routing Examples.engine Examples.signaler1 Examples.candidate hatt
  have hfind : (mapFind Examples.signaler1.m_sessions Examples.candidate.connection_id).map
      (fun s => s.m_label) = some "abc" := by decide
  obtain ⟨session, hsess, hlabel⟩ :
      ∃ session, mapFind Examples.signaler1.m_sessions Examples.candidate.connection_id
        = some session ∧ session.m_label = "abc" := by
    cases hm : mapFind Examples.signaler1.m_sessions Examples.candidate.connection_id with
    | none => simp [hm] at hfind
    | some session => exact ⟨session, rfl, by simpa [hm] using hfind⟩
  have h := hcall session hsess (by decide) (by decide) (by decide)
  rw [hlabel] at h
  exact ⟨hatt, tr, hrun, h⟩

/-- The session CreateSession registers under the connection id holds the new
peer connection and the two emitting lambdas of the Signaler for that id. -/
theorem CreateSession_registers (eng : Engine) (sig0 sig1 : Signaler) (conn_id : String)
    (source : Stream) (tr0 : List Event)
    (h : Signaler.CreateSession eng sig0 conn_id source = some (sig1, tr0)) :
    ∃ s, mapFind sig1.m_sessions conn_id = some s ∧
      s.m_connection = some sig0.pc_created ∧
      s.m_sdp_created_handler = some (Callback.SDPCreatedLambda conn_id) ∧
      s.m_ice_candidate_handler = some (Callback.IceCandidateLambda conn_id) := by
  unfold Signaler.CreateSession at h
  simp only [Session.Connect, Session.SetConnection, Session.CreateOffer] at h
  cases hs : Signaler.stunLoop eng sig0.m_opts.stun_servers with
  | none => simp [hs] at h
  | some u =>
    cases ht : Signaler.turnLoop eng sig0.m_opts.turn_servers with
    | none => simp [hs, ht] at h
    | some evt =>
      simp only [hs, ht, Option.some.injEq, Prod.mk.injEq] at h
      rw [← h.1]
      exact ⟨_, mapFind_mapAssign_self _ _ _, rfl, rfl, rfl⟩

theorem emitted_EmitMessage (sig : Signaler) (msg : teleop.VehicleMessage) :
    emitted (sig.EmitMessage msg).2 = [msg] := by
  unfold Signaler.EmitMessage
  cases sig.m_emit_handler <;> rfl

theorem delivered_EmitMessage (sig : Signaler) (msg : teleop.VehicleMessage) :
    delivered (sig.EmitMessage msg).2 = if sig.m_emit_handler = none then [] else [msg] := by
  unfold Signaler.EmitMessage
  cases sig.m_emit_handler <;> rfl

/-- Claim C15.  Let a session be the one CreateSession registered for connection
id c, and let the Signaler be in any later state.  When the session reports a
local description that serializes to sdp, exactly one message is passed to
EmitMessage: a VehicleMessage whose sdprequest has connection id c, status
Offered and that sdp.  When it reports an ICE candidate that serializes,
exactly one message is passed to EmitMessage: a VehicleMessage whose
icecandidate has connection id c and the mid, m-line index and serialized
string of the candidate.  When serialization fails nothing is passed to
EmitMessage.  The messages reach the emit handler when one is set. -/
theorem C15_negotiation_events_emitted (eng : Engine) (sig0 sig1 : Signaler) (c : String)
    (source : Stream) (tr0 : List Event)
    (hcreate : Signaler.CreateSession eng sig0 c source = some (sig1, tr0)) :
    ∃ s, mapFind sig1.m_sessions c = some s ∧
      ∀ (sig : Signaler) (desc : SessionDescription) (cand : IceCandidate),
        (∃ tr, Session.Observer.OnSuccess s sig.runCallback desc = some tr ∧
          emitted tr =
            (match desc.ToString with
             | some sdp =>
               [{ teleop.VehicleMessage.empty with
                  sdprequest := some { connection_id := c, sdp := sdp,
                                       status := teleop.SDPStatus.Offered } }]
             | none => []) ∧
          (sig.m_emit_handler ≠ none → delivered tr = emitted tr)) ∧
        (∃ tr, Session.Observer.OnIceCandidate s sig.runCallback cand = some tr ∧
          emitted tr =
            (match cand.ToString with
             | some str =>
               [{ teleop.VehicleMessage.empty with
                  icecandidate := some { connection_id := c, sdp_mid := cand.sdp_mid,
                                         sdp_mline_index := cand.sdp_mline_index,
                                         candidate := str } }]
             | none => []) ∧
          (sig.m_emit_handler ≠ none → delivered tr = emitted tr)) := by
  obtain ⟨s, hfind, hconn, hsdp, hice⟩ := CreateSession_registers eng sig0 sig1 c source tr0 hcreate
  refine ⟨s, hfind, ?_⟩
  intro sig desc cand
  constructor
  · refine ⟨Event.PcSetLocalDescription sig0.pc_created (desc.ToString.getD "") ::
        Session.invoke sig.runCallback s.m_sdp_created_handler (HandlerArg.description desc),
      by simp only [Session.Observer.OnSuccess, hconn], ?_, ?_⟩
    · cases hd : desc.ToString with
      | none =>
        simp [Session.invoke, hsdp, Signaler.runCallback, Signaler.sdpCreatedLambda, hd, emitted]
      | some sdp =>
        simp [Session.invoke, hsdp, Signaler.runCallback, Signaler.sdpCreatedLambda, hd, emitted,
          Signaler.EmitSDPOffer, emitted_EmitMessage]
    · intro he
      cases hd : desc.ToString with
      | none =>
        simp [Session.invoke, hsdp, Signaler.runCallback, Signaler.sdpCreatedLambda, hd, emitted,
          delivered]
      | some sdp =>
        simp [Session.invoke, hsdp, Signaler.runCallback, Signaler.sdpCreatedLambda, hd, emitted,
          delivered, Signaler.EmitSDPOffer, emitted_EmitMessage, delivered_EmitMessage, he]
  · refine ⟨Session.invoke sig.runCallback s.m_ice_candidate_handler
        (HandlerArg.candidate cand), rfl, ?_, ?_⟩
    · cases hd : cand.ToString with
      | none =>
        simp [Session.invoke, hice, Signaler.runCallback, Signaler.iceCandidateLambda, hd, emitted]
      | some str =>
        simp [Session.invoke, hice, Signaler.runCallback, Signaler.iceCandidateLambda, hd, emitted,
          Signaler.EmitICECandidate, emitted_EmitMessage]
    · intro he
      cases hd : cand.ToString with
      | none =>
        simp [Session.invoke, hice, Signaler.runCallback, Signaler.iceCandidateLambda, hd, emitted,
          delivered]
      | some str =>
        simp [Session.invoke, hice, Signaler.runCallback, Signaler.iceCandidateLambda, hd, emitted,
          delivered, Signaler.EmitICECandidate, emitted_EmitMessage, delivered_EmitMessage, he]

/-- Witness of C15: the session created for connection abc reports a local
description that serializes; one offer message for abc is emitted. -/
theorem C15_negotiation_events_emitted_witness :
    ∃ sig1 tr0 s tr,
      Signaler.CreateSession Examples.engine Examples.signaler0 "abc" Examples.stream1
        = some (sig1, tr0) ∧
      mapFind sig1.m_sessions "abc" = some s ∧
      Session.Observer.OnSuccess s
        (Examples.signaler0.OnEmit (Callback.Foreign 1)).runCallback Examples.offerDesc
        = some tr ∧
      emitted tr = [Examples.offerMessage] ∧
      delivered tr = [Examples.offerMessage] := by
  cases h : Signaler.CreateSession Examples.engine Examples.signaler0 "abc" Examples.stream1 with
  | none => exact absurd h (by decide)
  | some r =>
    obtain ⟨sig1, tr0⟩ := r
    obtain ⟨s, hfind, hall⟩ :=
      C15_negotiation_events_emitted Examples.engine Examples.signaler0 sig1 "abc"
        Examples.stream1 tr0 h
    obtain ⟨⟨tr, htr, hem, hdel⟩, _⟩ :=
      hall (Examples.signaler0.OnEmit (Callback.Foreign 1)) Examples.offerDesc
        Examples.localCandidate
    exact ⟨sig1, tr0, s, tr, rfl, hfind, htr, hem, (hdel (by decide)).trans hem⟩

theorem invoke_none (run : Session.Callables) (arg : HandlerArg) :
    Session.invoke run none arg = [] := rfl

/-- Claim C16.  When the media engine delivers an event of any of the ten kinds
to a session whose handler slot for that kind is empty, the delivery returns
and no handler is called (for a created description, on a session that holds
the peer connection the description comes from).  When the Signaler has no
emit handler, EmitMessage hands the message to no one and leaves the Signaler
as it was, so that setting an emit handler afterwards gives the same Signaler
as if nothing had been emitted, delivers nothing by itself, and a later
EmitMessage delivers the later message only. -/
theorem C16_absent_handlers_are_no_ops (s : Session) (run : Session.Callables)
    (n : Session.Notification) (sig : Signaler) (msg later : teleop.VehicleMessage)
    (handler : Callback)
    (hslot : s.handlerFor n = none)
    (hconn : ∀ desc, n = Session.Notification.SDPCreated desc → s.m_connection.isSome = true)
    (hemit : sig.m_emit_handler = none) :
    (∃ tr, s.deliver run n = some tr ∧ tr.filter Event.isInvoke = []) ∧
    (sig.EmitMessage msg).1 = sig ∧
    (sig.EmitMessage msg).2 = [Event.EmitDropped msg] ∧
    delivered (sig.EmitMessage msg).2 = [] ∧
    (sig.EmitMessage msg).1.OnEmit handler = sig.OnEmit handler ∧
    delivered (((sig.EmitMessage msg).1.OnEmit handler).EmitMessage later).2 = [later] := by
  refine ⟨?_, ?_, ?_, ?_, ?_, ?_⟩
  · cases n with
    | SDPCreated desc =>
      have hc := hconn desc rfl
      cases hpc : s.m_connection with
      | none => simp [hpc] at hc
      | some pc =>
        simp only [Session.handlerFor] at hslot
        exact ⟨[Event.PcSetLocalDescription pc (desc.ToString.getD "")], by
          simp [Session.deliver, Session.Observer.OnSuccess, hpc, hslot, invoke_none], by
          simp [List.filter, Event.isInvoke]⟩
    | StreamAdded stream =>
      simp only [Session.handlerFor] at hslot
      exact ⟨[], by simp [Session.deliver, Session.Observer.OnAddStream, hslot, invoke_none], rfl⟩
    | StreamRemoved stream =>
      simp only [Session.handlerFor] at hslot
      exact ⟨[], by simp [Session.deliver, Session.Observer.OnRemoveStream, hslot, invoke_none],
        rfl⟩
    | DataChannel channel =>
      simp only [Session.handlerFor] at hslot
      exact ⟨[], by simp [Session.deliver, Session.Observer.OnDataChannel, hslot, invoke_none],
        rfl⟩
    | IceCandidate candidate =>
      simp only [Session.handlerFor] at hslot
      exact ⟨[], by simp [Session.deliver, Session.Observer.OnIceCandidate, hslot, invoke_none],
        rfl⟩
    | SignalingChange new_state =>
      simp only [Session.handlerFor] at hslot
      exact ⟨[], by
        simp [Session.deliver, Session.Observer.OnSignalingChange, hslot, invoke_none], rfl⟩
    | IceConnectionChange new_state =>
      simp only [Session.handlerFor] at hslot
      exact ⟨[], by
        simp [Session.deliver, Session.Observer.OnIceConnectionChange, hslot, invoke_none], rfl⟩
    | IceGatheringChange new_state =>
      simp only [Session.handlerFor] at hslot
      exact ⟨[], by
        simp [Session.deliver, Session.Observer.OnIceGatheringChange, hslot, invoke_none], rfl⟩
    | RenegotiationNeeded =>
      simp only [Session.handlerFor] at hslot
      exact ⟨[], by
        simp [Session.deliver, Session.Observer.OnRenegotiationNeeded, hslot, invoke_none], rfl⟩
    | SDPFailure error =>
      simp only [Session.handlerFor] at hslot
      exact ⟨[], by simp [Session.deliver, Session.Observer.OnFailure, hslot, invoke_none], rfl⟩
  · simp [Signaler.EmitMessage, hemit]
  · simp [Signaler.EmitMessage, hemit]
  · simp [Signaler.EmitMessage, hemit, delivered]
  · simp [Signaler.EmitMessage, hemit]
  · simp [Signaler.EmitMessage, hemit, Signaler.OnEmit, delivered]

/-- Witness of C16: a created description is delivered to a session without
handlers, and an offer is emitted on a signaler without emit handler. -/
theorem C16_absent_handlers_are_no_ops_witness :
    Examples.bare.handlerFor (Session.Notification.SDPCreated Examples.offerDesc) = none ∧
    Examples.mute.m_emit_handler = none ∧
    Examples.bare.deliver Examples.silent (Session.Notification.SDPCreated Examples.offerDesc)
      = some [Event.PcSetLocalDescription 0 "v=0 offer"] ∧
    (Examples.mute.EmitMessage Examples.offerMessage).2
      = [Event.EmitDropped Examples.offerMessage] ∧
    delivered (((Examples.mute.EmitMessage Examples.offerMessage).1.OnEmit
      (Callback.Foreign 1)).EmitMessage teleop.VehicleMessage.empty).2
      = [teleop.VehicleMessage.empty] := by
  obtain ⟨_, _, hdrop, _, _, hlater⟩ :=
    C16_absent_handlers_are_no_ops Examples.bare Examples.silent
      (Session.Notification.SDPCreated Examples.offerDesc) Examples.mute Examples.offerMessage
      teleop.VehicleMessage.empty (Callback.Foreign 1) (by decide) (fun _ _ => by decide)
      (by decide)
  exact ⟨by decide, by decide, by decide, hdrop, hlater⟩

/-- The trace of CreateSession when the server addresses parse, and the session
it registers. -/
theorem CreateSession_trace (eng : Engine) (sig : Signaler) (conn_id : String) (source : Stream)
    (hstun : ∀ s ∈ sig.m_opts.stun_servers, eng.SocketAddressFromString s.address = true)
    (hturn : ∀ s ∈ sig.m_opts.turn_servers, eng.SocketAddressFromString s.address = true) :
    ∃ sig1 session,
      Signaler.CreateSession eng sig conn_id source = some (sig1,
        [Event.SessionConstruct conn_id, Event.SessionConnect conn_id source] ++
        ((Session.new conn_id).Connect sig.m_ctx source).2.2 ++
        [Event.SessionOnSDPCreated conn_id (Callback.SDPCreatedLambda conn_id),
         Event.SessionOnIceCandidate conn_id (Callback.IceCandidateLambda conn_id),
         Event.SessionOnSignalingChange conn_id (Callback.SignalingChangeLambda conn_id),
         Event.CapturerConstruct conn_id,
         Event.CreateVideoTrack conn_id,
         Event.CreateLocalMediaStream conn_id]
        ++ [Event.SetPortRange sig.m_opts.min_udp_port sig.m_opts.max_udp_port]
        ++ sig.m_opts.turn_servers.map
             (fun item => Event.AddTurnServer item.address item.username item.password)
        ++ [Event.CreatePeerConnection sig.pc_created conn_id,
            Event.PcAddStream sig.pc_created conn_id,
            Event.SessionSetConnection conn_id sig.pc_created,
            Event.SessionCreateOffer conn_id]
        ++ [Event.PcCreateOffer sig.pc_created]) ∧
      mapFind sig1.m_sessions conn_id = some session ∧
      session.m_label = conn_id ∧
      session.m_connection = some sig.pc_created ∧
      session.m_next_frame_socket.isSome = true := by
  simp only [Signaler.CreateSession, stunLoop_ok eng _ hstun, turnLoop_ok eng _ hturn,
    Session.Connect, Session.SetConnection, Session.CreateOffer]
  exact ⟨_, _, rfl, mapFind_mapAssign_self _ _ _, rfl, rfl, rfl⟩

/-- Claim C27.  Let the server addresses parse and let the connection id have no
entry in the registry.  Then HandleVideoRequest returns, and the calls it makes
on sessions and for the peer connection are, in this order: the construction of
one Session labelled with the id, Connect on it with the given stream, the
registration of the three handlers, the creation of one peer connection for
it, SetConnection with that peer connection, and one CreateOffer, which asks
that peer connection for the offer.  Afterwards the registry maps the id to a
session labelled with the id that holds that peer connection. -/
theorem C27_new_session_connect_then_offer (eng : Engine) (sig : Signaler) (conn_id : String)
    (source : Stream)
    (hstun : ∀ s ∈ sig.m_opts.stun_servers, eng.SocketAddressFromString s.address = true)
    (hturn : ∀ s ∈ sig.m_opts.turn_servers, eng.SocketAddressFromString s.address = true)
    (hnew : mapFind sig.m_sessions conn_id = none) :
    ∃ sig1 tr session,
      Signaler.HandleVideoRequest eng sig conn_id source = some (sig1, tr) ∧
      tr.filter Event.isSessionLifecycle =
        [Event.SessionConstruct conn_id,
         Event.SessionConnect conn_id source,
         Event.SessionOnSDPCreated conn_id (Callback.SDPCreatedLambda conn_id),
         Event.SessionOnIceCandidate conn_id (Callback.IceCandidateLambda conn_id),
         Event.SessionOnSignalingChange conn_id (Callback.SignalingChangeLambda conn_id),
         Event.CreatePeerConnection sig.pc_created conn_id,
         Event.SessionSetConnection conn_id sig.pc_created,
         Event.SessionCreateOffer conn_id,
         Event.PcCreateOffer sig.pc_created] ∧
      mapFind sig1.m_sessions conn_id = some session ∧
      session.m_label = conn_id ∧
      session.m_connection = some sig.pc_created := by
  obtain ⟨sig1, session, hcs, hfind, hlabel, hconn, _⟩ :=
    CreateSession_trace eng sig conn_id source hstun hturn
  have hv : Signaler.HandleVideoRequest eng sig conn_id source =
      Signaler.CreateSession eng sig conn_id source := by
    simp only [Signaler.HandleVideoRequest, hnew]
  rw [hv, hcs]
  refine ⟨sig1, _, session, rfl, ?_, hfind, hlabel, hconn⟩
  · have hc := Connect_trace_filter Event.isSessionLifecycle (Session.new conn_id) sig.m_ctx source
      (fun _ => rfl) (fun _ _ => rfl) (fun _ _ => rfl) (fun _ _ => rfl) (fun _ => rfl)
    have ht := filter_turn_events Event.isSessionLifecycle sig.m_opts.turn_servers
      (fun _ _ _ => rfl)
    simp only [List.filter_append, hc, ht]
    rfl

/-- Witness of C27: the first video request on a signaler without sessions. -/
theorem C27_new_session_connect_then_offer_witness :
    mapFind Examples.signaler0.m_sessions "abc" = none ∧
    ∃ sig1 tr session,
      Signaler.HandleVideoRequest Examples.engine Examples.signaler0 "abc" Examples.stream1
        = some (sig1, tr) ∧
      tr.filter Event.isSessionLifecycle =
        [Event.SessionConstruct "abc",
         Event.SessionConnect "abc" Examples.stream1,
         Event.SessionOnSDPCreated "abc" (Callback.SDPCreatedLambda "abc"),
         Event.SessionOnIceCandidate "abc" (Callback.IceCandidateLambda "abc"),
         Event.SessionOnSignalingChange "abc" (Callback.SignalingChangeLambda "abc"),
         Event.CreatePeerConnection Examples.signaler0.pc_created "abc",
         Event.SessionSetConnection "abc" Examples.signaler0.pc_created,
         Event.SessionCreateOffer "abc",
         Event.PcCreateOffer Examples.signaler0.pc_created] ∧
      mapFind sig1.m_sessions "abc" = some session ∧
      session.m_label = "abc" ∧
      session.m_connection = some Examples.signaler0.pc_created :=
  ⟨by decide,
   C27_new_session_connect_then_offer Examples.engine Examples.signaler0 "abc" Examples.stream1
     (by decide) (by decide) (by decide)⟩

end streamer

/-! ## Theorems: Connection with the Signaler run -/

namespace streamer

/-- A video request returns when the server addresses parse; the options are
kept, and so is the invariant that registered sessions have a peer connection. -/
theorem HandleVideoRequest_returns (eng : Engine) (sig : Signaler) (conn_id : String)
    (source : Stream)
    (hstun : ∀ s ∈ sig.m_opts.stun_servers, eng.SocketAddressFromString s.address = true)
    (hturn : ∀ s ∈ sig.m_opts.turn_servers, eng.SocketAddressFromString s.address = true) :
    ∃ sig1 tr, Signaler.HandleVideoRequest eng sig conn_id source = some (sig1, tr) ∧
      sig1.m_opts = sig.m_opts ∧ (sig.Attached → sig1.Attached) := by
  cases hf : mapFind sig.m_sessions conn_id with
  | some session =>
    refine ⟨_, _, HandleVideoRequest_registered eng sig conn_id source session hf, rfl, ?_⟩
    intro hatt p hp
    rcases mem_mapAssign _ _ _ _ hp with h | h
    · have := hatt _ (mapFind_mem _ _ _ hf)
      rw [h]
      simpa [Session.Connect] using this
    · exact hatt p h
  | none =>
    obtain ⟨sig1, tr, hcs, hopts, ⟨session, hsess, hconn, _⟩, _, _⟩ :=
      CreateSession_ok eng sig conn_id source hstun hturn
    refine ⟨sig1, tr, ?_, hopts, ?_⟩
    · simp [Signaler.HandleVideoRequest, hf, hcs]
    · intro hatt p hp
      rw [hsess] at hp
      rcases mem_mapAssign _ _ _ _ hp with h | h
      · rw [h]
        simp [hconn]
      · exact hatt p h

/-- A video request does not return when a STUN address fails to parse and the
connection id is new: the CHECK of CreateSession aborts. -/
theorem HandleVideoRequest_aborts (eng : Engine) (sig : Signaler) (conn_id : String)
    (source : Stream) (hnew : mapFind sig.m_sessions conn_id = none)
    (hstun : Signaler.stunLoop eng sig.m_opts.stun_servers = none) :
    Signaler.HandleVideoRequest eng sig conn_id source = none := by
  simp [Signaler.HandleVideoRequest, hnew, Signaler.CreateSession, hstun]

/-- An SDP request returns on a Signaler whose sessions have a peer connection,
and leaves the Signaler as it was. -/
theorem HandleSDPRequest_returns (eng : Engine) (sig : Signaler) (msg : teleop.SDPRequest)
    (hatt : sig.Attached) :
    ∃ tr, Signaler.HandleSDPRequest eng sig msg = some (sig, tr) := by
  cases hf : mapFind sig.m_sessions msg.connection_id with
  | none => exact ⟨[], by simp [Signaler.HandleSDPRequest, hf]⟩
  | some session =>
    by_cases hs : msg.sdp = ""
    · exact ⟨[], by simp [Signaler.HandleSDPRequest, hf, hs]⟩
    · obtain ⟨ev, hev, _⟩ := SetRemoteDescription_attached session eng.CreateSessionDescription
        "answer" msg.sdp (hatt _ (mapFind_mem _ _ _ hf))
      exact ⟨Event.SessionSetRemoteDescription session.m_label "answer" msg.sdp :: ev,
        by simp [Signaler.HandleSDPRequest, hf, hs, hev]⟩

/-- An ICE candidate returns on a Signaler whose sessions have a peer
connection, and leaves the Signaler as it was. -/
theorem HandleICECandidate_returns (eng : Engine) (sig : Signaler) (msg : teleop.ICECandidate)
    (hatt : sig.Attached) :
    ∃ tr, Signaler.HandleICECandidate eng sig msg = some (sig, tr) := by
  unfold Signaler.HandleICECandidate
  cases hf : mapFind sig.m_sessions msg.connection_id with
  | none => exact ⟨[], rfl⟩
  | some session =>
    obtain ⟨ev, hev, _⟩ := AddIceCandidate_attached session eng.CreateIceCandidate
      msg.sdp_mid msg.sdp_mline_index msg.candidate (hatt _ (mapFind_mem _ _ _ hf))
    simp only [hev]
    split <;> first | exact ⟨_, rfl⟩ | (split <;> first | exact ⟨_, rfl⟩ | (split <;> exact ⟨_, rfl⟩))

end streamer

namespace teleop

/-- The video request step with the Signaler run: when the call on the Signaler
returns, the connection and the calls it makes are those of HandleVideoRequest. -/
theorem WithSignaler_HandleVideoRequest_returns (eng : streamer.Engine) (c : Connection)
    (sig : streamer.Signaler) (req : VideoRequest)
    (hstun : ∀ s ∈ sig.m_opts.stun_servers, eng.SocketAddressFromString s.address = true)
    (hturn : ∀ s ∈ sig.m_opts.turn_servers, eng.SocketAddressFromString s.address = true)
    (hatt : sig.Attached) :
    ∃ sig1 str, Connection.WithSignaler.HandleVideoRequest eng c sig req
        = some (c, sig1, (c.HandleVideoRequest req).2, str) ∧
      sig1.m_opts = sig.m_opts ∧ sig1.Attached := by
  unfold Connection.WithSignaler.HandleVideoRequest Connection.HandleVideoRequest
  cases hsel : c.selectVideoSource req.camera with
  | none => exact ⟨sig, [], rfl, rfl, hatt⟩
  | some video =>
    obtain ⟨sig1, str, hrun, hopts, hkeep⟩ := streamer.HandleVideoRequest_returns eng sig
      req.connection_id
      { video.source with output_width := req.width, output_height := req.height } hstun hturn
    simp only [hrun]
    exact ⟨sig1, str, rfl, hopts, hkeep hatt⟩

/-- The dispatch with the Signaler run: when the server addresses parse and the
registered sessions have a peer connection, every call on the Signaler returns,
and the connection and the calls it makes are those of handleParsed. -/
theorem WithSignaler_handleParsed_returns (w : Wire) (eng : streamer.Engine) (c : Connection)
    (sig : streamer.Signaler) (msg : BackendMessage)
    (hstun : ∀ s ∈ sig.m_opts.stun_servers, eng.SocketAddressFromString s.address = true)
    (hturn : ∀ s ∈ sig.m_opts.turn_servers, eng.SocketAddressFromString s.address = true)
    (hatt : sig.Attached) :
    ∃ sig1 str, Connection.WithSignaler.handleParsed w eng c sig msg
        = some (c, sig1, (c.handleParsed w msg).2, str) ∧
      sig1.m_opts = sig.m_opts ∧ sig1.Attached := by
  have h8 : ∃ sig8 str8,
      (match msg.videorequest with
        | some req => Connection.WithSignaler.HandleVideoRequest eng c sig req
        | none => some (c, sig, [], []))
      = some (c, sig8,
          (match msg.videorequest with
           | some req => (c.HandleVideoRequest req).2
           | none => []), str8) ∧
      sig8.m_opts = sig.m_opts ∧ sig8.Attached := by
    cases msg.videorequest with
    | none => exact ⟨sig, [], rfl, rfl, hatt⟩
    | some req => exact WithSignaler_HandleVideoRequest_returns eng c sig req hstun hturn hatt
  obtain ⟨sig8, str8, hr8, hopts8, hatt8⟩ := h8
  have h9 : ∃ str9,
      (match msg.sdprequest with
        | some req =>
          match streamer.Signaler.HandleSDPRequest eng sig8 req with
          | none => none
          | some (sig9, str) => some (sig9, [Event.SignalerHandleSDPRequest req], str)
        | none => some (sig8, [], []))
      = some (sig8,
          (match msg.sdprequest with
           | some req => [Event.SignalerHandleSDPRequest req]
           | none => []), str9) := by
    cases msg.sdprequest with
    | none => exact ⟨[], rfl⟩
    | some req =>
      obtain ⟨str, hrun⟩ := streamer.HandleSDPRequest_returns eng sig8 req hatt8
      exact ⟨str, by simp only [hrun]⟩
  obtain ⟨str9, hr9⟩ := h9
  have h10 : ∃ str10,
      (match msg.icecandidate with
        | some cand =>
          match streamer.Signaler.HandleICECandidate eng sig8 cand with
          | none => none
          | some (sig10, str) => some (sig10, [Event.SignalerHandleICECandidate cand], str)
        | none => some (sig8, [], []))
      = some (sig8,
          (match msg.icecandidate with
           | some cand => [Event.SignalerHandleICECandidate cand]
           | none => []), str10) := by
    cases msg.icecandidate with
    | none => exact ⟨[], rfl⟩
    | some cand =>
      obtain ⟨str, hrun⟩ := streamer.HandleICECandidate_returns eng sig8 cand hatt8
      exact ⟨str, by simp only [hrun]⟩
  obtain ⟨str10, hr10⟩ := h10
  refine ⟨sig8, str8 ++ str9 ++ str10, ?_, hopts8, hatt8⟩
  rw [handleParsed_trace]
  unfold Connection.WithSignaler.handleParsed
  simp only [hr8, hr9, hr10]
  by_cases hid : msg.id = "" <;>
    simp [hid, Connection.SendConfirmation, Connection.SendMessage]

/-- Claim C1.  Let the payload parse as an envelope, let the STUN and TURN
addresses of the Signaler parse, and let every registered session have its peer
connection.  Then HandleMessage, with the calls on the Signaler run, returns
for every combination of populated fields and registered handlers; the
confirmations it sends are exactly one, carrying the id of the envelope and
status SUCCESS, when the id is non-empty, and none when the id is empty; and
the Signaler it leaves meets the same two conditions, so the same holds for the
next payload. -/
theorem C1_exactly_one_confirmation (w : Wire) (eng : streamer.Engine) (c : Connection)
    (sig : streamer.Signaler) (payload : String) (msg : BackendMessage)
    (hparse : w.ParseFromString payload = some msg)
    (hstun : ∀ s ∈ sig.m_opts.stun_servers, eng.SocketAddressFromString s.address = true)
    (hturn : ∀ s ∈ sig.m_opts.turn_servers, eng.SocketAddressFromString s.address = true)
    (hatt : sig.Attached) :
    ∃ sig1 tr str,
      Connection.WithSignaler.HandleMessage w eng c sig payload = some (c, sig1, tr, str) ∧
      confirmationsSent tr =
        (if msg.id = "" then []
         else [{ message_id := msg.id, status := ConfirmationStatus.SUCCESS }]) ∧
      sig1.m_opts = sig.m_opts ∧ sig1.Attached := by
  obtain ⟨sig1, str, hrun, hopts, hatt1⟩ :=
    WithSignaler_handleParsed_returns w eng c sig msg hstun hturn hatt
  have hconf := HandleMessage_confirmations w c payload msg hparse
  unfold Connection.HandleMessage at hconf
  rw [hparse] at hconf
  refine ⟨sig1, (c.handleParsed w msg).2, str, ?_, hconf, hopts, hatt1⟩
  unfold Connection.WithSignaler.HandleMessage
  rw [hparse]
  exact hrun

/-- Witness of C1: an envelope with id m1, a joystick command and a video
request for a new connection id, on a Signaler without sessions whose server
addresses parse, is confirmed once, with its id and SUCCESS. -/
theorem C1_exactly_one_confirmation_witness :
    Examples.joystickWire.ParseFromString "payload" = some Examples.joystickMsg ∧
    ∃ sig1 tr str,
      Connection.WithSignaler.HandleMessage Examples.joystickWire streamer.Examples.engine
        (Examples.conn.OnJoystick 3) streamer.Examples.signaler0 "payload"
        = some (Examples.conn.OnJoystick 3, sig1, tr, str) ∧
      confirmationsSent tr = [{ message_id := "m1", status := ConfirmationStatus.SUCCESS }] := by
  have hatt : streamer.Examples.signaler0.Attached := by
    intro p hp
    have hs : streamer.Examples.signaler0.m_sessions.all
        (fun q => q.2.m_connection.isSome) = true := by decide
    exact (List.all_eq_true.mp hs) p hp
  obtain ⟨sig1, tr, str, hrun, hconf, _, _⟩ :=
    C1_exactly_one_confirmation Examples.joystickWire streamer.Examples.engine
      (Examples.conn.OnJoystick 3) streamer.Examples.signaler0 "payload" Examples.joystickMsg
      rfl (by decide) (by decide) hatt
  exact ⟨rfl, sig1, tr, str, hrun, hconf⟩

/-- The same envelope on an engine that parses no server address: the video
request aborts in CreateSession, so HandleMessage does not return and the
confirmation is never sent. -/
theorem WithSignaler_HandleMessage_abort_example :
    Connection.WithSignaler.HandleMessage Examples.joystickWire
      { streamer.Examples.engine with SocketAddressFromString := fun _ => false }
      (Examples.conn.OnJoystick 3) streamer.Examples.signaler0 "payload" = none := by
  decide

end teleop

/-! ## Theorems: Session -/

namespace streamer

theorem connects_cons (s : Session) (ctx : ZmqContext) (source : Stream) (rest : List Stream) :
    s.connects ctx (source :: rest) =
      ((Session.connects (s.Connect ctx source).1 (s.Connect ctx source).2.1 rest).1,
       (Session.connects (s.Connect ctx source).1 (s.Connect ctx source).2.1 rest).2.1,
       (s.Connect ctx source).2.2 ++
         (Session.connects (s.Connect ctx source).1 (s.Connect ctx source).2.1 rest).2.2) := rfl

/-- What a run of Connect calls leaves behind: the context has created one
socket per call, the current socket is untouched, nothing was received, the
socket that was pending before and every socket created by a call but the last
have been destroyed, and the socket of the last call is pending with its
output size recorded. -/
theorem connects_spec (l : List Stream) :
    ∀ (s : Session) (ctx : ZmqContext),
      (s.connects ctx l).2.1.created = ctx.created + l.length ∧
      (s.connects ctx l).1.m_frame_socket = s.m_frame_socket ∧
      (s.connects ctx l).2.2.filter Event.isReceive = [] ∧
      (l ≠ [] → ∀ p, s.m_next_frame_socket = some p →
        Event.SocketDestroy p.id ∈ (s.connects ctx l).2.2) ∧
      (∀ i, i + 1 < l.length → Event.SocketDestroy (ctx.created + i) ∈ (s.connects ctx l).2.2) ∧
      (∀ front last, l = front ++ [last] →
        (s.connects ctx l).1.m_next_frame_socket =
          some { id := ctx.created + front.length, rcvhwm := 1,
                 address := last.address, topic := last.topic } ∧
        (s.connects ctx l).1.m_output_width = last.output_width ∧
        (s.connects ctx l).1.m_output_height = last.output_height) := by
  induction l with
  | nil =>
    intro s ctx
    refine ⟨rfl, rfl, rfl, fun h => absurd rfl h, ?_, ?_⟩
    · intro i hi
      simp at hi
    · intro front last h
      simp at h
  | cons source rest ih =>
    intro s ctx
    obtain ⟨h1, h2, h3, h4, h5, h6⟩ := ih (s.Connect ctx source).1 (s.Connect ctx source).2.1
    rw [connects_cons]
    have hctx : (s.Connect ctx source).2.1.created = ctx.created + 1 := rfl
    have hpend : (s.Connect ctx source).1.m_next_frame_socket =
        some { id := ctx.created, rcvhwm := 1, address := source.address,
               topic := source.topic } := rfl
    refine ⟨?_, ?_, ?_, ?_, ?_, ?_⟩
    · simp only [h1, hctx, List.length_cons]
      omega
    · simp only [h2]
      rfl
    · simp only [List.filter_append, h3, List.append_nil]
      apply Connect_trace_filter <;> intros <;> rfl
    · intro _ p hp
      apply List.mem_append_left
      simp [Session.Connect, Session.dropSocket, hp]
    · intro i hi
      apply List.mem_append_right
      cases i with
      | zero =>
        have hrest : rest ≠ [] := by
          intro hr
          simp [hr] at hi
        exact h4 hrest _ hpend
      | succ j =>
        have := h5 j (by simp only [List.length_cons] at hi; omega)
        rw [hctx] at this
        have he : ctx.created + (j + 1) = ctx.created + 1 + j := by omega
        rw [he]
        exact this
    · intro front last hl
      cases front with
      | nil =>
        simp only [List.nil_append, List.cons.injEq] at hl
        obtain ⟨hs, hr⟩ := hl
        subst hr
        subst hs
        exact ⟨rfl, rfl, rfl⟩
      | cons f front1 =>
        simp only [List.cons_append, List.cons.injEq] at hl
        obtain ⟨_, hr⟩ := hl
        obtain ⟨g1, g2, g3⟩ := h6 front1 last hr
        refine ⟨?_, g2, g3⟩
        rw [g1, hctx]
        simp only [List.length_cons]
        have he : ctx.created + 1 + front1.length = ctx.created + (front1.length + 1) := by omega
        rw [he]

/-- Claim C8.  After a non-empty run of Connect calls on a session, given as the
earlier streams followed by the last one, the socket created by the last call
is pending.  NextFrame then returns: it makes that socket the current one,
leaves no pending socket, receives on it and on no other socket, and on
success reports the output width and height of the last stream.  The sockets
created by the earlier calls were destroyed during the run, and the run itself
received on no socket. -/
theorem C8_next_frame_reads_last_connected (s : Session) (ctx : ZmqContext)
    (earlier : List Stream) (last : Stream) (recv : Socket → Option CameraSample) :
    (s.connects ctx (earlier ++ [last])).1.m_next_frame_socket =
      some { id := ctx.created + earlier.length, rcvhwm := 1,
             address := last.address, topic := last.topic } ∧
    (∃ s1 ev, (s.connects ctx (earlier ++ [last])).1.NextFrame recv =
        some (s1, ev,
          (recv { id := ctx.created + earlier.length, rcvhwm := 1,
                  address := last.address, topic := last.topic }).map
            (fun sample => (sample, last.output_width, last.output_height))) ∧
      s1.m_frame_socket =
        some { id := ctx.created + earlier.length, rcvhwm := 1,
               address := last.address, topic := last.topic } ∧
      s1.m_next_frame_socket = none ∧
      ev.filter Event.isReceive = [Event.Receive (ctx.created + earlier.length) 100]) ∧
    (∀ i, i < earlier.length →
      Event.SocketDestroy (ctx.created + i) ∈ (s.connects ctx (earlier ++ [last])).2.2) ∧
    (s.connects ctx (earlier ++ [last])).2.2.filter Event.isReceive = [] := by
  obtain ⟨_, _, h3, _, h5, h6⟩ := connects_spec (earlier ++ [last]) s ctx
  obtain ⟨g1, g2, g3⟩ := h6 earlier last rfl
  refine ⟨g1, ?_, ?_, h3⟩
  · cases hr : recv { id := ctx.created + earlier.length, rcvhwm := 1,
                      address := last.address, topic := last.topic } with
    | none =>
      refine ⟨_, _, by simp [Session.NextFrame, Session.promote, g1, hr]; exact ⟨rfl, rfl⟩,
        rfl, rfl, ?_⟩
      cases (s.connects ctx (earlier ++ [last])).1.m_frame_socket <;>
        simp [Session.dropSocket, List.filter, Event.isReceive]
    | some sample =>
      refine ⟨_, _, by
        simp [Session.NextFrame, Session.promote, g1, hr, g2, g3]; exact ⟨rfl, rfl⟩,
        rfl, rfl, ?_⟩
      cases (s.connects ctx (earlier ++ [last])).1.m_frame_socket <;>
        simp [Session.dropSocket, List.filter, Event.isReceive]
  · intro i hi
    exact h5 i (by simp; omega)

/-- Claim C12, at the counterexample.  A closed handler is registered on a
session that holds no peer connection; CloseConnection makes no call at all,
so the closed handler is not invoked. -/
theorem C12_closed_handler_skipped_without_connection :
    Examples.unattached.m_closed_handler = some (Callback.Foreign 9) ∧
    Examples.unattached.m_connection = none ∧
    (Examples.unattached.CloseConnection Examples.silent).2 = [] := by
  decide

/-- Claim C12 as amended.  CloseConnection writes no member.  When a peer
connection is attached it closes it and then calls the registered closed
handler, once; without a registered handler it only closes.  When no peer
connection is attached it makes no call: the closed handler is not invoked. -/
theorem C12_close_then_closed_handler (s : Session) (run : Session.Callables) :
    (s.CloseConnection run).1 = s ∧
    (∀ pc h, s.m_connection = some pc → s.m_closed_handler = some h →
      (s.CloseConnection run).2 =
        [Event.PcClose pc, Event.Invoke h HandlerArg.void] ++ run h HandlerArg.void) ∧
    (∀ pc, s.m_connection = some pc → s.m_closed_handler = none →
      (s.CloseConnection run).2 = [Event.PcClose pc]) ∧
    (s.m_connection = none → (s.CloseConnection run).2 = []) := by
  refine ⟨?_, ?_, ?_, ?_⟩
  · unfold Session.CloseConnection
    cases s.m_connection <;> rfl
  · intro pc h hc hh
    simp [Session.CloseConnection, Session.invoke, hc, hh]
  · intro pc hc hh
    simp [Session.CloseConnection, Session.invoke, hc, hh]
  · intro hc
    simp [Session.CloseConnection, hc]

/-- Claim C13, at the counterexample.  After CloseConnection on a session that
holds peer connection 0 the session still holds it, and a second
CloseConnection calls Close on it again. -/
theorem C13_second_close_closes_again :
    Examples.closable.m_connection = some 0 ∧
    (Examples.closable.CloseConnection Examples.silent).1.m_connection = some 0 ∧
    ((Examples.closable.CloseConnection Examples.silent).1.CloseConnection Examples.silent).2 =
      [Event.PcClose 0, Event.Invoke (Callback.Foreign 9) HandlerArg.void] := by
  decide

/-- Claim C13 as amended.  After CloseConnection on a session with an attached
peer connection the session still holds that peer connection, and a second
CloseConnection does what the first did: it calls Close on the same peer
connection and calls the closed handler, if any, again. -/
theorem C13_close_keeps_connection (s : Session) (run : Session.Callables) (pc : Nat)
    (hconn : s.m_connection = some pc) :
    (s.CloseConnection run).1.m_connection = some pc ∧
    ((s.CloseConnection run).1.CloseConnection run).2 = (s.CloseConnection run).2 ∧
    ((s.CloseConnection run).1.CloseConnection run).2 =
      Event.PcClose pc :: Session.invoke run s.m_closed_handler HandlerArg.void := by
  have h1 : (s.CloseConnection run).1 = s := by
    unfold Session.CloseConnection
    cases s.m_connection <;> rfl
  rw [h1]
  refine ⟨hconn, rfl, ?_⟩
  simp [Session.CloseConnection, hconn]

/-- Witness of C13 as amended: the session with peer connection 0 and a closed
handler is closed twice. -/
theorem C13_close_keeps_connection_witness :
    Examples.closable.m_connection = some 0 ∧
    (Examples.closable.CloseConnection Examples.silent).1.m_connection = some 0 ∧
    ((Examples.closable.CloseConnection Examples.silent).1.CloseConnection Examples.silent).2 =
      (Examples.closable.CloseConnection Examples.silent).2 ∧
    ((Examples.closable.CloseConnection Examples.silent).1.CloseConnection Examples.silent).2 =
      Event.PcClose 0 ::
        Session.invoke Examples.silent Examples.closable.m_closed_handler HandlerArg.void :=
  ⟨rfl, C13_close_keeps_connection Examples.closable Examples.silent 0 rfl⟩

/-- Claim C14.  For every type and sdp: when the description does not parse,
SetRemoteDescription makes no call and leaves the session as it was; when it
parses, on a session with a peer connection, the session is again left as it
was, the calls on the peer connection are one SetRemoteDescription with the
type and sdp, followed by one CreateAnswer exactly when the type is offer. -/
theorem C14_set_remote_description (s : Session) (parses : String → String → Bool)
    (type sdp : String) :
    (parses type sdp = false → s.afterSetRemoteDescription parses type sdp = some (s, [])) ∧
    (∀ pc, parses type sdp = true → s.m_connection = some pc →
      ∃ tr, s.afterSetRemoteDescription parses type sdp = some (s, tr) ∧
        tr.filter Event.isPcCall = tr ∧
        (type = "offer" →
          tr = [Event.PcSetRemoteDescription pc type sdp, Event.PcCreateAnswer pc]) ∧
        (type ≠ "offer" → tr = [Event.PcSetRemoteDescription pc type sdp])) := by
  constructor
  · intro hp
    simp [Session.afterSetRemoteDescription, Session.SetRemoteDescription, hp]
  · intro pc hp hc
    by_cases ht : type = "offer"
    · refine ⟨[Event.PcSetRemoteDescription pc type sdp, Event.PcCreateAnswer pc], ?_, ?_, ?_, ?_⟩
      · subst ht
        simp [Session.afterSetRemoteDescription, Session.SetRemoteDescription, hp, hc]
      · simp [List.filter, Event.isPcCall]
      · intro _
        rfl
      · intro h
        exact absurd ht h
    · refine ⟨[Event.PcSetRemoteDescription pc type sdp], ?_, ?_, ?_, ?_⟩
      · simp [Session.afterSetRemoteDescription, Session.SetRemoteDescription, hp, hc, ht]
      · simp [List.filter, Event.isPcCall]
      · intro h
        exact absurd h ht
      · intro _
        rfl

theorem dropSocket_not_blocking (sock : Option Socket) :
    (Session.dropSocket sock).filter Event.isBlocking = [] := by
  cases sock <;> rfl

theorem promote_not_blocking (s : Session) : (s.promote).2.filter Event.isBlocking = [] := by
  unfold Session.promote
  cases s.m_next_frame_socket with
  | none => rfl
  | some next => exact dropSocket_not_blocking _

theorem neverHeldAcross_dropSocket (sock : Option Socket) (rest : List Event) :
    neverHeldAcross true (Session.dropSocket sock ++ rest) = neverHeldAcross true rest := by
  cases sock <;> simp [Session.dropSocket, neverHeldAcross, Event.isBlocking]

theorem neverHeldAcross_promote (s : Session) (rest : List Event) :
    neverHeldAcross true ((s.promote).2 ++ rest) = neverHeldAcross true rest := by
  unfold Session.promote
  cases s.m_next_frame_socket with
  | none => rfl
  | some next => exact neverHeldAcross_dropSocket _ _

theorem filter_not_mutex_dropSocket (sock : Option Socket) :
    (Session.dropSocket sock).filter (fun e => !e.isMutex) = Session.dropSocket sock := by
  cases sock <;> rfl

theorem filter_not_mutex_promote (s : Session) :
    (s.promote).2.filter (fun e => !e.isMutex) = (s.promote).2 := by
  unfold Session.promote
  cases s.m_next_frame_socket with
  | none => rfl
  | some next => exact filter_not_mutex_dropSocket _

/-- After the locked block of NextFrame the current socket is null only when
both the current and the pending socket were null before. -/
theorem promote_frame_socket (s : Session) :
    (s.promote).1.m_frame_socket.isSome = s.hasSource ∧
    ((s.promote).1.m_frame_socket = s.m_frame_socket ∨
     ((s.promote).1.m_frame_socket = s.m_next_frame_socket ∧
       s.m_next_frame_socket.isSome = true)) := by
  unfold Session.promote Session.hasSource
  cases hn : s.m_next_frame_socket with
  | none => simp
  | some next => simp

/-- Session::NextFrame returns exactly when the session has a socket to read
from, and then the session still has one. -/
theorem NextFrame_of_hasSource (s : Session) (recv : Socket → Option CameraSample)
    (h : s.hasSource = true) :
    ∃ s1 ev out sock, s.NextFrame recv = some (s1, ev, out) ∧ s1 = (s.promote).1 ∧
      s1.m_frame_socket = some sock ∧ s1.hasSource = true ∧
      ev = (s.promote).2 ++ [Event.Receive sock.id 100] := by
  have hp := (promote_frame_socket s).1
  rw [h] at hp
  unfold Session.NextFrame
  rcases hpr : s.promote with ⟨s0, ev0⟩
  rw [hpr] at hp
  simp only at hp ⊢
  cases hs : s0.m_frame_socket with
  | none => rw [hs] at hp; exact absurd hp (by decide)
  | some sock =>
    have hsrc : s0.hasSource = true := by simp [Session.hasSource, hs]
    cases hr : recv sock with
    | none =>
      simp only [hr]
      exact ⟨s0, _, none, sock, rfl, rfl, hs, hsrc, rfl⟩
    | some sample =>
      simp only [hr]
      exact ⟨s0, _, _, sock, rfl, rfl, hs, hsrc, rfl⟩

/-- Claim C26.  In Session::Connect the subscriber is created, configured,
connected and subscribed before the mutex is acquired, and what happens while
the mutex is held (the move into the pending slot, which may destroy the old
pending socket) makes no blocking call.  In Session::NextFrame, on a session
with a socket to read from, the mutex is acquired, the pending socket is moved
into the current slot, the mutex is released, and only then the receive with
the 100 ms timeout starts.  So in both traces the mutex is never held across a
blocking call.  Without the mutex events the traces and the results are those
of Connect and NextFrame. -/
theorem C26_mutex_not_held_across_blocking (s : Session) (ctx : ZmqContext) (source : Stream)
    (recv : Socket → Option CameraSample) (hsrc : s.hasSource = true) :
    ((s.ConnectGuarded ctx source).2.2 =
        [Event.SocketCreate ctx.created,
         Event.SocketSetRcvHwm ctx.created 1,
         Event.SocketConnect ctx.created source.address,
         Event.SocketSubscribe ctx.created source.topic]
        ++ [Event.MutexLock] ++ Session.dropSocket s.m_next_frame_socket ++ [Event.MutexUnlock] ∧
      (Session.dropSocket s.m_next_frame_socket).filter Event.isBlocking = [] ∧
      neverHeldAcross false (s.ConnectGuarded ctx source).2.2 = true ∧
      (s.ConnectGuarded ctx source).1 = (s.Connect ctx source).1 ∧
      (s.ConnectGuarded ctx source).2.2.filter (fun e => !e.isMutex) = (s.Connect ctx source).2.2) ∧
    (∃ s1 tr out sock, s.NextFrameGuarded recv = some (s1, tr, out) ∧
      s1.m_frame_socket = some sock ∧
      tr = [Event.MutexLock] ++ (s.promote).2 ++ [Event.MutexUnlock]
            ++ [Event.Receive sock.id 100] ∧
      (s.promote).2.filter Event.isBlocking = [] ∧
      neverHeldAcross false tr = true ∧
      s.NextFrame recv = some (s1, tr.filter (fun e => !e.isMutex), out)) := by
  constructor
  · refine ⟨rfl, dropSocket_not_blocking _, ?_, rfl, ?_⟩
    · cases hn : s.m_next_frame_socket <;>
        simp [Session.ConnectGuarded, hn, Session.dropSocket, neverHeldAcross, Event.isBlocking]
    · cases hn : s.m_next_frame_socket <;>
        simp [Session.ConnectGuarded, Session.Connect, hn, Session.dropSocket, Event.isMutex]
  · have hp := (promote_frame_socket s).1
    rw [hsrc] at hp
    have hnb := promote_not_blocking s
    have hnh := neverHeldAcross_promote s
    have hfm := filter_not_mutex_promote s
    unfold Session.NextFrameGuarded Session.NextFrame
    rcases hpr : s.promote with ⟨s0, ev0⟩
    rw [hpr] at hp hnb hnh hfm
    simp only at hp hnb hnh hfm ⊢
    cases hs : s0.m_frame_socket with
    | none => rw [hs] at hp; exact absurd hp (by decide)
    | some sock =>
      have hheld : neverHeldAcross false
          ([Event.MutexLock] ++ ev0 ++ [Event.MutexUnlock] ++ [Event.Receive sock.id 100])
          = true := by
        simp [neverHeldAcross, hnh, Event.isBlocking]
      have hfilt : ([Event.MutexLock] ++ ev0 ++ [Event.MutexUnlock]
          ++ [Event.Receive sock.id 100]).filter (fun e => !e.isMutex)
          = ev0 ++ [Event.Receive sock.id 100] := by
        have e1 : [Event.MutexLock].filter (fun e => !e.isMutex) = [] := rfl
        have e2 : [Event.MutexUnlock].filter (fun e => !e.isMutex) = [] := rfl
        have e3 : [Event.Receive sock.id 100].filter (fun e => !e.isMutex)
            = [Event.Receive sock.id 100] := rfl
        rw [List.filter_append, List.filter_append, List.filter_append, hfm, e1, e2, e3,
          List.nil_append, List.append_nil]
      cases hr : recv sock with
      | none =>
        simp only [hr]
        refine ⟨s0, _, none, sock, rfl, hs, rfl, hnb, hheld, ?_⟩
        rw [hfilt]
      | some sample =>
        simp only [hr]
        refine ⟨s0, _, _, sock, rfl, hs, rfl, hnb, hheld, ?_⟩
        rw [hfilt]

/-- Witness of C26: the session connected once, reconnected and read. -/
theorem C26_mutex_not_held_across_blocking_witness :
    Examples.connected.hasSource = true ∧
    (Examples.connected.ConnectGuarded { created := 1 } Examples.stream2).2.2 =
      [Event.SocketCreate 1, Event.SocketSetRcvHwm 1 1,
       Event.SocketConnect 1 Examples.stream2.address,
       Event.SocketSubscribe 1 Examples.stream2.topic,
       Event.MutexLock, Event.SocketDestroy 0, Event.MutexUnlock] ∧
    ∃ s1 tr out sock, Examples.connected.NextFrameGuarded Examples.recvGray = some (s1, tr, out) ∧
      s1.m_frame_socket = some sock ∧
      tr = [Event.MutexLock] ++ (Examples.connected.promote).2 ++ [Event.MutexUnlock]
            ++ [Event.Receive sock.id 100] ∧
      neverHeldAcross false tr = true := by
  have h := C26_mutex_not_held_across_blocking Examples.connected { created := 1 }
    Examples.stream2 Examples.recvGray (by decide)
  obtain ⟨⟨h1, _, _, _, _⟩, s1, tr, out, sock, h2, h3, h4, _, h5, _⟩ := h
  exact ⟨by decide, by rw [h1]; decide, s1, tr, out, sock, h2, h3, h4, h5⟩

/-- On a session with a socket to read from, every sequence of calls returns:
no NextFrame in it dereferences a null socket, and the session keeps a socket
to read from. -/
theorem calls_of_hasSource (run : Session.Callables) (cs : List Session.Call) :
    ∀ (s : Session) (ctx : ZmqContext), s.hasSource = true →
      ∃ s1 ctx1 tr, Session.calls run s ctx cs = some (s1, ctx1, tr) ∧ s1.hasSource = true := by
  induction cs with
  | nil =>
    intro s ctx h
    exact ⟨s, ctx, [], rfl, h⟩
  | cons c rest ih =>
    intro s ctx h
    cases c with
    | Connect source =>
      have h1 : (s.Connect ctx source).1.hasSource = true := by
        simp [Session.Connect, Session.hasSource]
      obtain ⟨s1, ctx1, tr, hrun, hs1⟩ := ih _ (s.Connect ctx source).2.1 h1
      refine ⟨s1, ctx1, (s.Connect ctx source).2.2 ++ tr, ?_, hs1⟩
      simp only [Session.calls, hrun]
    | NextFrame recv =>
      obtain ⟨s0, ev, out, sock, hnf, hs0, hsock, hsrc0, hev⟩ := NextFrame_of_hasSource s recv h
      obtain ⟨s1, ctx1, tr, hrun, hs1⟩ := ih s0 ctx hsrc0
      refine ⟨s1, ctx1, ev ++ tr, ?_, hs1⟩
      simp only [Session.calls, hnf, hrun]
    | SetConnection conn =>
      have h1 : (s.SetConnection conn).hasSource = true := h
      obtain ⟨s1, ctx1, tr, hrun, hs1⟩ := ih _ ctx h1
      refine ⟨s1, ctx1, tr, ?_, hs1⟩
      simp only [Session.calls, hrun]
    | CloseConnection =>
      have hstate : (s.CloseConnection run).1 = s := by
        unfold Session.CloseConnection
        cases s.m_connection <;> rfl
      obtain ⟨s1, ctx1, tr, hrun, hs1⟩ := ih s ctx h
      refine ⟨s1, ctx1, (s.CloseConnection run).2 ++ tr, ?_, hs1⟩
      simp only [Session.calls, hstate, hrun]
    | Register setter cb =>
      have h1 : (s.register cb setter).hasSource = true := by
        cases setter <;> exact h
      obtain ⟨s1, ctx1, tr, hrun, hs1⟩ := ih _ ctx h1
      refine ⟨s1, ctx1, tr, ?_, hs1⟩
      simp only [Session.calls, hrun]

/-- Claim C30.  After a Connect the session has a socket to read from, and from
then on every sequence of calls of Connect, NextFrame, SetConnection,
CloseConnection and the handler setters returns: every NextFrame in it finds a
non-null current socket at its receive, and the session keeps a socket to read
from.  The locked block of NextFrame leaves the current socket as it was or
replaces it by a non-null pending one.  And CreateSession, when the server
addresses parse, calls Connect on the new session before it constructs the
capturer, and registers a session with a pending socket. -/
theorem C30_current_socket_never_null (run : Session.Callables) (s : Session)
    (ctx : ZmqContext) (source : Stream) (cs : List Session.Call)
    (eng : Engine) (sig : Signaler) (conn_id : String)
    (hstun : ∀ t ∈ sig.m_opts.stun_servers, eng.SocketAddressFromString t.address = true)
    (hturn : ∀ t ∈ sig.m_opts.turn_servers, eng.SocketAddressFromString t.address = true) :
    (s.Connect ctx source).1.hasSource = true ∧
    (∃ s1 ctx1 tr, Session.calls run (s.Connect ctx source).1 (s.Connect ctx source).2.1 cs
        = some (s1, ctx1, tr) ∧ s1.hasSource = true) ∧
    (∀ t : Session, (t.promote).1.m_frame_socket = t.m_frame_socket ∨
      ((t.promote).1.m_frame_socket = t.m_next_frame_socket ∧
        t.m_next_frame_socket.isSome = true)) ∧
    (∃ sig1 tr session, Signaler.CreateSession eng sig conn_id source = some (sig1, tr) ∧
      tr.filter Event.isConnectOrCapturer =
        [Event.SessionConnect conn_id source, Event.CapturerConstruct conn_id] ∧
      mapFind sig1.m_sessions conn_id = some session ∧
      session.hasSource = true) := by
  have h1 : (s.Connect ctx source).1.hasSource = true := by
    simp [Session.Connect, Session.hasSource]
  refine ⟨h1, calls_of_hasSource run cs _ _ h1, fun t => (promote_frame_socket t).2, ?_⟩
  obtain ⟨sig1, session, hcs, hfind, _, _, hnext⟩ :=
    CreateSession_trace eng sig conn_id source hstun hturn
  rw [hcs]
  refine ⟨sig1, _, session, rfl, ?_, hfind, ?_⟩
  · have hc := Connect_trace_filter Event.isConnectOrCapturer (Session.new conn_id) sig.m_ctx
      source (fun _ => rfl) (fun _ _ => rfl) (fun _ _ => rfl) (fun _ _ => rfl) (fun _ => rfl)
    have ht := filter_turn_events Event.isConnectOrCapturer sig.m_opts.turn_servers
      (fun _ _ _ => rfl)
    simp only [List.filter_append, hc, ht]
    rfl
  · simp [Session.hasSource, hnext]

/-- Witness of C30: a new session is connected, read twice, reconnected and read
again; the signaler creates the session abc. -/
theorem C30_current_socket_never_null_witness :
    (∀ t ∈ Examples.signaler0.m_opts.stun_servers,
      Examples.engine.SocketAddressFromString t.address = true) ∧
    (∀ t ∈ Examples.signaler0.m_opts.turn_servers,
      Examples.engine.SocketAddressFromString t.address = true) ∧
    ∃ s1 ctx1 tr, Session.calls Examples.silent
        ((Session.new "abc").Connect { created := 0 } Examples.smallStream).1
        ((Session.new "abc").Connect { created := 0 } Examples.smallStream).2.1
        Examples.readTwiceReconnect = some (s1, ctx1, tr) ∧ s1.hasSource = true :=
  ⟨by decide, by decide,
   (C30_current_socket_never_null Examples.silent (Session.new "abc") { created := 0 }
     Examples.smallStream Examples.readTwiceReconnect Examples.engine Examples.signaler0 "abc"
     (by decide) (by decide)).2.1⟩

end streamer

/-! ## Theorems: VideoCapturer -/

namespace streamer

theorem ensureBuffer_size (slot : BufferSlot) (buf : Option I420Buffer) (width height : Int) :
    (VideoCapturer.ensureBuffer slot buf width height).1.width = width ∧
    (VideoCapturer.ensureBuffer slot buf width height).1.height = height := by
  unfold VideoCapturer.ensureBuffer
  cases buf with
  | none => exact ⟨rfl, rfl⟩
  | some b =>
    by_cases h : width ≠ b.width ∨ height ≠ b.height
    · simp only [h, if_true]
      exact ⟨rfl, rfl⟩
    · simp only [h, if_false]
      simp only [not_or, not_not] at h
      exact ⟨h.1.symm, h.2.symm⟩

theorem ensureBuffer_events (p : Event → Bool)
    (hp : ∀ s a b c d e, p (Event.I420BufferCreate s a b c d e) = false)
    (slot : BufferSlot) (buf : Option I420Buffer) (width height : Int) :
    (VideoCapturer.ensureBuffer slot buf width height).2.filter p = [] := by
  unfold VideoCapturer.ensureBuffer
  cases buf with
  | none => simp [List.filter, hp]
  | some b =>
    by_cases h : width ≠ b.width ∨ height ≠ b.height
    · simp [h, List.filter, hp]
    · simp [h]

theorem ConvertGrayToYUV_some (yuv : Libyuv) (img : Image) (out r : I420Buffer)
    (h : ConvertGrayToYUV yuv img out = some (some r)) :
    r.width = out.width ∧ r.height = out.height := by
  unfold ConvertGrayToYUV at h
  split at h
  · exact Option.noConfusion h
  · split at h
    · exact Option.noConfusion h
    · split at h
      · exact Option.noConfusion h
      · split at h
        · simp at h
        · simp only [Option.some.injEq] at h
          rw [← h]
          exact ⟨rfl, rfl⟩

theorem ConvertToYUV_some (yuv : Libyuv) (img : Image) (fourcc : FourCC) (depth : Nat)
    (out r : I420Buffer) (h : ConvertToYUV yuv img fourcc depth out = some (some r)) :
    r.width = out.width ∧ r.height = out.height := by
  unfold ConvertToYUV at h
  split at h
  · exact Option.noConfusion h
  · split at h
    · exact Option.noConfusion h
    · split at h
      · exact Option.noConfusion h
      · split at h
        · simp at h
        · simp only [Option.some.injEq] at h
          rw [← h]
          exact ⟨rfl, rfl⟩

/-- A conversion that succeeds keeps the size of the buffer, and the switch
neither scales nor hands out a frame. -/
theorem convert_spec (yuv : Libyuv) (img : Image) (u0 : I420Buffer)
    (r : Option I420Buffer) (ev : List Event)
    (h : VideoCapturer.convert yuv img u0 = some (r, ev)) :
    (∀ u1, r = some u1 → u1.width = u0.width ∧ u1.height = u0.height) ∧
    ev.filter Event.isOnFrame = [] ∧ ev.filter Event.isI420Scale = [] := by
  unfold VideoCapturer.convert at h
  cases hfmt : img.format with
  | PB_LUMINANCE =>
    simp only [hfmt] at h
    cases hc : ConvertGrayToYUV yuv img u0 with
    | none => simp [hc] at h
    | some r0 =>
      simp only [hc, Option.some.injEq, Prod.mk.injEq] at h
      obtain ⟨hr, hev⟩ := h
      subst hr
      subst hev
      refine ⟨fun u1 hu => ConvertGrayToYUV_some yuv img u0 u1 (by rw [hc, hu]), rfl, rfl⟩
  | PB_RGB =>
    simp only [hfmt] at h
    cases hc : ConvertToYUV yuv img FourCC.FOURCC_RAW 3 u0 with
    | none => simp [hc] at h
    | some r0 =>
      simp only [hc, Option.some.injEq, Prod.mk.injEq] at h
      obtain ⟨hr, hev⟩ := h
      subst hr
      subst hev
      refine ⟨fun u1 hu => ConvertToYUV_some yuv img _ _ u0 u1 (by rw [hc, hu]), rfl, rfl⟩
  | PB_RGBA =>
    simp only [hfmt] at h
    cases hc : ConvertToYUV yuv img FourCC.FOURCC_RGBA 4 u0 with
    | none => simp [hc] at h
    | some r0 =>
      simp only [hc, Option.some.injEq, Prod.mk.injEq] at h
      obtain ⟨hr, hev⟩ := h
      subst hr
      subst hev
      refine ⟨fun u1 hu => ConvertToYUV_some yuv img _ _ u0 u1 (by rw [hc, hu]), rfl, rfl⟩
  | PB_OTHER_FORMAT tag =>
    simp only [hfmt, Option.some.injEq, Prod.mk.injEq] at h
    obtain ⟨hr, hev⟩ := h
    subst hr
    subst hev
    exact ⟨fun u1 hu => Option.noConfusion hu, rfl, rfl⟩

/-- The shape of the trace of processSample when it returns: allocations and a
conversion, then nothing (a skipped sample), or the unscaled frame when the
source size is the output size, or else a scale call followed by the scaled
frame when the scale succeeds. -/
theorem processSample_trace (yuv : Libyuv) (cap cap1 : VideoCapturer)
    (output_width output_height : Int) (tr : List Event)
    (h : VideoCapturer.processSample yuv cap output_width output_height = some (cap1, tr)) :
    ∃ pre, pre.filter Event.isOnFrame = [] ∧ pre.filter Event.isI420Scale = [] ∧
      (tr = pre ∨
       ((toInt32 cap.sample_.image.cols = output_width ∧
           toInt32 cap.sample_.image.rows = output_height) ∧
         ∃ u1, u1.width = output_width ∧ u1.height = output_height ∧
           cap1.unscaled_ = some u1 ∧
           tr = pre ++ [Event.OnFrame BufferSlot.unscaled u1 u1.width u1.height 0]) ∨
       (¬ (toInt32 cap.sample_.image.cols = output_width ∧
             toInt32 cap.sample_.image.rows = output_height) ∧
         tr = pre ++ [Event.I420Scale (toInt32 cap.sample_.image.cols)
                        (toInt32 cap.sample_.image.rows) output_width output_height
                        FilterMode.kFilterBox]) ∨
       (¬ (toInt32 cap.sample_.image.cols = output_width ∧
             toInt32 cap.sample_.image.rows = output_height) ∧
         ∃ s1, s1.width = output_width ∧ s1.height = output_height ∧
           cap1.scaled_ = some s1 ∧
           tr = pre ++ [Event.I420Scale (toInt32 cap.sample_.image.cols)
                          (toInt32 cap.sample_.image.rows) output_width output_height
                          FilterMode.kFilterBox,
                        Event.OnFrame BufferSlot.scaled s1 s1.width s1.height 0])) := by
  unfold VideoCapturer.processSample at h
  by_cases ht : cap.sample_.image.type ≠ PixelType.PB_UNSIGNED_BYTE
  · rw [if_pos ht] at h
    simp only [Option.some.injEq, Prod.mk.injEq] at h
    exact ⟨[], rfl, rfl, Or.inl h.2.symm⟩
  · rw [if_neg ht] at h
    obtain ⟨hu0w, hu0h⟩ := ensureBuffer_size BufferSlot.unscaled cap.unscaled_
      (toInt32 cap.sample_.image.cols) (toInt32 cap.sample_.image.rows)
    obtain ⟨hs0w, hs0h⟩ := ensureBuffer_size BufferSlot.scaled cap.scaled_
      output_width output_height
    have he1o := ensureBuffer_events Event.isOnFrame (fun _ _ _ _ _ _ => rfl)
      BufferSlot.unscaled cap.unscaled_ (toInt32 cap.sample_.image.cols)
      (toInt32 cap.sample_.image.rows)
    have he1s := ensureBuffer_events Event.isI420Scale (fun _ _ _ _ _ _ => rfl)
      BufferSlot.unscaled cap.unscaled_ (toInt32 cap.sample_.image.cols)
      (toInt32 cap.sample_.image.rows)
    have he2o := ensureBuffer_events Event.isOnFrame (fun _ _ _ _ _ _ => rfl)
      BufferSlot.scaled cap.scaled_ output_width output_height
    have he2s := ensureBuffer_events Event.isI420Scale (fun _ _ _ _ _ _ => rfl)
      BufferSlot.scaled cap.scaled_ output_width output_height
    rcases hb1 : VideoCapturer.ensureBuffer BufferSlot.unscaled cap.unscaled_
      (toInt32 cap.sample_.image.cols) (toInt32 cap.sample_.image.rows) with ⟨u0, ev1⟩
    rcases hb2 : VideoCapturer.ensureBuffer BufferSlot.scaled cap.scaled_
      output_width output_height with ⟨s0, ev2⟩
    rw [hb1] at hu0w hu0h he1o he1s
    rw [hb2] at hs0w hs0h he2o he2s
    simp only [hb1, hb2] at h
    simp only at hu0w hu0h he1o he1s hs0w hs0h he2o he2s
    cases hc : VideoCapturer.convert yuv cap.sample_.image u0 with
    | none => simp [hc] at h
    | some res =>
      obtain ⟨r, ev3⟩ := res
      obtain ⟨hsize, hc3o, hc3s⟩ := convert_spec yuv _ u0 r ev3 hc
      have hpo : (ev1 ++ ev2 ++ ev3).filter Event.isOnFrame = [] := by
        simp [List.filter_append, he1o, he2o, hc3o]
      have hps : (ev1 ++ ev2 ++ ev3).filter Event.isI420Scale = [] := by
        simp [List.filter_append, he1s, he2s, hc3s]
      refine ⟨ev1 ++ ev2 ++ ev3, hpo, hps, ?_⟩
      cases r with
      | none =>
        simp only [hc, Option.some.injEq, Prod.mk.injEq] at h
        exact Or.inl h.2.symm
      | some u1 =>
        obtain ⟨hu1w, hu1h⟩ := hsize u1 rfl
        simp only [hc] at h
        by_cases hd : toInt32 cap.sample_.image.cols ≠ output_width ∨
            toInt32 cap.sample_.image.rows ≠ output_height
        · have hne : ¬ (toInt32 cap.sample_.image.cols = output_width ∧
              toInt32 cap.sample_.image.rows = output_height) := by
            intro hh
            rcases hd with hd | hd
            · exact hd hh.1
            · exact hd hh.2
          rw [if_pos hd] at h
          cases hsc : yuv.I420Scale u1 s0 FilterMode.kFilterBox with
          | none =>
            simp only [hsc, Option.some.injEq, Prod.mk.injEq] at h
            refine Or.inr (Or.inr (Or.inl ⟨hne, ?_⟩))
            rw [← h.2, hu1w, hu1h, hu0w, hu0h, hs0w, hs0h]
          | some p =>
            simp only [hsc, Option.some.injEq, Prod.mk.injEq] at h
            refine Or.inr (Or.inr (Or.inr ⟨hne, s0.withPlanes p, hs0w, hs0h, ?_, ?_⟩))
            · rw [← h.1]
            · rw [← h.2, hu1w, hu1h, hu0w, hu0h, hs0w, hs0h]
        · rw [if_neg hd] at h
          simp only [Option.some.injEq, Prod.mk.injEq] at h
          simp only [not_or, not_not] at hd
          refine Or.inr (Or.inl ⟨hd, u1, ?_, ?_, ?_, ?_⟩)
          · rw [hu1w, hu0w, hd.1]
          · rw [hu1h, hu0h, hd.2]
          · rw [← h.1]
          · rw [← h.2]

theorem Session_NextFrame_events (p : Event → Bool)
    (h1 : ∀ i, p (Event.SocketDestroy i) = false) (h2 : ∀ i t, p (Event.Receive i t) = false)
    (s s1 : Session) (recv : Socket → Option CameraSample) (ev : List Event)
    (r : Option (CameraSample × Int × Int))
    (h : s.NextFrame recv = some (s1, ev, r)) : ev.filter p = [] := by
  unfold Session.NextFrame at h
  have hpro : (s.promote).2.filter p = [] := by
    unfold Session.promote
    cases s.m_next_frame_socket with
    | none => rfl
    | some next =>
      cases hf : s.m_frame_socket <;> simp [Session.dropSocket, List.filter, h1, hf]
  rcases hp : s.promote with ⟨s0, ev0⟩
  rw [hp] at hpro h
  simp only at hpro h
  cases hs : s0.m_frame_socket with
  | none => simp [hs] at h
  | some sock =>
    simp only [hs] at h
    cases hr : recv sock with
    | none =>
      simp only [hr, Option.some.injEq, Prod.mk.injEq] at h
      rw [← h.2.1]
      simp [List.filter_append, hpro, List.filter, h2]
    | some sample =>
      simp only [hr, Option.some.injEq, Prod.mk.injEq] at h
      rw [← h.2.1]
      simp [List.filter_append, hpro, List.filter, h2]

theorem convert_none_iff (yuv : Libyuv) (img : Image) (u0 : I420Buffer) :
    VideoCapturer.convert yuv img u0 = none ↔
      ∃ depth, bytesPerPixel img.format = some depth ∧
        (img.cols = 0 ∨ img.rows = 0 ∨
          img.data.length ≠ (img.cols * img.rows * depth) % 2 ^ 32) := by
  have e : (2 : Nat) ^ 32 = 4294967296 := by norm_num
  unfold VideoCapturer.convert
  cases hfmt : img.format with
  | PB_LUMINANCE =>
    simp only [bytesPerPixel, Option.some.injEq, exists_eq_left', ConvertGrayToYUV, e,
      Nat.mul_one]
    by_cases h1 : img.cols > 0
    · by_cases h2 : img.rows > 0
      · by_cases h3 : img.data.length = (img.cols * img.rows) % 4294967296
        · cases hy : yuv.I400ToI420 img.data img.cols u0 img.cols img.rows <;>
            simp [h1, h2, ← h3, hy, Nat.pos_iff_ne_zero.mp h1, Nat.pos_iff_ne_zero.mp h2]
        · simp [h1, h2, h3]
      · have : img.rows = 0 := by omega
        simp [h1, h2, this]
    · have : img.cols = 0 := by omega
      simp [h1, this]
  | PB_RGB =>
    have hmod : ((img.cols * img.rows) % 4294967296 * 3) % 4294967296 =
        (img.cols * img.rows * 3) % 4294967296 := by omega
    simp only [bytesPerPixel, Option.some.injEq, exists_eq_left', ConvertToYUV, e, hmod]
    by_cases h1 : img.cols > 0
    · by_cases h2 : img.rows > 0
      · by_cases h3 : img.data.length = (img.cols * img.rows * 3) % 4294967296
        · cases hy : yuv.ConvertToI420 img.data u0 img.cols img.rows FourCC.FOURCC_RAW <;>
            simp [h1, h2, ← h3, hy, Nat.pos_iff_ne_zero.mp h1, Nat.pos_iff_ne_zero.mp h2]
        · simp [h1, h2, h3]
      · have : img.rows = 0 := by omega
        simp [h1, h2, this]
    · have : img.cols = 0 := by omega
      simp [h1, this]
  | PB_RGBA =>
    have hmod : ((img.cols * img.rows) % 4294967296 * 4) % 4294967296 =
        (img.cols * img.rows * 4) % 4294967296 := by omega
    simp only [bytesPerPixel, Option.some.injEq, exists_eq_left', ConvertToYUV, e, hmod]
    by_cases h1 : img.cols > 0
    · by_cases h2 : img.rows > 0
      · by_cases h3 : img.data.length = (img.cols * img.rows * 4) % 4294967296
        · cases hy : yuv.ConvertToI420 img.data u0 img.cols img.rows FourCC.FOURCC_RGBA <;>
            simp [h1, h2, ← h3, hy, Nat.pos_iff_ne_zero.mp h1, Nat.pos_iff_ne_zero.mp h2]
        · simp [h1, h2, h3]
      · have : img.rows = 0 := by omega
        simp [h1, h2, this]
    · have : img.cols = 0 := by omega
      simp [h1, this]
  | PB_OTHER_FORMAT tag =>
    simp [bytesPerPixel]

theorem processSample_none_iff (yuv : Libyuv) (cap : VideoCapturer)
    (output_width output_height : Int) :
    VideoCapturer.processSample yuv cap output_width output_height = none ↔
      cap.sample_.image.type = PixelType.PB_UNSIGNED_BYTE ∧
      ∃ depth, bytesPerPixel cap.sample_.image.format = some depth ∧
        (cap.sample_.image.cols = 0 ∨ cap.sample_.image.rows = 0 ∨
          cap.sample_.image.data.length ≠
            (cap.sample_.image.cols * cap.sample_.image.rows * depth) % 2 ^ 32) := by
  rw [← convert_none_iff yuv cap.sample_.image
    (VideoCapturer.ensureBuffer BufferSlot.unscaled cap.unscaled_
      (toInt32 cap.sample_.image.cols) (toInt32 cap.sample_.image.rows)).1]
  unfold VideoCapturer.processSample
  by_cases ht : cap.sample_.image.type ≠ PixelType.PB_UNSIGNED_BYTE
  · rw [if_pos ht]
    constructor
    · intro h
      exact Option.noConfusion h
    · intro h
      exact absurd h.1 ht
  · rw [if_neg ht]
    simp only [not_not] at ht
    rcases hb1 : VideoCapturer.ensureBuffer BufferSlot.unscaled cap.unscaled_
      (toInt32 cap.sample_.image.cols) (toInt32 cap.sample_.image.rows) with ⟨u0, ev1⟩
    rcases hb2 : VideoCapturer.ensureBuffer BufferSlot.scaled cap.scaled_
      output_width output_height with ⟨s0, ev2⟩
    simp only [hb1, hb2, ht, true_and]
    cases hc : VideoCapturer.convert yuv cap.sample_.image u0 with
    | none => simp [hc]
    | some res =>
      obtain ⟨r, ev3⟩ := res
      cases r with
      | none => simp [hc]
      | some u1 =>
        simp only [hc]
        split
        · split <;> simp
        · simp

/-- Claim C10, at the counterexample.  Session::NextFrame delivers a luminance
sample of unsigned bytes with zero columns; VideoCapturer::NextFrame does not
return: the CHECK_GT on cols in ConvertGrayToYUV aborts the process. -/
theorem C10_zero_cols_sample_aborts :
    Examples.connected.NextFrame Examples.recvEmpty =
      some (Examples.promoted, [Event.Receive 0 100], some (Examples.emptySample, 2, 2)) ∧
    VideoCapturer.NextFrame Examples.libyuv VideoCapturer.new Examples.connected
      Examples.recvEmpty = none := by
  constructor <;> decide

/-- For a sample that Session::NextFrame delivers, VideoCapturer::NextFrame
does not return exactly when the sample is of unsigned-byte type, its format is
luminance, RGB or RGBA, and a CHECK of ConvertGrayToYUV or ConvertToYUV fails:
cols is zero, or rows is zero, or the data length differs from the product the
CHECK computes in 32 bits.  When it returns it has handed at most one frame to
OnFrame. -/
theorem NextFrame_none_iff_check (yuv : Libyuv) (cap : VideoCapturer)
    (session session1 : Session) (recv : Socket → Option CameraSample) (ev0 : List Event)
    (sample : CameraSample) (output_width output_height : Int)
    (hrecv : session.NextFrame recv = some (session1, ev0, some (sample, output_width, output_height))) :
    (VideoCapturer.NextFrame yuv cap session recv = none ↔
      sample.image.type = PixelType.PB_UNSIGNED_BYTE ∧
      ∃ depth, bytesPerPixel sample.image.format = some depth ∧
        (sample.image.cols = 0 ∨ sample.image.rows = 0 ∨
          sample.image.data.length ≠ (sample.image.cols * sample.image.rows * depth) % 2 ^ 32)) ∧
    (∀ cap1 session2 tr,
      VideoCapturer.NextFrame yuv cap session recv = some (cap1, session2, tr) →
      (tr.filter Event.isOnFrame).length ≤ 1) := by
  have h0o := Session_NextFrame_events Event.isOnFrame (fun _ => rfl) (fun _ _ => rfl)
    session session1 recv ev0 _ hrecv
  have hnone := processSample_none_iff yuv { cap with sample_ := sample }
    output_width output_height
  simp only at hnone
  unfold VideoCapturer.NextFrame
  rw [hrecv]
  simp only
  cases hp : VideoCapturer.processSample yuv { cap with sample_ := sample }
      output_width output_height with
  | none =>
    refine ⟨?_, ?_⟩
    · simp only [true_iff]
      exact hnone.mp hp
    · intro _ _ _ h
      exact Option.noConfusion h
  | some res =>
    obtain ⟨cap2, ev⟩ := res
    refine ⟨?_, ?_⟩
    · constructor
      · intro h
        exact Option.noConfusion h
      · intro h
        have := hnone.mpr h
        rw [hp] at this
        exact Option.noConfusion this
    · intro cap1 session2 tr h
      simp only [Option.some.injEq, Prod.mk.injEq] at h
      obtain ⟨_, _, htr⟩ := h
      subst htr
      obtain ⟨pre, hpo, _, hshape⟩ := processSample_trace yuv _ cap2 _ _ ev hp
      rcases hshape with hs | ⟨_, u1, _, _, _, hs⟩ | ⟨_, hs⟩ | ⟨_, s1, _, _, _, hs⟩ <;>
        simp [hs, List.filter_append, h0o, hpo, List.filter, Event.isOnFrame]

/-- Claim C19.  Start on a capturer whose capture state is running returns the
running state, makes no call (no thread is spawned) and leaves the capturer,
its format and state included, as it was.  Stop on a capturer whose capture
state is stopped makes no call (no thread is joined) and leaves the capturer
as it was. -/
theorem C19_start_stop_no_ops (running stopped : VideoCapturer) (format : VideoFormat)
    (hrun : running.capture_state_ = CaptureState.CS_RUNNING)
    (hstop : stopped.capture_state_ = CaptureState.CS_STOPPED) :
    running.Start format = some (running, [], CaptureState.CS_RUNNING) ∧
    stopped.Stop = some (stopped, []) := by
  constructor
  · simp [VideoCapturer.Start, hrun]
  · simp [VideoCapturer.Stop, hstop]

/-- Witness of C19: a running capturer is started, a new capturer is stopped. -/
theorem C19_start_stop_no_ops_witness :
    Examples.runningCapturer.capture_state_ = CaptureState.CS_RUNNING ∧
    VideoCapturer.new.capture_state_ = CaptureState.CS_STOPPED ∧
    Examples.runningCapturer.Start Examples.format640
      = some (Examples.runningCapturer, [], CaptureState.CS_RUNNING) ∧
    VideoCapturer.new.Stop = some (VideoCapturer.new, []) :=
  ⟨rfl, rfl, C19_start_stop_no_ops Examples.runningCapturer VideoCapturer.new
              Examples.format640 rfl rfl⟩

/-- Claim C20, at the counterexample.  Start on a new, stopped capturer spawns
the thread and returns the running state, but IsRunning() is false afterwards,
and a following Stop joins no thread: the thread is still joinable. -/
theorem C20_not_running_after_start :
    VideoCapturer.new.Start Examples.format640
      = some (Examples.startedCapturer, [Event.ThreadSpawn], CaptureState.CS_RUNNING) ∧
    Examples.startedCapturer.IsRunning = false ∧
    Examples.startedCapturer.thread_ = true ∧
    Examples.startedCapturer.Stop = some (Examples.startedCapturer, []) := by
  decide

/-- Claim C20 as amended.  IsRunning returns true exactly when the capture state
kept by the base class is running.  On a stopped capturer without thread,
Start spawns the thread, sets the loop signal and returns the running state
without recording it: IsRunning() is false and a Stop then does nothing.  Once
the returned state is recorded with SetCaptureState, IsRunning() is true, and a
following Stop clears the loop signal, joins the thread and leaves IsRunning()
false. -/
theorem C20_running_once_state_recorded (cap : VideoCapturer) (format : VideoFormat)
    (hstop : cap.capture_state_ = CaptureState.CS_STOPPED) (hthread : cap.thread_ = false) :
    (∀ c : VideoCapturer, c.IsRunning = true ↔ c.capture_state_ = CaptureState.CS_RUNNING) ∧
    ∃ cap1, cap.Start format = some (cap1, [Event.ThreadSpawn], CaptureState.CS_RUNNING) ∧
      cap1.thread_ = true ∧ cap1.should_continue_ = true ∧
      cap1.IsRunning = false ∧
      cap1.Stop = some (cap1, []) ∧
      (cap1.SetCaptureState CaptureState.CS_RUNNING).IsRunning = true ∧
      ∃ cap2, (cap1.SetCaptureState CaptureState.CS_RUNNING).Stop
          = some (cap2, [Event.ThreadJoin]) ∧
        cap2.should_continue_ = false ∧ cap2.thread_ = false ∧ cap2.IsRunning = false := by
  constructor
  · intro c
    simp [VideoCapturer.IsRunning]
  · refine ⟨_, by
      simp [VideoCapturer.Start, hstop, hthread, VideoCapturer.SetCaptureFormat]
      rfl, ?_⟩
    refine ⟨rfl, rfl, ?_, ?_, ?_, ?_⟩
    · simp [VideoCapturer.IsRunning, hstop]
    · simp [VideoCapturer.Stop, hstop]
    · simp [VideoCapturer.IsRunning, VideoCapturer.SetCaptureState]
    · refine ⟨_, by
        simp [VideoCapturer.Stop, VideoCapturer.SetCaptureState, VideoCapturer.SetCaptureFormat]
        rfl, rfl, rfl, ?_⟩
      simp [VideoCapturer.IsRunning, VideoCapturer.SetCaptureState]

/-- Witness of C20 as amended: a new capturer is started, its state recorded,
and it is stopped. -/
theorem C20_running_once_state_recorded_witness :
    VideoCapturer.new.capture_state_ = CaptureState.CS_STOPPED ∧
    VideoCapturer.new.thread_ = false ∧
    ∃ cap1, VideoCapturer.new.Start Examples.format640
        = some (cap1, [Event.ThreadSpawn], CaptureState.CS_RUNNING) ∧
      cap1.IsRunning = false ∧
      (cap1.SetCaptureState CaptureState.CS_RUNNING).IsRunning = true ∧
      ∃ cap2, (cap1.SetCaptureState CaptureState.CS_RUNNING).Stop
          = some (cap2, [Event.ThreadJoin]) ∧ cap2.IsRunning = false := by
  obtain ⟨_, cap1, hstart, _, _, hnot, _, hrun, cap2, hstopped, _, _, hoff⟩ :=
    C20_running_once_state_recorded VideoCapturer.new Examples.format640 rfl rfl
  exact ⟨rfl, rfl, cap1, hstart, hnot, hrun, cap2, hstopped, hoff⟩

theorem writeRows_solid (dst : List Nat) (dst_stride width height n v : Nat)
    (pixel : Nat → Nat → Nat) (hlen : dst.length = n)
    (hcover : ∀ i, i < n → i / dst_stride < height ∧ i % dst_stride < width)
    (hpixel : ∀ i, i < n → pixel (i / dst_stride) (i % dst_stride) = v) :
    writeRows dst dst_stride width height pixel = List.replicate n v := by
  rw [List.eq_replicate_iff]
  constructor
  · simp [writeRows, hlen]
  · intro b hb
    simp only [writeRows, List.mem_map, List.mem_range] at hb
    obtain ⟨i, hi, hb⟩ := hb
    rw [hlen] at hi
    rw [if_pos (hcover i hi)] at hb
    rw [← hb]
    exact hpixel i hi

theorem SetPlane_full (dst : List Nat) (width height value : Nat) (hw : 0 < width)
    (hlen : dst.length = width * height) :
    LibyuvSpec.SetPlane dst width width height value = List.replicate (width * height) value := by
  unfold LibyuvSpec.SetPlane
  apply writeRows_solid _ _ _ _ _ _ _ hlen
  · intro i hi
    exact ⟨Nat.div_lt_of_lt_mul hi, Nat.mod_lt _ hw⟩
  · intro i _
    rfl

theorem CopyPlane_solid (dst : List Nat) (width height v : Nat) (hw : 0 < width)
    (hlen : dst.length = width * height) :
    LibyuvSpec.CopyPlane (List.replicate (width * height) v) width dst width width height
      = List.replicate (width * height) v := by
  unfold LibyuvSpec.CopyPlane
  apply writeRows_solid _ _ _ _ _ _ _ hlen
  · intro i hi
    exact ⟨Nat.div_lt_of_lt_mul hi, Nat.mod_lt _ hw⟩
  · intro i hi
    rw [Nat.div_add_mod' i width, List.getD_eq_getElem?_getD, List.getElem?_replicate,
      if_pos hi]
    rfl

/-- The buffer NextFrame converts into is laid out as allocated, with the
wanted size, when the buffer kept from earlier frames is. -/
theorem ensureBuffer_allocated (slot : BufferSlot) (buf : Option I420Buffer)
    (width height : Int) (hbuf : ∀ b, buf = some b → b.Allocated) :
    (VideoCapturer.ensureBuffer slot buf width height).1.Allocated := by
  unfold VideoCapturer.ensureBuffer
  have hfresh : (I420Buffer.Create width height width (Int.tdiv (wrapInt32 (width + 1)) 2)
      (Int.tdiv (wrapInt32 (width + 1)) 2)).Allocated := by
    simp [I420Buffer.Allocated, I420Buffer.Create]
  cases buf with
  | none => exact hfresh
  | some b =>
    by_cases h : width ≠ b.width ∨ height ≠ b.height
    · simp only [h, if_true]
      exact hfresh
    · simp only [h, if_false]
      exact hbuf b rfl

theorem wrapInt32_succ_small (w : Nat) (hw : w + 1 < 2147483648) :
    wrapInt32 ((w : Int) + 1) = (w : Int) + 1 := by
  unfold wrapInt32
  omega

theorem tdiv_succ_half (n : Nat) : Int.tdiv ((n : Int) + 1) 2 = (((n + 1) / 2 : Nat) : Int) := by
  rw [Int.tdiv_eq_ediv (by omega) (by omega)]
  omega

theorem toNat_cast_mul (a b : Nat) : ((a : Int) * (b : Int)).toNat = a * b := by
  rw [← Nat.cast_mul, Int.toNat_natCast]

/-- The plane sizes of an allocated buffer of width w and height h. -/
theorem Allocated_sizes (b : I420Buffer) (w h : Nat) (hb : b.Allocated)
    (hbw : b.width = (w : Int)) (hbh : b.height = (h : Int)) (hw : w + 1 < 2147483648) :
    b.stride_y.toNat = w ∧ b.stride_u.toNat = (w + 1) / 2 ∧ b.stride_v.toNat = (w + 1) / 2 ∧
    b.data_y.length = w * h ∧
    b.data_u.length = (w + 1) / 2 * ((h + 1) / 2) ∧
    b.data_v.length = (w + 1) / 2 * ((h + 1) / 2) := by
  have hwrap := wrapInt32_succ_small w hw
  have hhalf := tdiv_succ_half w
  have hhalfh := tdiv_succ_half h
  obtain ⟨h1, h2, h3, h4, h5, h6⟩ := hb
  rw [hbw, hwrap, hhalf] at h2 h3
  rw [h1, hbw, hbh] at h4
  rw [h2, hbh, hhalfh] at h5
  rw [h3, hbh, hhalfh] at h6
  rw [h1, hbw, h2, h3]
  exact ⟨Int.toNat_natCast _, Int.toNat_natCast _, Int.toNat_natCast _,
    h4.trans (toNat_cast_mul _ _), h5.trans (toNat_cast_mul _ _),
    h6.trans (toNat_cast_mul _ _)⟩

theorem toInt32_small (n : Nat) (h : n < 2147483648) : toInt32 n = (n : Int) := by
  unfold toInt32
  have h1 : n % 2 ^ 32 = n := Nat.mod_eq_of_lt (by omega)
  rw [h1]
  simp
  omega

/-- The gray conversion of a solid image into an allocated buffer of its size:
luma solid, chroma 128. -/
theorem I400ToI420_solid (u0 : I420Buffer) (v w h : Nat) (hw : 0 < w) (hh : 0 < h)
    (hsize : w + 1 < 2147483648) (hu0 : u0.Allocated)
    (hu0w : u0.width = (w : Int)) (hu0h : u0.height = (h : Int)) :
    LibyuvSpec.I400ToI420 (List.replicate (w * h) v) w u0 w h =
      some (List.replicate (w * h) v,
            List.replicate ((w + 1) / 2 * ((h + 1) / 2)) 128,
            List.replicate ((w + 1) / 2 * ((h + 1) / 2)) 128) := by
  obtain ⟨s1, s2, s3, l1, l2, l3⟩ := Allocated_sizes u0 w h hu0 hu0w hu0h hsize
  have hhalf : 0 < (w + 1) / 2 := by omega
  unfold LibyuvSpec.I400ToI420
  rw [if_neg (by omega)]
  simp only [s1, s2, s3]
  rw [CopyPlane_solid _ _ _ _ hw l1, SetPlane_full _ _ _ _ hhalf l2,
    SetPlane_full _ _ _ _ hhalf l3]

theorem convert_gray_solid (yuv : Libyuv) (img : Image) (u0 : I420Buffer) (v w h : Nat)
    (hyuv : yuv.I400ToI420 = LibyuvSpec.I400ToI420)
    (hformat : img.format = Format.PB_LUMINANCE)
    (hcols : img.cols = w) (hrows : img.rows = h)
    (hdata : img.data = List.replicate (w * h) v)
    (hw : 0 < w) (hh : 0 < h) (hsize : w * h < 2147483647) (hu0 : u0.Allocated)
    (hu0w : u0.width = (w : Int)) (hu0h : u0.height = (h : Int)) :
    VideoCapturer.convert yuv img u0 =
      some (some (u0.withPlanes
              (List.replicate (w * h) v,
               List.replicate ((w + 1) / 2 * ((h + 1) / 2)) 128,
               List.replicate ((w + 1) / 2 * ((h + 1) / 2)) 128)),
            [Event.I400ToI420 w h]) := by
  have hwle : w ≤ w * h := Nat.le_mul_of_pos_right w hh
  have hmod : (w * h) % 2 ^ 32 = w * h := Nat.mod_eq_of_lt (by omega)
  have hlen : (List.replicate (w * h) v).length = (w * h) % 2 ^ 32 := by
    rw [hmod, List.length_replicate]
  unfold VideoCapturer.convert
  rw [hformat]
  simp only
  unfold ConvertGrayToYUV
  rw [hcols, hrows, hdata, hyuv]
  rw [if_neg (by omega), if_neg (by omega), if_neg (not_not.mpr hlen),
    I400ToI420_solid u0 v w h hw hh (by omega) hu0 hu0w hu0h]

/-- When the conversion succeeds, processSample returns with the converted
buffer as the unscaled buffer, whether or not a scale follows and succeeds. -/
theorem processSample_unscaled (yuv : Libyuv) (cap : VideoCapturer)
    (output_width output_height : Int) (u1 : I420Buffer) (ev3 : List Event)
    (htype : cap.sample_.image.type = PixelType.PB_UNSIGNED_BYTE)
    (hconv : VideoCapturer.convert yuv cap.sample_.image
      (VideoCapturer.ensureBuffer BufferSlot.unscaled cap.unscaled_
        (toInt32 cap.sample_.image.cols) (toInt32 cap.sample_.image.rows)).1
      = some (some u1, ev3)) :
    ∃ cap1 tr, VideoCapturer.processSample yuv cap output_width output_height
        = some (cap1, tr) ∧ cap1.unscaled_ = some u1 := by
  unfold VideoCapturer.processSample
  rw [if_neg (by simp [htype])]
  rcases hb1 : VideoCapturer.ensureBuffer BufferSlot.unscaled cap.unscaled_
    (toInt32 cap.sample_.image.cols) (toInt32 cap.sample_.image.rows) with ⟨u0, ev1⟩
  rcases hb2 : VideoCapturer.ensureBuffer BufferSlot.scaled cap.scaled_
    output_width output_height with ⟨s0, ev2⟩
  rw [hb1] at hconv
  simp only at hconv
  simp only [hb1, hb2, hconv]
  split
  · split
    · exact ⟨_, _, rfl, rfl⟩
    · exact ⟨_, _, rfl, rfl⟩
  · exact ⟨_, _, rfl, rfl⟩

/-- Claim C11.  Let the gray conversion of libyuv be as the specification
describes it, and let the unscaled buffer kept by the capturer, if any, be laid
out as NextFrame allocates it.  For every value v and every width w and height
h greater than zero (with w x h below 2^31 - 1, the largest byte string a
sample can carry), a luminance sample of unsigned bytes of w columns and h rows
whose pixels all equal v makes NextFrame return with an unscaled buffer of
width w and height h whose luma plane is v everywhere and whose two chroma
planes are 128 everywhere. -/
theorem C11_solid_gray_conversion (yuv : Libyuv) (cap : VideoCapturer)
    (session session1 : Session) (recv : Socket → Option CameraSample) (ev0 : List Event)
    (sample : CameraSample) (output_width output_height : Int) (v w h : Nat)
    (hyuv : yuv.I400ToI420 = LibyuvSpec.I400ToI420)
    (hcap : ∀ b, cap.unscaled_ = some b → b.Allocated)
    (hrecv : session.NextFrame recv
      = some (session1, ev0, some (sample, output_width, output_height)))
    (htype : sample.image.type = PixelType.PB_UNSIGNED_BYTE)
    (hformat : sample.image.format = Format.PB_LUMINANCE)
    (hcols : sample.image.cols = w) (hrows : sample.image.rows = h)
    (hdata : sample.image.data = List.replicate (w * h) v)
    (hw : 0 < w) (hh : 0 < h) (hsize : w * h < 2147483647) :
    ∃ cap1 session2 tr b,
      VideoCapturer.NextFrame yuv cap session recv = some (cap1, session2, tr) ∧
      cap1.unscaled_ = some b ∧
      b.width = (w : Int) ∧ b.height = (h : Int) ∧
      b.data_y = List.replicate (w * h) v ∧
      b.data_u = List.replicate ((w + 1) / 2 * ((h + 1) / 2)) 128 ∧
      b.data_v = List.replicate ((w + 1) / 2 * ((h + 1) / 2)) 128 := by
  have hwle : w ≤ w * h := Nat.le_mul_of_pos_right w hh
  have hhle : h ≤ w * h := Nat.le_mul_of_pos_left h hw
  have hsw : toInt32 w = (w : Int) := toInt32_small w (by omega)
  have hsh : toInt32 h = (h : Int) := toInt32_small h (by omega)
  obtain ⟨hu0w, hu0h⟩ := ensureBuffer_size BufferSlot.unscaled cap.unscaled_ (w : Int) (h : Int)
  have hu0 := ensureBuffer_allocated BufferSlot.unscaled cap.unscaled_ (w : Int) (h : Int) hcap
  have hconv := convert_gray_solid yuv sample.image
    (VideoCapturer.ensureBuffer BufferSlot.unscaled cap.unscaled_ (w : Int) (h : Int)).1
    v w h hyuv hformat hcols hrows hdata hw hh hsize hu0 hu0w hu0h
  have hconv0 : VideoCapturer.convert yuv
      ({ cap with sample_ := sample } : VideoCapturer).sample_.image
      (VideoCapturer.ensureBuffer BufferSlot.unscaled
        ({ cap with sample_ := sample } : VideoCapturer).unscaled_
        (toInt32 ({ cap with sample_ := sample } : VideoCapturer).sample_.image.cols)
        (toInt32 ({ cap with sample_ := sample } : VideoCapturer).sample_.image.rows)).1
      = some (some ((VideoCapturer.ensureBuffer BufferSlot.unscaled cap.unscaled_
                      (w : Int) (h : Int)).1.withPlanes
                (List.replicate (w * h) v,
                 List.replicate ((w + 1) / 2 * ((h + 1) / 2)) 128,
                 List.replicate ((w + 1) / 2 * ((h + 1) / 2)) 128)),
              [Event.I400ToI420 w h]) := by
    show VideoCapturer.convert yuv sample.image
      (VideoCapturer.ensureBuffer BufferSlot.unscaled cap.unscaled_
        (toInt32 sample.image.cols) (toInt32 sample.image.rows)).1 = _
    rw [hcols, hrows, hsw, hsh]
    exact hconv
  obtain ⟨cap1, tr, hproc, hun⟩ := processSample_unscaled yuv { cap with sample_ := sample }
    output_width output_height _ _ htype hconv0
  refine ⟨cap1, session1, ev0 ++ tr, _, ?_, hun, ?_, ?_, rfl, rfl, rfl⟩
  · unfold VideoCapturer.NextFrame
    rw [hrecv]
    simp only
    rw [hproc]
  · exact hu0w
  · exact hu0h

/-- Witness of C11: a 3 x 2 sample of solid value 7 on a new capturer. -/
theorem C11_solid_gray_conversion_witness :
    ∃ cap1 session2 tr b,
      VideoCapturer.NextFrame Examples.libyuvGray VideoCapturer.new Examples.connected
        Examples.recvSolid = some (cap1, session2, tr) ∧
      cap1.unscaled_ = some b ∧
      b.width = 3 ∧ b.height = 2 ∧
      b.data_y = [7, 7, 7, 7, 7, 7] ∧ b.data_u = [128, 128] ∧ b.data_v = [128, 128] := by
  have hrecv : Examples.connected.NextFrame Examples.recvSolid =
      some (Examples.promoted, [Event.Receive 0 100], some (Examples.solidSample, 2, 2)) := by
    decide
  obtain ⟨cap1, session2, tr, b, hnext, hun, hbw, hbh, hy, hu, hv⟩ :=
    C11_solid_gray_conversion Examples.libyuvGray VideoCapturer.new Examples.connected
      Examples.promoted Examples.recvSolid [Event.Receive 0 100] Examples.solidSample 2 2
      7 3 2 rfl (fun b hb => by simp [VideoCapturer.new] at hb) hrecv rfl rfl rfl rfl rfl
      (by decide) (by decide) (by decide)
  exact ⟨cap1, session2, tr, b, hnext, hun, hbw, hbh, hy, hu, hv⟩

/-- A sample whose type is not unsigned byte, or whose format is not luminance,
RGB or RGBA, is skipped: processSample returns without a conversion and without
a frame. -/
theorem processSample_skipped (yuv : Libyuv) (cap : VideoCapturer)
    (output_width output_height : Int)
    (h : cap.sample_.image.type ≠ PixelType.PB_UNSIGNED_BYTE ∨
      bytesPerPixel cap.sample_.image.format = none) :
    ∃ cap1 tr, VideoCapturer.processSample yuv cap output_width output_height = some (cap1, tr) ∧
      tr.filter Event.isOnFrame = [] ∧ tr.filter Event.isConversion = [] ∧
      tr.filter Event.isI420Scale = [] := by
  unfold VideoCapturer.processSample
  by_cases ht : cap.sample_.image.type ≠ PixelType.PB_UNSIGNED_BYTE
  · rw [if_pos ht]
    exact ⟨_, _, rfl, rfl, rfl, rfl⟩
  · rw [if_neg ht]
    have hfmt : bytesPerPixel cap.sample_.image.format = none := by
      rcases h with h | h
      · exact absurd h ht
      · exact h
    have he1o := ensureBuffer_events Event.isOnFrame (fun _ _ _ _ _ _ => rfl)
      BufferSlot.unscaled cap.unscaled_ (toInt32 cap.sample_.image.cols)
      (toInt32 cap.sample_.image.rows)
    have he1c := ensureBuffer_events Event.isConversion (fun _ _ _ _ _ _ => rfl)
      BufferSlot.unscaled cap.unscaled_ (toInt32 cap.sample_.image.cols)
      (toInt32 cap.sample_.image.rows)
    have he1s := ensureBuffer_events Event.isI420Scale (fun _ _ _ _ _ _ => rfl)
      BufferSlot.unscaled cap.unscaled_ (toInt32 cap.sample_.image.cols)
      (toInt32 cap.sample_.image.rows)
    have he2o := ensureBuffer_events Event.isOnFrame (fun _ _ _ _ _ _ => rfl)
      BufferSlot.scaled cap.scaled_ output_width output_height
    have he2c := ensureBuffer_events Event.isConversion (fun _ _ _ _ _ _ => rfl)
      BufferSlot.scaled cap.scaled_ output_width output_height
    have he2s := ensureBuffer_events Event.isI420Scale (fun _ _ _ _ _ _ => rfl)
      BufferSlot.scaled cap.scaled_ output_width output_height
    rcases hb1 : VideoCapturer.ensureBuffer BufferSlot.unscaled cap.unscaled_
      (toInt32 cap.sample_.image.cols) (toInt32 cap.sample_.image.rows) with ⟨u0, ev1⟩
    rcases hb2 : VideoCapturer.ensureBuffer BufferSlot.scaled cap.scaled_
      output_width output_height with ⟨s0, ev2⟩
    rw [hb1] at he1o he1c he1s
    rw [hb2] at he2o he2c he2s
    simp only at he1o he1c he1s he2o he2c he2s
    have hc : VideoCapturer.convert yuv cap.sample_.image u0 = some (none, []) := by
      unfold VideoCapturer.convert
      cases hf : cap.sample_.image.format with
      | PB_OTHER_FORMAT tag => rfl
      | PB_LUMINANCE => rw [hf] at hfmt; exact Option.noConfusion hfmt
      | PB_RGB => rw [hf] at hfmt; exact Option.noConfusion hfmt
      | PB_RGBA => rw [hf] at hfmt; exact Option.noConfusion hfmt
    simp only [hb1, hb2, hc]
    refine ⟨_, _, rfl, ?_, ?_, ?_⟩
    · simp [List.filter_append, he1o, he2o]
    · simp [List.filter_append, he1c, he2c]
    · simp [List.filter_append, he1s, he2s]

theorem conversionAt_filter (cols rows depth : Nat) (fmt : Format)
    (hfmt : bytesPerPixel fmt = some depth) :
    (conversionAt cols rows depth).filter Event.isConversion = conversionAt cols rows depth := by
  cases fmt <;> simp only [bytesPerPixel, Option.some.injEq] at hfmt <;>
    first
    | (subst hfmt; rfl)
    | exact Option.noConfusion hfmt

/-- Claim C28, counterexample.  A 3 x 2 sample on a session whose output size is
2 x 2 is rescaled, and the filter requested of libyuv::I420Scale is kFilterBox,
which is not the bilinear filter. -/
theorem C28_rescale_requests_box_filter :
    (VideoCapturer.NextFrame Examples.libyuv VideoCapturer.new Examples.connected
      Examples.recvSolid).map (fun r => r.2.2.filter Event.isI420Scale)
      = some [Event.I420Scale 3 2 2 2 FilterMode.kFilterBox] ∧
    FilterMode.kFilterBox ≠ FilterMode.kFilterBilinear := by
  constructor <;> decide

/-- Claim C28, amended.  When VideoCapturer::NextFrame returns on a delivered
sample, every rescale in its trace is a call of libyuv::I420Scale from the
source size to the output size with the filter kFilterBox; there is at most
one, and none when the source size is the output size; and when the sizes
differ and a frame is handed to OnFrame, there is exactly one. -/
theorem C28_rescale_uses_box_filter (yuv : Libyuv) (cap cap1 : VideoCapturer)
    (session session1 session2 : Session) (recv : Socket → Option CameraSample)
    (ev0 tr : List Event) (sample : CameraSample) (output_width output_height : Int)
    (hrecv : session.NextFrame recv =
      some (session1, ev0, some (sample, output_width, output_height)))
    (hnext : VideoCapturer.NextFrame yuv cap session recv = some (cap1, session2, tr)) :
    (tr.filter Event.isI420Scale = [] ∨
      (¬ (toInt32 sample.image.cols = output_width ∧ toInt32 sample.image.rows = output_height) ∧
        tr.filter Event.isI420Scale =
          [Event.I420Scale (toInt32 sample.image.cols) (toInt32 sample.image.rows)
            output_width output_height FilterMode.kFilterBox])) ∧
    (¬ (toInt32 sample.image.cols = output_width ∧ toInt32 sample.image.rows = output_height) →
      tr.filter Event.isOnFrame ≠ [] →
      tr.filter Event.isI420Scale =
        [Event.I420Scale (toInt32 sample.image.cols) (toInt32 sample.image.rows)
          output_width output_height FilterMode.kFilterBox]) := by
  have h0o := Session_NextFrame_events Event.isOnFrame (fun _ => rfl) (fun _ _ => rfl)
    session session1 recv ev0 _ hrecv
  have h0s := Session_NextFrame_events Event.isI420Scale (fun _ => rfl) (fun _ _ => rfl)
    session session1 recv ev0 _ hrecv
  unfold VideoCapturer.NextFrame at hnext
  rw [hrecv] at hnext
  simp only at hnext
  cases hp : VideoCapturer.processSample yuv { cap with sample_ := sample }
      output_width output_height with
  | none => simp [hp] at hnext
  | some res =>
    obtain ⟨cap2, ev⟩ := res
    simp only [hp, Option.some.injEq, Prod.mk.injEq] at hnext
    obtain ⟨_, _, htr⟩ := hnext
    subst htr
    obtain ⟨pre, hpo, hps, hshape⟩ := processSample_trace yuv _ cap2 _ _ ev hp
    simp only at hshape
    rcases hshape with hs | ⟨hd, u1, _, _, _, hs⟩ | ⟨hd, hs⟩ | ⟨hd, s1, _, _, _, hs⟩
    · subst hs
      refine ⟨Or.inl (by simp [List.filter_append, h0s, hps]), ?_⟩
      intro _ hfr
      exact absurd (by simp [List.filter_append, h0o, hpo]) hfr
    · subst hs
      refine ⟨Or.inl (by simp [List.filter_append, h0s, hps, Event.isI420Scale]), ?_⟩
      intro hne
      exact absurd hd hne
    · subst hs
      have hf : (ev0 ++ (pre ++ [Event.I420Scale (toInt32 sample.image.cols)
          (toInt32 sample.image.rows) output_width output_height FilterMode.kFilterBox])).filter
          Event.isI420Scale = [Event.I420Scale (toInt32 sample.image.cols)
          (toInt32 sample.image.rows) output_width output_height FilterMode.kFilterBox] := by
        simp [List.filter_append, h0s, hps, Event.isI420Scale]
      exact ⟨Or.inr ⟨hd, hf⟩, fun _ _ => hf⟩
    · subst hs
      have hf : (ev0 ++ (pre ++ [Event.I420Scale (toInt32 sample.image.cols)
          (toInt32 sample.image.rows) output_width output_height FilterMode.kFilterBox,
          Event.OnFrame BufferSlot.scaled s1 s1.width s1.height 0])).filter
          Event.isI420Scale = [Event.I420Scale (toInt32 sample.image.cols)
          (toInt32 sample.image.rows) output_width output_height FilterMode.kFilterBox] := by
        simp [List.filter_append, h0s, hps, Event.isI420Scale]
      exact ⟨Or.inr ⟨hd, hf⟩, fun _ _ => hf⟩

/-- Witness of C28 as amended: the 3 x 2 sample rescaled to 2 x 2. -/
theorem C28_rescale_uses_box_filter_witness :
    Examples.connected.NextFrame Examples.recvSolid =
      some (Examples.promoted, [Event.Receive 0 100], some (Examples.solidSample, 2, 2)) ∧
    VideoCapturer.NextFrame Examples.libyuv VideoCapturer.new Examples.connected
      Examples.recvSolid = some (Examples.solidCapturer, Examples.promoted, Examples.solidTrace) ∧
    Examples.solidTrace.filter Event.isI420Scale =
      [Event.I420Scale 3 2 2 2 FilterMode.kFilterBox] := by
  have hrecv : Examples.connected.NextFrame Examples.recvSolid =
      some (Examples.promoted, [Event.Receive 0 100], some (Examples.solidSample, 2, 2)) := by
    decide
  have hnext : VideoCapturer.NextFrame Examples.libyuv VideoCapturer.new Examples.connected
      Examples.recvSolid
      = some (Examples.solidCapturer, Examples.promoted, Examples.solidTrace) := by
    decide
  have h := (C28_rescale_uses_box_filter Examples.libyuv VideoCapturer.new Examples.solidCapturer
    Examples.connected Examples.promoted Examples.promoted Examples.recvSolid
    [Event.Receive 0 100] Examples.solidTrace Examples.solidSample 2 2 hrecv hnext).2
    (by decide) (by decide)
  exact ⟨hrecv, hnext, h⟩

/-- The conversion of a sample of a supported format whose size passes the
CHECKs: the call for its bytes per pixel is made on the whole data, and the
buffer receives the planes the call returns. -/
theorem convert_supported_result (yuv : Libyuv) (img : Image) (u0 : I420Buffer) (depth : Nat)
    (hfmt : bytesPerPixel img.format = some depth)
    (hcols : img.cols > 0) (hrows : img.rows > 0)
    (hlen : img.data.length = (img.cols * img.rows * depth) % 2 ^ 32) :
    VideoCapturer.convert yuv img u0 =
      some ((convertAt yuv img u0 depth).map u0.withPlanes,
            conversionAt img.cols img.rows depth) := by
  have e : (2 : Nat) ^ 32 = 4294967296 := by norm_num
  rw [e] at hlen
  unfold VideoCapturer.convert
  cases hf : img.format with
  | PB_LUMINANCE =>
    rw [hf] at hfmt
    simp only [bytesPerPixel, Option.some.injEq] at hfmt
    subst hfmt
    rw [Nat.mul_one] at hlen
    simp only [ConvertGrayToYUV, e, hcols, hrows, hlen, not_true_eq_false, if_false, convertAt,
      conversionAt]
    cases yuv.I400ToI420 img.data img.cols u0 img.cols img.rows <;> rfl
  | PB_RGB =>
    rw [hf] at hfmt
    simp only [bytesPerPixel, Option.some.injEq] at hfmt
    subst hfmt
    have hmod : ((img.cols * img.rows) % 4294967296 * 3) % 4294967296 =
        (img.cols * img.rows * 3) % 4294967296 := by omega
    simp only [ConvertToYUV, e, hcols, hrows, hmod, hlen, not_true_eq_false, if_false, convertAt,
      conversionAt]
    cases yuv.ConvertToI420 img.data u0 img.cols img.rows FourCC.FOURCC_RAW <;> rfl
  | PB_RGBA =>
    rw [hf] at hfmt
    simp only [bytesPerPixel, Option.some.injEq] at hfmt
    subst hfmt
    have hmod : ((img.cols * img.rows) % 4294967296 * 4) % 4294967296 =
        (img.cols * img.rows * 4) % 4294967296 := by omega
    simp only [ConvertToYUV, e, hcols, hrows, hmod, hlen, not_true_eq_false, if_false, convertAt,
      conversionAt]
    cases yuv.ConvertToI420 img.data u0 img.cols img.rows FourCC.FOURCC_RGBA <;> rfl
  | PB_OTHER_FORMAT tag =>
    rw [hf] at hfmt
    exact Option.noConfusion hfmt

theorem bytesPerPixel_le (fmt : Format) (depth : Nat) (h : bytesPerPixel fmt = some depth) :
    1 ≤ depth ∧ depth ≤ 4 := by
  cases fmt <;> simp only [bytesPerPixel, Option.some.injEq] at h <;>
    first
    | (subst h; exact ⟨by decide, by decide⟩)
    | exact Option.noConfusion h

/-- What processSample does with a sample of unsigned bytes: the two buffers
are ensured, and the result is decided by the conversion, the comparison of the
sizes and the scale call. -/
theorem processSample_cases (yuv : Libyuv) (cap : VideoCapturer)
    (output_width output_height : Int)
    (htype : cap.sample_.image.type = PixelType.PB_UNSIGNED_BYTE) :
    VideoCapturer.processSample yuv cap output_width output_height =
      match VideoCapturer.convert yuv cap.sample_.image
          (VideoCapturer.ensureBuffer BufferSlot.unscaled cap.unscaled_
            (toInt32 cap.sample_.image.cols) (toInt32 cap.sample_.image.rows)).1 with
      | none => none
      | some (none, ev3) =>
        some ({ cap with
                unscaled_ := some (VideoCapturer.ensureBuffer BufferSlot.unscaled cap.unscaled_
                  (toInt32 cap.sample_.image.cols) (toInt32 cap.sample_.image.rows)).1,
                scaled_ := some (VideoCapturer.ensureBuffer BufferSlot.scaled cap.scaled_
                  output_width output_height).1 },
              (VideoCapturer.ensureBuffer BufferSlot.unscaled cap.unscaled_
                (toInt32 cap.sample_.image.cols) (toInt32 cap.sample_.image.rows)).2 ++
              (VideoCapturer.ensureBuffer BufferSlot.scaled cap.scaled_
                output_width output_height).2 ++ ev3)
      | some (some u1, ev3) =>
        if toInt32 cap.sample_.image.cols ≠ output_width ∨
            toInt32 cap.sample_.image.rows ≠ output_height then
          match yuv.I420Scale u1 (VideoCapturer.ensureBuffer BufferSlot.scaled cap.scaled_
              output_width output_height).1 FilterMode.kFilterBox with
          | none =>
            some ({ cap with
                    unscaled_ := some u1,
                    scaled_ := some (VideoCapturer.ensureBuffer BufferSlot.scaled cap.scaled_
                      output_width output_height).1 },
                  (VideoCapturer.ensureBuffer BufferSlot.unscaled cap.unscaled_
                    (toInt32 cap.sample_.image.cols) (toInt32 cap.sample_.image.rows)).2 ++
                  (VideoCapturer.ensureBuffer BufferSlot.scaled cap.scaled_
                    output_width output_height).2 ++ ev3 ++
                  [Event.I420Scale u1.width u1.height
                    (VideoCapturer.ensureBuffer BufferSlot.scaled cap.scaled_
                      output_width output_height).1.width
                    (VideoCapturer.ensureBuffer BufferSlot.scaled cap.scaled_
                      output_width output_height).1.height FilterMode.kFilterBox])
          | some p =>
            some ({ cap with
                    unscaled_ := some u1,
                    scaled_ := some ((VideoCapturer.ensureBuffer BufferSlot.scaled cap.scaled_
                      output_width output_height).1.withPlanes p) },
                  (VideoCapturer.ensureBuffer BufferSlot.unscaled cap.unscaled_
                    (toInt32 cap.sample_.image.cols) (toInt32 cap.sample_.image.rows)).2 ++
                  (VideoCapturer.ensureBuffer BufferSlot.scaled cap.scaled_
                    output_width output_height).2 ++ ev3 ++
                  [Event.I420Scale u1.width u1.height
                    (VideoCapturer.ensureBuffer BufferSlot.scaled cap.scaled_
                      output_width output_height).1.width
                    (VideoCapturer.ensureBuffer BufferSlot.scaled cap.scaled_
                      output_width output_height).1.height FilterMode.kFilterBox,
                   Event.OnFrame BufferSlot.scaled
                    ((VideoCapturer.ensureBuffer BufferSlot.scaled cap.scaled_
                      output_width output_height).1.withPlanes p)
                    ((VideoCapturer.ensureBuffer BufferSlot.scaled cap.scaled_
                      output_width output_height).1.withPlanes p).width
                    ((VideoCapturer.ensureBuffer BufferSlot.scaled cap.scaled_
                      output_width output_height).1.withPlanes p).height 0])
        else
          some ({ cap with
                  unscaled_ := some u1,
                  scaled_ := some (VideoCapturer.ensureBuffer BufferSlot.scaled cap.scaled_
                    output_width output_height).1 },
                (VideoCapturer.ensureBuffer BufferSlot.unscaled cap.unscaled_
                  (toInt32 cap.sample_.image.cols) (toInt32 cap.sample_.image.rows)).2 ++
                (VideoCapturer.ensureBuffer BufferSlot.scaled cap.scaled_
                  output_width output_height).2 ++ ev3 ++
                [Event.OnFrame BufferSlot.unscaled u1 u1.width u1.height 0]) := by
  unfold VideoCapturer.processSample
  rw [if_neg (by simp [htype])]

theorem conversionAt_filter_other (p : Event → Bool) (cols rows depth : Nat)
    (h1 : ∀ c r, p (Event.I400ToI420 c r) = false)
    (h2 : ∀ f c r, p (Event.ConvertToI420 f c r) = false) :
    (conversionAt cols rows depth).filter p = [] := by
  unfold conversionAt
  split <;> simp [List.filter, h1, h2]

/-- Within the range where the size computation of the CHECKs does not wrap, a
sample of unsigned bytes in a supported format whose size passes the CHECKs and
whose conversion returns planes: what processSample returns. -/
theorem processSample_converted (yuv : Libyuv) (cap : VideoCapturer)
    (output_width output_height : Int) (depth : Nat) (p : Planes) (u0 s0 : I420Buffer)
    (htype : cap.sample_.image.type = PixelType.PB_UNSIGNED_BYTE)
    (hfmt : bytesPerPixel cap.sample_.image.format = some depth)
    (hcols : cap.sample_.image.cols > 0) (hrows : cap.sample_.image.rows > 0)
    (hlen : cap.sample_.image.data.length =
      cap.sample_.image.cols * cap.sample_.image.rows * depth)
    (hsize : cap.sample_.image.cols * cap.sample_.image.rows * depth < 2 ^ 31)
    (hu0 : u0 = (VideoCapturer.ensureBuffer BufferSlot.unscaled cap.unscaled_
      (cap.sample_.image.cols : Int) (cap.sample_.image.rows : Int)).1)
    (hs0 : s0 = (VideoCapturer.ensureBuffer BufferSlot.scaled cap.scaled_
      output_width output_height).1)
    (hplanes : convertAt yuv cap.sample_.image u0 depth = some p) :
    ∃ pre, pre.filter Event.isOnFrame = [] ∧ pre.filter Event.isI420Scale = [] ∧
      pre.filter Event.isConversion =
        conversionAt cap.sample_.image.cols cap.sample_.image.rows depth ∧
      (u0.withPlanes p).width = (cap.sample_.image.cols : Int) ∧
      (u0.withPlanes p).height = (cap.sample_.image.rows : Int) ∧
      s0.width = output_width ∧ s0.height = output_height ∧
      VideoCapturer.processSample yuv cap output_width output_height =
        if (cap.sample_.image.cols : Int) ≠ output_width ∨
            (cap.sample_.image.rows : Int) ≠ output_height then
          match yuv.I420Scale (u0.withPlanes p) s0 FilterMode.kFilterBox with
          | none =>
            some ({ cap with unscaled_ := some (u0.withPlanes p), scaled_ := some s0 },
                  pre ++ [Event.I420Scale (cap.sample_.image.cols : Int)
                    (cap.sample_.image.rows : Int) output_width output_height
                    FilterMode.kFilterBox])
          | some q =>
            some ({ cap with unscaled_ := some (u0.withPlanes p),
                             scaled_ := some (s0.withPlanes q) },
                  pre ++ [Event.I420Scale (cap.sample_.image.cols : Int)
                    (cap.sample_.image.rows : Int) output_width output_height
                    FilterMode.kFilterBox,
                   Event.OnFrame BufferSlot.scaled (s0.withPlanes q) output_width
                    output_height 0])
        else
          some ({ cap with unscaled_ := some (u0.withPlanes p), scaled_ := some s0 },
                pre ++ [Event.OnFrame BufferSlot.unscaled (u0.withPlanes p)
                  (cap.sample_.image.cols : Int) (cap.sample_.image.rows : Int) 0]) := by
  have e31 : (2 : Nat) ^ 31 = 2147483648 := by norm_num
  have e32 : (2 : Nat) ^ 32 = 4294967296 := by norm_num
  rw [e31] at hsize
  obtain ⟨hd1, _⟩ := bytesPerPixel_le _ _ hfmt
  have hprod : cap.sample_.image.cols * cap.sample_.image.rows ≤
      cap.sample_.image.cols * cap.sample_.image.rows * depth := Nat.le_mul_of_pos_right _ hd1
  have hcl : cap.sample_.image.cols ≤ cap.sample_.image.cols * cap.sample_.image.rows :=
    Nat.le_mul_of_pos_right _ hrows
  have hrl : cap.sample_.image.rows ≤ cap.sample_.image.cols * cap.sample_.image.rows :=
    Nat.le_mul_of_pos_left _ hcols
  have hsw : toInt32 cap.sample_.image.cols = (cap.sample_.image.cols : Int) :=
    toInt32_small _ (by omega)
  have hsh : toInt32 cap.sample_.image.rows = (cap.sample_.image.rows : Int) :=
    toInt32_small _ (by omega)
  have hlenw : cap.sample_.image.data.length =
      (cap.sample_.image.cols * cap.sample_.image.rows * depth) % 2 ^ 32 := by
    rw [e32, Nat.mod_eq_of_lt (by omega)]
    exact hlen
  have hconv := convert_supported_result yuv cap.sample_.image u0 depth hfmt hcols hrows hlenw
  rw [hplanes] at hconv
  simp only [Option.map_some'] at hconv
  obtain ⟨hu0w, hu0h⟩ := ensureBuffer_size BufferSlot.unscaled cap.unscaled_
    (cap.sample_.image.cols : Int) (cap.sample_.image.rows : Int)
  obtain ⟨hs0w, hs0h⟩ := ensureBuffer_size BufferSlot.scaled cap.scaled_
    output_width output_height
  rw [← hu0] at hu0w hu0h
  rw [← hs0] at hs0w hs0h
  have hcases := processSample_cases yuv cap output_width output_height htype
  rw [hsw, hsh, ← hu0, ← hs0, hconv] at hcases
  simp only at hcases
  have hw1 : (u0.withPlanes p).width = (cap.sample_.image.cols : Int) := hu0w
  have hh1 : (u0.withPlanes p).height = (cap.sample_.image.rows : Int) := hu0h
  rw [hw1, hh1, hs0w, hs0h] at hcases
  refine ⟨(VideoCapturer.ensureBuffer BufferSlot.unscaled cap.unscaled_
      (cap.sample_.image.cols : Int) (cap.sample_.image.rows : Int)).2 ++
    (VideoCapturer.ensureBuffer BufferSlot.scaled cap.scaled_ output_width output_height).2 ++
    conversionAt cap.sample_.image.cols cap.sample_.image.rows depth, ?_, ?_, ?_,
    hw1, hh1, hs0w, hs0h, ?_⟩
  · simp [List.filter_append,
      ensureBuffer_events Event.isOnFrame (fun _ _ _ _ _ _ => rfl),
      conversionAt_filter_other Event.isOnFrame _ _ _ (fun _ _ => rfl) (fun _ _ _ => rfl)]
  · simp [List.filter_append,
      ensureBuffer_events Event.isI420Scale (fun _ _ _ _ _ _ => rfl),
      conversionAt_filter_other Event.isI420Scale _ _ _ (fun _ _ => rfl) (fun _ _ _ => rfl)]
  · simp [List.filter_append,
      ensureBuffer_events Event.isConversion (fun _ _ _ _ _ _ => rfl),
      conversionAt_filter _ _ _ _ hfmt]
  · rw [hcases]
    have hwq : ∀ q, (s0.withPlanes q).width = output_width := fun _ => hs0w
    have hhq : ∀ q, (s0.withPlanes q).height = output_height := fun _ => hs0h
    split
    · cases yuv.I420Scale (u0.withPlanes p) s0 FilterMode.kFilterBox with
      | none => rfl
      | some q => simp only [hwq, hhq]
    · rfl

/-- VideoCapturer::NextFrame on a delivered sample is processSample on that
sample, after the trace of Session::NextFrame. -/
theorem NextFrame_of_delivered (yuv : Libyuv) (cap : VideoCapturer)
    (session session1 : Session) (recv : Socket → Option CameraSample) (ev0 : List Event)
    (sample : CameraSample) (output_width output_height : Int)
    (hrecv : session.NextFrame recv =
      some (session1, ev0, some (sample, output_width, output_height))) :
    VideoCapturer.NextFrame yuv cap session recv =
      match VideoCapturer.processSample yuv { cap with sample_ := sample }
          output_width output_height with
      | none => none
      | some (cap1, ev) => some (cap1, session1, ev0 ++ ev) := by
  unfold VideoCapturer.NextFrame
  rw [hrecv]

/-- Claim C9.  Let Session::NextFrame deliver a sample of unsigned bytes in a
supported format with d bytes per pixel, with cols and rows greater than zero,
cols x rows x d bytes of data (fewer than 2^31), and let libyuv convert it into
the unscaled buffer u0 that NextFrame ensures, returning the planes p.  When the
source size is the output size, NextFrame returns having handed exactly one
frame to OnFrame: the unscaled buffer with the planes p, with the output width
and height, and no scale call is made.  When the sizes differ, exactly one
scale call is made, from the unscaled buffer of the source size to the scaled
buffer of the output size; when it returns planes q, NextFrame returns having
handed exactly one frame to OnFrame, the scaled buffer with the planes q, with
the output width and height; when it fails, no frame is handed out. -/
theorem C9_frame_has_output_size (yuv : Libyuv) (cap : VideoCapturer)
    (session session1 : Session) (recv : Socket → Option CameraSample) (ev0 : List Event)
    (sample : CameraSample) (output_width output_height : Int) (depth : Nat) (p : Planes)
    (u0 s0 : I420Buffer)
    (hrecv : session.NextFrame recv =
      some (session1, ev0, some (sample, output_width, output_height)))
    (htype : sample.image.type = PixelType.PB_UNSIGNED_BYTE)
    (hfmt : bytesPerPixel sample.image.format = some depth)
    (hcols : sample.image.cols > 0) (hrows : sample.image.rows > 0)
    (hlen : sample.image.data.length = sample.image.cols * sample.image.rows * depth)
    (hsize : sample.image.cols * sample.image.rows * depth < 2 ^ 31)
    (hu0 : u0 = (VideoCapturer.ensureBuffer BufferSlot.unscaled cap.unscaled_
      (sample.image.cols : Int) (sample.image.rows : Int)).1)
    (hs0 : s0 = (VideoCapturer.ensureBuffer BufferSlot.scaled cap.scaled_
      output_width output_height).1)
    (hplanes : convertAt yuv sample.image u0 depth = some p) :
    (((sample.image.cols : Int) = output_width ∧ (sample.image.rows : Int) = output_height) →
      ∃ cap1 tr, VideoCapturer.NextFrame yuv cap session recv = some (cap1, session1, tr) ∧
        tr.filter Event.isOnFrame =
          [Event.OnFrame BufferSlot.unscaled (u0.withPlanes p) output_width output_height 0] ∧
        (u0.withPlanes p).width = output_width ∧ (u0.withPlanes p).height = output_height ∧
        cap1.unscaled_ = some (u0.withPlanes p) ∧
        tr.filter Event.isI420Scale = []) ∧
    (¬ ((sample.image.cols : Int) = output_width ∧ (sample.image.rows : Int) = output_height) →
      ∀ q, yuv.I420Scale (u0.withPlanes p) s0 FilterMode.kFilterBox = some q →
      ∃ cap1 tr, VideoCapturer.NextFrame yuv cap session recv = some (cap1, session1, tr) ∧
        tr.filter Event.isOnFrame =
          [Event.OnFrame BufferSlot.scaled (s0.withPlanes q) output_width output_height 0] ∧
        (s0.withPlanes q).width = output_width ∧ (s0.withPlanes q).height = output_height ∧
        cap1.scaled_ = some (s0.withPlanes q) ∧
        tr.filter Event.isI420Scale =
          [Event.I420Scale (sample.image.cols : Int) (sample.image.rows : Int)
            output_width output_height FilterMode.kFilterBox]) ∧
    (¬ ((sample.image.cols : Int) = output_width ∧ (sample.image.rows : Int) = output_height) →
      yuv.I420Scale (u0.withPlanes p) s0 FilterMode.kFilterBox = none →
      ∃ cap1 tr, VideoCapturer.NextFrame yuv cap session recv = some (cap1, session1, tr) ∧
        tr.filter Event.isOnFrame = [] ∧
        tr.filter Event.isI420Scale =
          [Event.I420Scale (sample.image.cols : Int) (sample.image.rows : Int)
            output_width output_height FilterMode.kFilterBox]) := by
  have h0o := Session_NextFrame_events Event.isOnFrame (fun _ => rfl) (fun _ _ => rfl)
    session session1 recv ev0 _ hrecv
  have h0s := Session_NextFrame_events Event.isI420Scale (fun _ => rfl) (fun _ _ => rfl)
    session session1 recv ev0 _ hrecv
  obtain ⟨pre, hpo, hps, _, hw1, hh1, hs0w, hs0h, hproc⟩ :=
    processSample_converted yuv { cap with sample_ := sample } output_width output_height
      depth p u0 s0 htype hfmt hcols hrows hlen hsize hu0 hs0 hplanes
  simp only at hproc
  have hnf := NextFrame_of_delivered yuv cap session session1 recv ev0 sample output_width
    output_height hrecv
  refine ⟨?_, ?_, ?_⟩
  · intro hsame
    have hc : ¬ ((sample.image.cols : Int) ≠ output_width ∨
        (sample.image.rows : Int) ≠ output_height) := by
      simp [hsame.1, hsame.2]
    rw [if_neg hc] at hproc
    rw [hproc] at hnf
    refine ⟨_, _, hnf, ?_, hw1.trans hsame.1, hh1.trans hsame.2, rfl, ?_⟩
    · rw [List.filter_append, List.filter_append, h0o, hpo, hsame.1, hsame.2]
      rfl
    · rw [List.filter_append, List.filter_append, h0s, hps]
      rfl
  · intro hdiff q hq
    have hc : (sample.image.cols : Int) ≠ output_width ∨
        (sample.image.rows : Int) ≠ output_height := by
      by_contra hcon
      simp only [not_or, not_not] at hcon
      exact hdiff hcon
    rw [if_pos hc, hq] at hproc
    rw [hproc] at hnf
    refine ⟨_, _, hnf, ?_, hs0w, hs0h, rfl, ?_⟩
    · rw [List.filter_append, List.filter_append, h0o, hpo]
      rfl
    · rw [List.filter_append, List.filter_append, h0s, hps]
      rfl
  · intro hdiff hq
    have hc : (sample.image.cols : Int) ≠ output_width ∨
        (sample.image.rows : Int) ≠ output_height := by
      by_contra hcon
      simp only [not_or, not_not] at hcon
      exact hdiff hcon
    rw [if_pos hc, hq] at hproc
    rw [hproc] at hnf
    refine ⟨_, _, hnf, ?_, ?_⟩
    · rw [List.filter_append, List.filter_append, h0o, hpo]
      rfl
    · rw [List.filter_append, List.filter_append, h0s, hps]
      rfl

/-- Witness of C9: the 2 x 2 gray sample on a session with output size 2 x 2 is
handed out unscaled, and the 3 x 2 solid sample is rescaled to 2 x 2 and the
scaled buffer is handed out. -/
theorem C9_frame_has_output_size_witness :
    (∃ cap1 tr, VideoCapturer.NextFrame Examples.libyuv VideoCapturer.new Examples.connected
        Examples.recvGray = some (cap1, Examples.promoted, tr) ∧
      tr.filter Event.isOnFrame = [Event.OnFrame BufferSlot.unscaled Examples.grayFrame 2 2 0] ∧
      cap1.unscaled_ = some Examples.grayFrame ∧
      tr.filter Event.isI420Scale = []) ∧
    (∃ cap1 tr, VideoCapturer.NextFrame Examples.libyuv VideoCapturer.new Examples.connected
        Examples.recvSolid = some (cap1, Examples.promoted, tr) ∧
      tr.filter Event.isOnFrame = [Event.OnFrame BufferSlot.scaled Examples.scaledFrame 2 2 0] ∧
      cap1.scaled_ = some Examples.scaledFrame ∧
      tr.filter Event.isI420Scale = [Event.I420Scale 3 2 2 2 FilterMode.kFilterBox]) := by
  have hgray := (C9_frame_has_output_size Examples.libyuv VideoCapturer.new Examples.connected
    Examples.promoted Examples.recvGray [Event.Receive 0 100] Examples.graySample 2 2 1
    ([10, 20, 30, 40], [128], [128]) (I420Buffer.Create 2 2 2 1 1) (I420Buffer.Create 2 2 2 1 1)
    (by decide) rfl rfl (by decide) (by decide) (by decide) (by decide) (by decide) (by decide)
    (by decide)).1 ⟨rfl, rfl⟩
  have hsolid := (C9_frame_has_output_size Examples.libyuv VideoCapturer.new Examples.connected
    Examples.promoted Examples.recvSolid [Event.Receive 0 100] Examples.solidSample 2 2 1
    ([7, 7, 7, 7, 7, 7], [128, 128], [128, 128]) (I420Buffer.Create 3 2 3 2 2)
    (I420Buffer.Create 2 2 2 1 1)
    (by decide) rfl rfl (by decide) (by decide) (by decide) (by decide) (by decide) (by decide)
    (by decide)).2.1 (by decide) ([0, 0, 0, 0], [0], [0]) (by decide)
  obtain ⟨cap1, tr, h1, h2, _, _, h3, h4⟩ := hgray
  obtain ⟨cap2, tr2, k1, k2, _, _, k3, k4⟩ := hsolid
  exact ⟨⟨cap1, tr, h1, h2, h3, h4⟩, ⟨cap2, tr2, k1, k2, k3, k4⟩⟩

/-- Claim C10 as amended.  For a sample that Session::NextFrame delivers, with
cols x rows x 4 below 2^32, VideoCapturer::NextFrame aborts the process exactly
when the sample is of unsigned-byte type, its format is luminance, RGB or RGBA,
and cols is zero, or rows is zero, or the data length differs from cols x rows
x bytes-per-pixel: the CHECKs of ConvertGrayToYUV and ConvertToYUV.  In every
other case it returns, having handed at most one frame to OnFrame. -/
theorem C10_abort_exactly_on_failed_check (yuv : Libyuv) (cap : VideoCapturer)
    (session session1 : Session) (recv : Socket → Option CameraSample) (ev0 : List Event)
    (sample : CameraSample) (output_width output_height : Int)
    (hrecv : session.NextFrame recv =
      some (session1, ev0, some (sample, output_width, output_height)))
    (hsize : sample.image.cols * sample.image.rows * 4 < 2 ^ 32) :
    (VideoCapturer.NextFrame yuv cap session recv = none ↔
      sample.image.type = PixelType.PB_UNSIGNED_BYTE ∧
      ∃ depth, bytesPerPixel sample.image.format = some depth ∧
        (sample.image.cols = 0 ∨ sample.image.rows = 0 ∨
          sample.image.data.length ≠ sample.image.cols * sample.image.rows * depth)) ∧
    (∀ cap1 session2 tr,
      VideoCapturer.NextFrame yuv cap session recv = some (cap1, session2, tr) →
      (tr.filter Event.isOnFrame).length ≤ 1) := by
  obtain ⟨hiff, hone⟩ := NextFrame_none_iff_check yuv cap session session1 recv ev0 sample
    output_width output_height hrecv
  have hmod : ∀ depth, bytesPerPixel sample.image.format = some depth →
      (sample.image.cols * sample.image.rows * depth) % 2 ^ 32 =
        sample.image.cols * sample.image.rows * depth := by
    intro depth hd
    have hle := (bytesPerPixel_le _ _ hd).2
    have hmul : sample.image.cols * sample.image.rows * depth ≤
        sample.image.cols * sample.image.rows * 4 := Nat.mul_le_mul_left _ hle
    exact Nat.mod_eq_of_lt (lt_of_le_of_lt hmul hsize)
  refine ⟨hiff.trans ?_, hone⟩
  constructor
  · rintro ⟨ht, depth, hd, hbad⟩
    rw [hmod depth hd] at hbad
    exact ⟨ht, depth, hd, hbad⟩
  · rintro ⟨ht, depth, hd, hbad⟩
    refine ⟨ht, depth, hd, ?_⟩
    rw [hmod depth hd]
    exact hbad

/-- Witness of C10 as amended: the well-formed gray sample does not abort. -/
theorem C10_abort_exactly_on_failed_check_witness :
    Examples.connected.NextFrame Examples.recvGray =
      some (Examples.promoted, [Event.Receive 0 100], some (Examples.graySample, 2, 2)) ∧
    Examples.graySample.image.cols * Examples.graySample.image.rows * 4 < 2 ^ 32 ∧
    VideoCapturer.NextFrame Examples.libyuv VideoCapturer.new Examples.connected
      Examples.recvGray ≠ none ∧
    (Examples.grayTrace.filter Event.isOnFrame).length ≤ 1 := by
  have hrecv : Examples.connected.NextFrame Examples.recvGray =
      some (Examples.promoted, [Event.Receive 0 100], some (Examples.graySample, 2, 2)) := by
    decide
  have hsize : Examples.graySample.image.cols * Examples.graySample.image.rows * 4 < 2 ^ 32 := by
    decide
  obtain ⟨hiff, hone⟩ := C10_abort_exactly_on_failed_check Examples.libyuv VideoCapturer.new
    Examples.connected Examples.promoted Examples.recvGray [Event.Receive 0 100]
    Examples.graySample 2 2 hrecv hsize
  refine ⟨hrecv, hsize, ?_, hone Examples.grayCapturer Examples.promoted Examples.grayTrace
    (by decide)⟩
  intro hn
  obtain ⟨_, depth, hd, hbad⟩ := hiff.mp hn
  have hd1 : depth = 1 := by
    have : bytesPerPixel Examples.graySample.image.format = some 1 := rfl
    rw [this] at hd
    injection hd with hd
    exact hd.symm
  subst hd1
  revert hbad
  decide

/-- Claim C29, counterexample.  A 2 x 1 RGB sample of unsigned bytes that
carries five bytes instead of six is not converted: the CHECK_EQ on the data
size in ConvertToYUV aborts the process. -/
theorem C29_short_rgb_sample_aborts :
    Examples.shortRgbSample.image.type = PixelType.PB_UNSIGNED_BYTE ∧
    Examples.shortRgbSample.image.format = Format.PB_RGB ∧
    Examples.connected.NextFrame Examples.recvShortRgb =
      some (Examples.promoted, [Event.Receive 0 100], some (Examples.shortRgbSample, 2, 2)) ∧
    VideoCapturer.NextFrame Examples.libyuv VideoCapturer.new Examples.connected
      Examples.recvShortRgb = none := by
  refine ⟨rfl, rfl, ?_, ?_⟩ <;> decide

/-- Claim C29 as amended.  For a sample that Session::NextFrame delivers: when
its type is not unsigned byte, or its format is none of luminance, RGB and
RGBA, VideoCapturer::NextFrame returns without a conversion and without handing
a frame to OnFrame.  The bytes per pixel are 1 for luminance, 3 for RGB and 4
for RGBA.  When the type is unsigned byte, the format has d bytes per pixel and
cols x rows x d is below 2^31: the call aborts when cols or rows is zero or the
data length is not cols x rows x d; otherwise it returns after exactly one
conversion call, the one for d bytes per pixel (I400ToI420, ConvertToI420 with
FOURCC_RAW, ConvertToI420 with FOURCC_RGBA) on the whole data with the columns
and rows of the sample, which the conversion to int leaves unchanged.  When
that call returns planes, the unscaled buffer of the capturer holds them
afterwards, and it is the frame handed to OnFrame when the source size is the
output size; when the call fails, no frame is handed out. -/
theorem C29_unsupported_skipped_supported_converted (yuv : Libyuv) (cap : VideoCapturer)
    (session session1 : Session) (recv : Socket → Option CameraSample) (ev0 : List Event)
    (sample : CameraSample) (output_width output_height : Int) (u0 : I420Buffer)
    (hrecv : session.NextFrame recv =
      some (session1, ev0, some (sample, output_width, output_height)))
    (hu0 : u0 = (VideoCapturer.ensureBuffer BufferSlot.unscaled cap.unscaled_
      (sample.image.cols : Int) (sample.image.rows : Int)).1) :
    ((sample.image.type ≠ PixelType.PB_UNSIGNED_BYTE ∨
        bytesPerPixel sample.image.format = none) →
      ∃ cap1 tr, VideoCapturer.NextFrame yuv cap session recv = some (cap1, session1, tr) ∧
        tr.filter Event.isOnFrame = [] ∧ tr.filter Event.isConversion = []) ∧
    (bytesPerPixel Format.PB_LUMINANCE = some 1 ∧ bytesPerPixel Format.PB_RGB = some 3 ∧
      bytesPerPixel Format.PB_RGBA = some 4 ∧
      ∀ tag, bytesPerPixel (Format.PB_OTHER_FORMAT tag) = none) ∧
    (∀ depth, sample.image.type = PixelType.PB_UNSIGNED_BYTE →
      bytesPerPixel sample.image.format = some depth →
      sample.image.cols * sample.image.rows * depth < 2 ^ 31 →
      ((sample.image.cols = 0 ∨ sample.image.rows = 0 ∨
          sample.image.data.length ≠ sample.image.cols * sample.image.rows * depth) →
        VideoCapturer.NextFrame yuv cap session recv = none) ∧
      (sample.image.cols > 0 → sample.image.rows > 0 →
        sample.image.data.length = sample.image.cols * sample.image.rows * depth →
        toInt32 sample.image.cols = (sample.image.cols : Int) ∧
        toInt32 sample.image.rows = (sample.image.rows : Int) ∧
        ∃ cap1 tr, VideoCapturer.NextFrame yuv cap session recv = some (cap1, session1, tr) ∧
          tr.filter Event.isConversion =
            conversionAt sample.image.cols sample.image.rows depth ∧
          (∀ p, convertAt yuv sample.image u0 depth = some p →
            cap1.unscaled_ = some (u0.withPlanes p) ∧
            (((sample.image.cols : Int) = output_width ∧
                (sample.image.rows : Int) = output_height) →
              tr.filter Event.isOnFrame =
                [Event.OnFrame BufferSlot.unscaled (u0.withPlanes p)
                  output_width output_height 0])) ∧
          (convertAt yuv sample.image u0 depth = none →
            cap1.unscaled_ = some u0 ∧ tr.filter Event.isOnFrame = []))) := by
  have h0o := Session_NextFrame_events Event.isOnFrame (fun _ => rfl) (fun _ _ => rfl)
    session session1 recv ev0 _ hrecv
  have h0c := Session_NextFrame_events Event.isConversion (fun _ => rfl) (fun _ _ => rfl)
    session session1 recv ev0 _ hrecv
  have hnf := NextFrame_of_delivered yuv cap session session1 recv ev0 sample output_width
    output_height hrecv
  refine ⟨?_, ⟨rfl, rfl, rfl, fun _ => rfl⟩, ?_⟩
  · intro hskip
    obtain ⟨cap1, tr, hp, ho, hc, _⟩ := processSample_skipped yuv { cap with sample_ := sample }
      output_width output_height hskip
    rw [hp] at hnf
    refine ⟨cap1, ev0 ++ tr, hnf, ?_, ?_⟩
    · rw [List.filter_append, h0o, ho]
      rfl
    · rw [List.filter_append, h0c, hc]
      rfl
  · intro depth htype hfmt hsize
    have e31 : (2 : Nat) ^ 31 = 2147483648 := by norm_num
    have e32 : (2 : Nat) ^ 32 = 4294967296 := by norm_num
    have hsize2 : sample.image.cols * sample.image.rows * depth < 2147483648 := by
      rw [← e31]
      exact hsize
    have hmod : (sample.image.cols * sample.image.rows * depth) % 2 ^ 32 =
        sample.image.cols * sample.image.rows * depth := by
      rw [e32]
      exact Nat.mod_eq_of_lt (by omega)
    constructor
    · intro hbad
      have hnone := (processSample_none_iff yuv { cap with sample_ := sample }
        output_width output_height).mpr ⟨htype, depth, hfmt, by rw [hmod]; exact hbad⟩
      rw [hnone] at hnf
      exact hnf
    · intro hcols hrows hlen
      obtain ⟨hd1, _⟩ := bytesPerPixel_le _ _ hfmt
      have hprod : sample.image.cols * sample.image.rows ≤
          sample.image.cols * sample.image.rows * depth := Nat.le_mul_of_pos_right _ hd1
      have hcl : sample.image.cols ≤ sample.image.cols * sample.image.rows :=
        Nat.le_mul_of_pos_right _ hrows
      have hrl : sample.image.rows ≤ sample.image.cols * sample.image.rows :=
        Nat.le_mul_of_pos_left _ hcols
      have hsw : toInt32 sample.image.cols = (sample.image.cols : Int) :=
        toInt32_small _ (by omega)
      have hsh : toInt32 sample.image.rows = (sample.image.rows : Int) :=
        toInt32_small _ (by omega)
      refine ⟨hsw, hsh, ?_⟩
      have he1o := ensureBuffer_events Event.isOnFrame (fun _ _ _ _ _ _ => rfl)
        BufferSlot.unscaled cap.unscaled_ (sample.image.cols : Int) (sample.image.rows : Int)
      have he1c := ensureBuffer_events Event.isConversion (fun _ _ _ _ _ _ => rfl)
        BufferSlot.unscaled cap.unscaled_ (sample.image.cols : Int) (sample.image.rows : Int)
      have he2o := ensureBuffer_events Event.isOnFrame (fun _ _ _ _ _ _ => rfl)
        BufferSlot.scaled cap.scaled_ output_width output_height
      have he2c := ensureBuffer_events Event.isConversion (fun _ _ _ _ _ _ => rfl)
        BufferSlot.scaled cap.scaled_ output_width output_height
      have hcf := conversionAt_filter sample.image.cols sample.image.rows depth _ hfmt
      have hco := conversionAt_filter_other Event.isOnFrame sample.image.cols sample.image.rows
        depth (fun _ _ => rfl) (fun _ _ _ => rfl)
      cases hpl : convertAt yuv sample.image u0 depth with
      | some p =>
        obtain ⟨pre, hpo, _, hpc, _, _, _, _, hproc⟩ :=
          processSample_converted yuv { cap with sample_ := sample } output_width output_height
            depth p u0 _ htype hfmt hcols hrows hlen hsize hu0 rfl hpl
        simp only at hproc
        by_cases hc : (sample.image.cols : Int) ≠ output_width ∨
            (sample.image.rows : Int) ≠ output_height
        · rw [if_pos hc] at hproc
          have hne : ¬ ((sample.image.cols : Int) = output_width ∧
              (sample.image.rows : Int) = output_height) := by
            intro hh
            rcases hc with hc | hc
            · exact hc hh.1
            · exact hc hh.2
          cases hq : yuv.I420Scale (u0.withPlanes p)
              (VideoCapturer.ensureBuffer BufferSlot.scaled cap.scaled_
                output_width output_height).1 FilterMode.kFilterBox with
          | none =>
            rw [hq] at hproc
            rw [hproc] at hnf
            refine ⟨_, _, hnf, ?_, ?_, ?_⟩
            · rw [List.filter_append, List.filter_append, h0c, hpc]
              simp [List.filter, Event.isConversion]
            · intro p1 hp1
              injection hp1 with hp1
              subst hp1
              exact ⟨rfl, fun hh => absurd hh hne⟩
            · intro hcontra
              exact Option.noConfusion hcontra
          | some q =>
            rw [hq] at hproc
            rw [hproc] at hnf
            refine ⟨_, _, hnf, ?_, ?_, ?_⟩
            · rw [List.filter_append, List.filter_append, h0c, hpc]
              simp [List.filter, Event.isConversion]
            · intro p1 hp1
              injection hp1 with hp1
              subst hp1
              exact ⟨rfl, fun hh => absurd hh hne⟩
            · intro hcontra
              exact Option.noConfusion hcontra
        · rw [if_neg hc] at hproc
          simp only [not_or, not_not] at hc
          rw [hproc] at hnf
          refine ⟨_, _, hnf, ?_, ?_, ?_⟩
          · rw [List.filter_append, List.filter_append, h0c, hpc]
            simp [List.filter, Event.isConversion]
          · intro p1 hp1
            injection hp1 with hp1
            subst hp1
            refine ⟨rfl, fun _ => ?_⟩
            rw [List.filter_append, List.filter_append, h0o, hpo, hc.1, hc.2]
            rfl
          · intro hcontra
            exact Option.noConfusion hcontra
      | none =>
        have hlenw : sample.image.data.length =
            (sample.image.cols * sample.image.rows * depth) % 2 ^ 32 := by
          rw [hmod]
          exact hlen
        have hconv := convert_supported_result yuv sample.image u0 depth hfmt hcols hrows hlenw
        rw [hpl] at hconv
        simp only [Option.map_none'] at hconv
        have hcases := processSample_cases yuv { cap with sample_ := sample } output_width
          output_height htype
        simp only at hcases
        rw [hsw, hsh, ← hu0, hconv] at hcases
        simp only at hcases
        rw [hcases] at hnf
        refine ⟨_, _, hnf, ?_, ?_, ?_⟩
        · simp [List.filter_append, h0c, he1c, he2c, hcf]
        · intro p1 hp1
          exact Option.noConfusion hp1
        · intro _
          refine ⟨rfl, ?_⟩
          simp [List.filter_append, h0o, he1o, he2o, hco]

/-- Witness of C29 as amended: the 2 x 1 RGB sample with six bytes is converted
with three bytes per pixel, and the unscaled buffer holds the planes the
conversion returned. -/
theorem C29_unsupported_skipped_supported_converted_witness :
    Examples.connected.NextFrame Examples.recvRgb =
      some (Examples.promoted, [Event.Receive 0 100], some (Examples.rgbSample, 2, 2)) ∧
    ∃ cap1 tr, VideoCapturer.NextFrame Examples.libyuv VideoCapturer.new Examples.connected
        Examples.recvRgb = some (cap1, Examples.promoted, tr) ∧
      tr.filter Event.isConversion = [Event.ConvertToI420 FourCC.FOURCC_RAW 2 1] ∧
      cap1.unscaled_ = some (I420Buffer.Create 2 1 2 1 1) := by
  have hrecv : Examples.connected.NextFrame Examples.recvRgb =
      some (Examples.promoted, [Event.Receive 0 100], some (Examples.rgbSample, 2, 2)) := by
    decide
  obtain ⟨_, _, cap1, tr, hrun, hconv, hsome, _⟩ :=
    ((C29_unsupported_skipped_supported_converted Examples.libyuv VideoCapturer.new
      Examples.connected Examples.promoted Examples.recvRgb [Event.Receive 0 100]
      Examples.rgbSample 2 2 (I420Buffer.Create 2 1 2 1 1) hrecv (by decide)).2.2 3 rfl rfl
      (by decide)).2 (by decide) (by decide) (by decide)
  exact ⟨hrecv, cap1, tr, hrun, hconv,
    (hsome ((I420Buffer.Create 2 1 2 1 1).data_y, (I420Buffer.Create 2 1 2 1 1).data_u,
      (I420Buffer.Create 2 1 2 1 1).data_v) (by decide)).1⟩

end streamer
